import Mathlib

/-!
# AC_WPNav: horizontal position / velocity / acceleration cascade

A shallow embedding of `libraries/AC_WPNav/AC_WPNav.cpp`.

* `float` values are elements of a linearly ordered field `α`; the theorems are stated at
  `α = ℝ`, and with `safe_sqrt = Real.sqrt` wherever a square root is taken.  Rounding,
  infinities and NaN are outside the model.
* A quotient whose divisor is zero has no counterpart in an ordered field.  It is not given
  the value `0`: `fdiv` hands the numerator to an unspecified function `div_zero`, and every
  theorem holds for every such function.
* The collaborators (inertial estimator, attitude estimator, the four controllers, the clock)
  are black boxes; `Env` holds what they answer during one call.
* The `#define` constants of `AC_WPNav.h` and `AP_Math.h` are the fields of `Consts`.
* The bearing helpers (`get_bearing_cd` and its two callers) are `const` and use `atan2f`;
  they are not embedded.
-/

set_option linter.dupNamespace false

namespace AC_WPNav

/-! ## Data model -/

/-- Arithmetic the controller takes from the platform: `safe_sqrt` of `AP_Math`, and the
value of a quotient with zero divisor (as a function of the numerator). -/
structure FloatOps (α : Type) where
  safe_sqrt : α → α
  div_zero : α → α

/-- The constants the source file reads (`AC_WPNav.h`, `AP_Math.h`, `math.h`). -/
structure Consts (α : Type) where
  WPNAV_ACCELERATION : α
  WPNAV_ACCEL_MAX : α
  WPNAV_LOITER_SPEED : α
  WPNAV_LOITER_ACCEL_MAX : α
  WPNAV_LOITER_ACCEL_MIN : α
  MAX_LEAN_ANGLE : ℤ
  WPNAV_WP_SPEED : α
  WPNAV_WP_RADIUS : α
  WPNAV_WP_SPEED_UP : α
  WPNAV_WP_SPEED_DOWN : α
  WPNAV_ALT_HOLD_P : α
  WPNAV_ALT_HOLD_ACCEL_MAX : α
  WPNAV_MIN_LEASH_LENGTH : α
  GRAVITY_MSS : α
  M_PI : α

/-- `Vector2f`. -/
structure Vector2 (α : Type) where
  x : α
  y : α

/-- `Vector3f`. -/
structure Vector3 (α : Type) where
  x : α
  y : α
  z : α

/-- The bit field `_flags`. -/
structure Flags where
  reached_destination : Bool
  fast_waypoint : Bool

/-- Integrator terms of the four controllers `_pid_pos_lat`, `_pid_pos_lon`, `_pid_rate_lat`,
`_pid_rate_lon`; the controller reaches them only through `reset_I` and `get_pid`. -/
structure Integrators (α : Type) where
  pos_lat : α
  pos_lon : α
  rate_lat : α
  rate_lon : α

/-- What the collaborators answer during one call. -/
structure Env (α : Type) where
  /-- `_inav->get_position()` -/
  position : Vector3 α
  /-- `_inav->get_velocity()` -/
  velocity : Vector3 α
  /-- `_ahrs->roll_sensor` -/
  roll_sensor : ℤ
  /-- `_ahrs->pitch_sensor` -/
  pitch_sensor : ℤ
  /-- `_pid_pos_lat->kP()` -/
  kP : α
  /-- `_pid_pos_lat->get_p(error)` -/
  get_p_lat : α → α
  /-- `_pid_pos_lon->get_p(error)` -/
  get_p_lon : α → α
  /-- `_pid_rate_lat->get_pid(error, dt)` from integrator, error and dt to output and
  new integrator -/
  get_pid_lat : α → α → α → α × α
  /-- `_pid_rate_lon->get_pid(error, dt)` -/
  get_pid_lon : α → α → α → α × α
  /-- `hal.scheduler->millis()` -/
  millis : ℕ

/-- The members of `AC_WPNav`, with the integrators of its controllers. -/
structure State (α : Type) where
  _wp_speed_cms : α
  _wp_radius_cm : α
  _wp_speed_up_cms : α
  _wp_speed_down_cms : α
  _loiter_speed_cms : α
  _loiter_last_update : ℕ
  _wpnav_last_update : ℕ
  _cos_yaw : α
  _sin_yaw : α
  _cos_pitch : α
  _desired_roll : ℤ
  _desired_pitch : ℤ
  _target : Vector3 α
  _pilot_vel_forward_cms : α
  _pilot_vel_right_cms : α
  _target_vel : Vector3 α
  _vel_last : Vector3 α
  _lean_angle_max : ℤ
  _loiter_leash : α
  _wp_leash_xy : α
  dist_error : Vector2 α
  desired_vel : Vector2 α
  desired_accel : Vector2 α
  _origin : Vector3 α
  _destination : Vector3 α
  _pos_delta_unit : Vector3 α
  _track_length : α
  _track_desired : α
  _limited_speed_xy_cms : α
  _vert_track_scale : α
  _flags : Flags
  _distance_to_target : α
  pid_I : Integrators α

section Model

variable {α : Type} [LinearOrderedField α] [FloorRing α]

/-! ## Helpers of the maths library -/

/-- Float division `a / b`; a zero divisor gives the unspecified `F.div_zero a`. -/
def fdiv (F : FloatOps α) (a b : α) : α :=
  if b = 0 then F.div_zero a else a / b

/-- Modelled from the spec: `constrain_float(amt, low, high)` of `AP_Math`, the clamp of
`amt` to `[low, high]`, written as the nested comparison `amt < low ? low : (amt > high ?
high : amt)`. -/
def constrain_float (amt low high : α) : α :=
  if amt < low then low else if amt > high then high else amt

/-- Modelled from the spec: `constrain_int32(amt, low, high)` of `AP_Math`, the same clamp
on `int32_t`. -/
def constrain_int32 (amt low high : ℤ) : ℤ :=
  if amt < low then low else if amt > high then high else amt

/-- The implicit conversion of a `float` to `int32_t` at the assignments to `_desired_roll`
and `_desired_pitch`: truncation toward zero. -/
def to_int32 (v : α) : ℤ :=
  if 0 ≤ v then Int.floor v else Int.ceil v

/-- Modelled from the spec: `Vector3f::length()` of `AP_Math`, the Euclidean length. -/
def Vector3.length (F : FloatOps α) (v : Vector3 α) : α :=
  F.safe_sqrt (v.x * v.x + v.y * v.y + v.z * v.z)

/-- Modelled from the spec: `pythagorous2(a, b)` of `AP_Math`, the planar Euclidean
distance. -/
def pythagorous2 (F : FloatOps α) (a b : α) : α :=
  F.safe_sqrt (a * a + b * b)

/-! ## Leash lengths -/

/-- `AC_WPNav::calculate_loiter_leash_length`. -/
def calculate_loiter_leash_length (F : FloatOps α) (K : Consts α) (e : Env α)
    (s : State α) : State α :=
  let kP := e.kP
  if kP ≤ 0 then
    { s with _loiter_leash := K.WPNAV_MIN_LEASH_LENGTH }
  else
    let leash :=
      if s._loiter_speed_cms ≤ fdiv F K.WPNAV_ACCELERATION kP then
        fdiv F s._loiter_speed_cms kP
      else
        fdiv F K.WPNAV_ACCELERATION (2 * kP * kP)
          + fdiv F (s._loiter_speed_cms * s._loiter_speed_cms) (2 * K.WPNAV_ACCELERATION)
    let leash := if leash < K.WPNAV_MIN_LEASH_LENGTH then K.WPNAV_MIN_LEASH_LENGTH else leash
    { s with _loiter_leash := leash }

/-- `AC_WPNav::calculate_wp_leash_length`. -/
def calculate_wp_leash_length (F : FloatOps α) (K : Consts α) (e : Env α)
    (climb : Bool) (s : State α) : State α :=
  let kP := e.kP
  if kP ≤ 0 then
    { s with _wp_leash_xy := K.WPNAV_MIN_LEASH_LENGTH, _vert_track_scale := 1 }
  else
    let leash_xy :=
      if s._wp_speed_cms ≤ fdiv F K.WPNAV_ACCELERATION kP then
        fdiv F s._wp_speed_cms kP
      else
        fdiv F K.WPNAV_ACCELERATION (2 * kP * kP)
          + fdiv F (s._wp_speed_cms * s._wp_speed_cms) (2 * K.WPNAV_ACCELERATION)
    let leash_xy :=
      if leash_xy < K.WPNAV_MIN_LEASH_LENGTH then K.WPNAV_MIN_LEASH_LENGTH else leash_xy
    let speed_vert := if climb then s._wp_speed_up_cms else s._wp_speed_down_cms
    let leash_z :=
      if speed_vert ≤ fdiv F K.WPNAV_ALT_HOLD_ACCEL_MAX K.WPNAV_ALT_HOLD_P then
        fdiv F speed_vert K.WPNAV_ALT_HOLD_P
      else
        fdiv F K.WPNAV_ALT_HOLD_ACCEL_MAX (2 * K.WPNAV_ALT_HOLD_P * K.WPNAV_ALT_HOLD_P)
          + fdiv F (speed_vert * speed_vert) (2 * K.WPNAV_ALT_HOLD_ACCEL_MAX)
    let leash_z :=
      if leash_z < K.WPNAV_MIN_LEASH_LENGTH then K.WPNAV_MIN_LEASH_LENGTH else leash_z
    { s with _wp_leash_xy := leash_xy, _vert_track_scale := fdiv F leash_xy leash_z }

/-! ## Simple loiter controller -/

/-- `AC_WPNav::get_stopping_point`; the result is the out-parameter `target`. -/
def get_stopping_point (F : FloatOps α) (K : Consts α) (e : Env α) (s : State α)
    (position velocity : Vector3 α) : Vector3 α :=
  let kP := e.kP
  let vel_total := F.safe_sqrt (velocity.x * velocity.x + velocity.y * velocity.y)
  if vel_total < 10 ∨ kP ≤ 0 then
    position
  else
    let linear_velocity := fdiv F K.WPNAV_ACCELERATION kP
    let target_dist :=
      if vel_total < linear_velocity then
        fdiv F vel_total kP
      else
        fdiv F K.WPNAV_ACCELERATION (2 * kP * kP)
          + fdiv F (vel_total * vel_total) (2 * K.WPNAV_ACCELERATION)
    let target_dist := constrain_float target_dist 0 (s._loiter_leash * 2)
    { x := position.x + fdiv F (target_dist * velocity.x) vel_total,
      y := position.y + fdiv F (target_dist * velocity.y) vel_total,
      z := position.z }

/-- `AC_WPNav::set_loiter_target(const Vector3f& position)`. -/
def set_loiter_target (position : Vector3 α) (s : State α) : State α :=
  { s with _target := position, _target_vel := { s._target_vel with x := 0, y := 0 } }

/-- `AC_WPNav::set_loiter_target(const Vector3f& position, const Vector3f& velocity)`. -/
def set_loiter_target_vel (K : Consts α) (e : Env α) (position velocity : Vector3 α)
    (s : State α) : State α :=
  { s with
    _target := { s._target with x := position.x, y := position.y },
    _target_vel := { s._target_vel with x := velocity.x, y := velocity.y },
    _desired_roll := constrain_int32 e.roll_sensor (-K.MAX_LEAN_ANGLE) K.MAX_LEAN_ANGLE,
    _desired_pitch := constrain_int32 e.pitch_sensor (-K.MAX_LEAN_ANGLE) K.MAX_LEAN_ANGLE }

/-- `AC_WPNav::move_loiter_target`. -/
def move_loiter_target (K : Consts α) (control_roll control_pitch _dt : α)
    (s : State α) : State α :=
  { s with
    _pilot_vel_forward_cms := -control_pitch * K.WPNAV_LOITER_ACCEL_MAX / 4500,
    _pilot_vel_right_cms := control_roll * K.WPNAV_LOITER_ACCEL_MAX / 4500 }

/-- `AC_WPNav::translate_loiter_target_movements`. -/
def translate_loiter_target_movements (F : FloatOps α) (K : Consts α) (e : Env α)
    (nav_dt : α) (s : State α) : State α :=
  if nav_dt < 0 then
    s
  else
    let loiter_speed_cms := if s._loiter_speed_cms < 100 then 100 else s._loiter_speed_cms
    let target_vel_adj_x :=
      s._pilot_vel_forward_cms * s._cos_yaw - s._pilot_vel_right_cms * s._sin_yaw
    let target_vel_adj_y :=
      s._pilot_vel_forward_cms * s._sin_yaw + s._pilot_vel_right_cms * s._cos_yaw
    let vx := s._target_vel.x + target_vel_adj_x * nav_dt
    let vy := s._target_vel.y + target_vel_adj_y * nav_dt
    let vx :=
      if vx > 0 then
        let vx := vx - fdiv F
          ((K.WPNAV_LOITER_ACCEL_MAX - K.WPNAV_LOITER_ACCEL_MIN) * nav_dt * vx) loiter_speed_cms
        max (vx - K.WPNAV_LOITER_ACCEL_MIN * nav_dt) 0
      else if vx < 0 then
        let vx := vx - fdiv F
          ((K.WPNAV_LOITER_ACCEL_MAX - K.WPNAV_LOITER_ACCEL_MIN) * nav_dt * vx) loiter_speed_cms
        min (vx + K.WPNAV_LOITER_ACCEL_MIN * nav_dt) 0
      else vx
    let vy :=
      if vy > 0 then
        let vy := vy - fdiv F
          ((K.WPNAV_LOITER_ACCEL_MAX - K.WPNAV_LOITER_ACCEL_MIN) * nav_dt * vy) loiter_speed_cms
        max (vy - K.WPNAV_LOITER_ACCEL_MIN * nav_dt) 0
      else if vy < 0 then
        let vy := vy - fdiv F
          ((K.WPNAV_LOITER_ACCEL_MAX - K.WPNAV_LOITER_ACCEL_MIN) * nav_dt * vy) loiter_speed_cms
        min (vy + K.WPNAV_LOITER_ACCEL_MIN * nav_dt) 0
      else vy
    let vel_total := F.safe_sqrt (vx * vx + vy * vy)
    let scale := decide (vel_total > loiter_speed_cms ∧ vel_total > 0)
    let vx1 := if scale then fdiv F (loiter_speed_cms * vx) vel_total else vx
    let vy1 := if scale then fdiv F (loiter_speed_cms * vy) vel_total else vy
    let tx := s._target.x + vx1 * nav_dt
    let ty := s._target.y + vy1 * nav_dt
    let curr_pos := e.position
    let distance_err_x := tx - curr_pos.x
    let distance_err_y := ty - curr_pos.y
    let distance :=
      F.safe_sqrt (distance_err_x * distance_err_x + distance_err_y * distance_err_y)
    let pull := decide (distance > s._loiter_leash ∧ distance > 0)
    let tx1 :=
      if pull then curr_pos.x + fdiv F (s._loiter_leash * distance_err_x) distance else tx
    let ty1 :=
      if pull then curr_pos.y + fdiv F (s._loiter_leash * distance_err_y) distance else ty
    { s with
      _loiter_speed_cms := loiter_speed_cms,
      _target_vel := { s._target_vel with x := vx1, y := vy1 },
      _target := { s._target with x := tx1, y := ty1 } }

/-- `AC_WPNav::get_distance_to_target`. -/
def get_distance_to_target (s : State α) : α :=
  s._distance_to_target

/-- `AC_WPNav::reset_I`. -/
def reset_I (e : Env α) (s : State α) : State α :=
  { s with
    pid_I := { pos_lat := 0, pos_lon := 0, rate_lat := 0, rate_lon := 0 },
    _vel_last := e.velocity }

/-! ## Shared cascade -/

/-- `AC_WPNav::get_loiter_acceleration_to_lean_angles`. -/
def get_loiter_acceleration_to_lean_angles (F : FloatOps α) (K : Consts α)
    (accel_lat accel_lon : α) (s : State α) : State α :=
  let z_accel_meas := -K.GRAVITY_MSS * 100
  let accel_forward := accel_lat * s._cos_yaw + accel_lon * s._sin_yaw
  let accel_right := -accel_lat * s._sin_yaw + accel_lon * s._cos_yaw
  { s with
    _desired_roll := to_int32 (constrain_float
      (fdiv F (accel_right * s._cos_pitch) (-z_accel_meas) * fdiv F 18000 K.M_PI)
      (-(s._lean_angle_max : α)) (s._lean_angle_max : α)),
    _desired_pitch := to_int32 (constrain_float
      (fdiv F (-accel_forward) (-z_accel_meas) * fdiv F 18000 K.M_PI)
      (-(s._lean_angle_max : α)) (s._lean_angle_max : α)) }

/-- `AC_WPNav::get_loiter_velocity_to_acceleration`. -/
def get_loiter_velocity_to_acceleration (F : FloatOps α) (K : Consts α) (e : Env α)
    (vel_lat vel_lon dt : α) (s : State α) : State α :=
  let vel_curr := e.velocity
  let ff_x := if dt = 0 then 0 else fdiv F (vel_lat - s._vel_last.x) dt
  let ff_y := if dt = 0 then 0 else fdiv F (vel_lon - s._vel_last.y) dt
  let vel_error_x := vel_lat - vel_curr.x
  let vel_error_y := vel_lon - vel_curr.y
  let pid_lat := e.get_pid_lat s.pid_I.rate_lat vel_error_x dt
  let pid_lon := e.get_pid_lon s.pid_I.rate_lon vel_error_y dt
  let ax := ff_x + pid_lat.1
  let ay := ff_y + pid_lon.1
  let accel_total := F.safe_sqrt (ax * ax + ay * ay)
  let ax1 :=
    if accel_total > K.WPNAV_ACCEL_MAX then fdiv F (K.WPNAV_ACCEL_MAX * ax) accel_total else ax
  let ay1 :=
    if accel_total > K.WPNAV_ACCEL_MAX then fdiv F (K.WPNAV_ACCEL_MAX * ay) accel_total else ay
  get_loiter_acceleration_to_lean_angles F K ax1 ay1
    { s with
      desired_accel := { x := ax1, y := ay1 },
      _vel_last := { s._vel_last with x := vel_lat, y := vel_lon },
      pid_I := { s.pid_I with rate_lat := pid_lat.2, rate_lon := pid_lon.2 } }

/-- `AC_WPNav::get_loiter_position_to_velocity`. -/
def get_loiter_position_to_velocity (F : FloatOps α) (K : Consts α) (e : Env α)
    (dt max_speed_cms : α) (s : State α) : State α :=
  let curr := e.position
  let kP := e.kP
  if kP ≤ 0 then
    get_loiter_velocity_to_acceleration F K e 0 0 dt { s with desired_vel := { x := 0, y := 0 } }
  else
    let dist_error_x := s._target.x - curr.x
    let dist_error_y := s._target.y - curr.y
    let linear_distance := fdiv F K.WPNAV_ACCELERATION (2 * kP * kP)
    let dist_error_total :=
      F.safe_sqrt (dist_error_x * dist_error_x + dist_error_y * dist_error_y)
    let vel_sqrt :=
      F.safe_sqrt (2 * K.WPNAV_ACCELERATION * (dist_error_total - linear_distance))
    let vx :=
      if dist_error_total > 2 * linear_distance then
        fdiv F (vel_sqrt * dist_error_x) dist_error_total
      else e.get_p_lat dist_error_x
    let vy :=
      if dist_error_total > 2 * linear_distance then
        fdiv F (vel_sqrt * dist_error_y) dist_error_total
      else e.get_p_lon dist_error_y
    let vel_total := F.safe_sqrt (vx * vx + vy * vy)
    let vx1 := if vel_total > max_speed_cms then fdiv F (max_speed_cms * vx) vel_total else vx
    let vy1 := if vel_total > max_speed_cms then fdiv F (max_speed_cms * vy) vel_total else vy
    let vx2 := vx1 + s._target_vel.x
    let vy2 := vy1 + s._target_vel.y
    get_loiter_velocity_to_acceleration F K e vx2 vy2 dt
      { s with
        dist_error := { x := dist_error_x, y := dist_error_y },
        _distance_to_target := linear_distance,
        desired_vel := { x := vx2, y := vy2 } }

/-- Elapsed milliseconds `now - last` in `uint32_t` arithmetic, divided by `1000.0f`. -/
def elapsed_seconds (now last : ℕ) : α :=
  ((((now : ℤ) - (last : ℤ)) % 4294967296 : ℤ) : α) / 1000

/-- `AC_WPNav::update_loiter`. -/
def update_loiter (F : FloatOps α) (K : Consts α) (e : Env α) (s : State α) : State α :=
  let now := e.millis % 4294967296
  let dt : α := elapsed_seconds now s._loiter_last_update
  let s1 := { s with _loiter_last_update := now }
  let s2 := if dt ≥ 1 then reset_I e s1 else s1
  let dt := if dt ≥ 1 then 0 else dt
  let s3 := translate_loiter_target_movements F K e dt s2
  get_loiter_position_to_velocity F K e dt s3._loiter_speed_cms s3

/-! ## Waypoint navigation -/

/-- `AC_WPNav::set_origin_and_destination`. -/
def set_origin_and_destination (F : FloatOps α) (K : Consts α) (e : Env α)
    (origin destination : Vector3 α) (s : State α) : State α :=
  let pos_delta_x := destination.x - origin.x
  let pos_delta_y := destination.y - origin.y
  let pos_delta_z := destination.z - origin.z
  let climb := decide (pos_delta_z ≥ 0)
  let s1 := calculate_wp_leash_length F K e climb
    { s with _origin := origin, _destination := destination }
  let pos_delta : Vector3 α :=
    { x := pos_delta_x, y := pos_delta_y, z := pos_delta_z * s1._vert_track_scale }
  let track_length := pos_delta.length F
  let pos_delta_unit : Vector3 α :=
    if track_length = 0 then
      { x := 0, y := 0, z := 0 }
    else
      { x := fdiv F pos_delta.x track_length,
        y := fdiv F pos_delta.y track_length,
        z := fdiv F pos_delta.z track_length }
  let curr_vel := e.velocity
  let speed_along_track :=
    curr_vel.x * pos_delta_unit.x + curr_vel.y * pos_delta_unit.y
      + curr_vel.z * pos_delta_unit.z
  { s1 with
    _track_length := track_length,
    _pos_delta_unit := pos_delta_unit,
    _track_desired := 0,
    _target := origin,
    _flags := { reached_destination := false, fast_waypoint := false },
    _limited_speed_xy_cms := constrain_float speed_along_track 0 s1._wp_speed_cms,
    _desired_roll := constrain_int32 e.roll_sensor (-K.MAX_LEAN_ANGLE) K.MAX_LEAN_ANGLE,
    _desired_pitch := constrain_int32 e.pitch_sensor (-K.MAX_LEAN_ANGLE) K.MAX_LEAN_ANGLE,
    _target_vel := { s1._target_vel with x := 0, y := 0 } }

/-- `AC_WPNav::set_destination`. -/
def set_destination (F : FloatOps α) (K : Consts α) (e : Env α)
    (destination : Vector3 α) (s : State α) : State α :=
  let origin :=
    if s._flags.reached_destination = true
        ∧ ((e.millis % 4294967296 : ℕ) - (s._wpnav_last_update : ℤ)) % 4294967296 < 1000 then
      s._destination
    else
      get_stopping_point F K e s e.position e.velocity
  set_origin_and_destination F K e origin destination { s with _origin := origin }

/-- `AC_WPNav::advance_target_along_track`. -/
def advance_target_along_track (F : FloatOps α) (K : Consts α) (e : Env α)
    (dt : α) (s : State α) : State α :=
  let track_desired_temp := s._track_desired
  let curr_pos := e.position
  let curr_delta : Vector3 α :=
    { x := curr_pos.x - s._origin.x,
      y := curr_pos.y - s._origin.y,
      z := (curr_pos.z - s._origin.z) * s._vert_track_scale }
  let curr_delta_length := curr_delta.length F
  let curr_vel := e.velocity
  let speed_along_track :=
    curr_vel.x * s._pos_delta_unit.x + curr_vel.y * s._pos_delta_unit.y
      + curr_vel.z * s._pos_delta_unit.z
  let kP := e.kP
  let linear_velocity :=
    if kP ≥ 0 then fdiv F K.WPNAV_ACCELERATION kP else s._wp_speed_cms
  let limited_speed_xy_cms :=
    if speed_along_track < -linear_velocity then
      0
    else
      let l :=
        if dt > 0 ∧ s._limited_speed_xy_cms < s._wp_speed_cms then
          s._limited_speed_xy_cms + 2 * K.WPNAV_ACCELERATION * dt
        else s._limited_speed_xy_cms
      let l := if l > s._wp_speed_cms then s._wp_speed_cms else l
      if |speed_along_track| < linear_velocity then
        constrain_float l (speed_along_track - linear_velocity)
          (speed_along_track + linear_velocity)
      else l
  let track_covered :=
    curr_delta.x * s._pos_delta_unit.x + curr_delta.y * s._pos_delta_unit.y
      + curr_delta.z * s._pos_delta_unit.z
  let track_error :=
    F.safe_sqrt (curr_delta_length * curr_delta_length - track_covered * track_covered)
  let track_extra_max :=
    F.safe_sqrt (s._wp_leash_xy * s._wp_leash_xy - track_error * track_error)
  let track_desired_max := track_covered + track_extra_max
  let track_desired_temp := track_desired_temp + limited_speed_xy_cms * dt
  let track_desired_temp :=
    if track_desired_temp > track_desired_max then track_desired_max else track_desired_temp
  let track_desired_temp := constrain_float track_desired_temp 0 s._track_length
  let track_desired := max s._track_desired track_desired_temp
  let target : Vector3 α :=
    { x := s._origin.x + s._pos_delta_unit.x * track_desired,
      y := s._origin.y + s._pos_delta_unit.y * track_desired,
      z := s._origin.z + fdiv F (s._pos_delta_unit.z * track_desired) s._vert_track_scale }
  let dist_to_dest : Vector3 α :=
    { x := curr_pos.x - s._destination.x,
      y := curr_pos.y - s._destination.y,
      z := (curr_pos.z - s._destination.z) * s._vert_track_scale }
  let reached_destination :=
    if s._flags.reached_destination = false then
      if track_desired ≥ s._track_length then
        if s._flags.fast_waypoint = true then true
        else if dist_to_dest.length F ≤ s._wp_radius_cm then true
        else s._flags.reached_destination
      else s._flags.reached_destination
    else s._flags.reached_destination
  { s with
    _limited_speed_xy_cms := limited_speed_xy_cms,
    _track_desired := track_desired,
    _target := target,
    _flags := { s._flags with reached_destination := reached_destination } }

/-- `AC_WPNav::get_distance_to_destination`. -/
def get_distance_to_destination (F : FloatOps α) (e : Env α) (s : State α) : α :=
  let curr := e.position
  pythagorous2 F (s._destination.x - curr.x) (s._destination.y - curr.y)

/-- `AC_WPNav::update_wpnav`. -/
def update_wpnav (F : FloatOps α) (K : Consts α) (e : Env α) (s : State α) : State α :=
  let now := e.millis % 4294967296
  let dt : α := elapsed_seconds now s._wpnav_last_update
  let s1 := { s with _wpnav_last_update := now }
  let s2 := if dt ≥ 1 then reset_I e s1 else advance_target_along_track F K e dt s1
  let dt := if dt ≥ 1 then 0 else dt
  get_loiter_position_to_velocity F K e dt s2._wp_speed_cms s2

/-! ## Construction and reachable states -/

/-- The constructor `AC_WPNav::AC_WPNav`.  `garbage` gives the members that the initialiser
list leaves indeterminate and the integrators of the controllers handed in; the `Vector3f`
members not listed are zeroed by their own constructor. -/
def AC_WPNav (F : FloatOps α) (K : Consts α) (e : Env α) (garbage : State α) : State α :=
  calculate_loiter_leash_length F K e
    { garbage with
      _loiter_last_update := 0,
      _wpnav_last_update := 0,
      _cos_yaw := 1,
      _sin_yaw := 0,
      _cos_pitch := 1,
      _desired_roll := 0,
      _desired_pitch := 0,
      _target := { x := 0, y := 0, z := 0 },
      _pilot_vel_forward_cms := 0,
      _pilot_vel_right_cms := 0,
      _target_vel := { x := 0, y := 0, z := 0 },
      _vel_last := { x := 0, y := 0, z := 0 },
      _lean_angle_max := K.MAX_LEAN_ANGLE,
      _loiter_leash := K.WPNAV_MIN_LEASH_LENGTH,
      _wp_leash_xy := K.WPNAV_MIN_LEASH_LENGTH,
      dist_error := { x := 0, y := 0 },
      desired_vel := { x := 0, y := 0 },
      desired_accel := { x := 0, y := 0 },
      _origin := { x := 0, y := 0, z := 0 },
      _destination := { x := 0, y := 0, z := 0 },
      _pos_delta_unit := { x := 0, y := 0, z := 0 },
      _wp_speed_cms := K.WPNAV_WP_SPEED,
      _wp_radius_cm := K.WPNAV_WP_RADIUS,
      _wp_speed_up_cms := K.WPNAV_WP_SPEED_UP,
      _wp_speed_down_cms := K.WPNAV_WP_SPEED_DOWN,
      _loiter_speed_cms := K.WPNAV_LOITER_SPEED }

/-- Modelled from the spec: the writes that reach the object from outside this file, whose
setters are declared in `AC_WPNav.h`: the five parameters (configuration layer), the cached
trigonometry (attitude estimator) and `fast_waypoint` (mission layer). -/
def external_write (wp_speed wp_radius speed_up speed_down loiter_speed : α)
    (cos_yaw sin_yaw cos_pitch : α) (fast_waypoint : Bool) (s : State α) : State α :=
  { s with
    _wp_speed_cms := wp_speed,
    _wp_radius_cm := wp_radius,
    _wp_speed_up_cms := speed_up,
    _wp_speed_down_cms := speed_down,
    _loiter_speed_cms := loiter_speed,
    _cos_yaw := cos_yaw,
    _sin_yaw := sin_yaw,
    _cos_pitch := cos_pitch,
    _flags := { s._flags with fast_waypoint := fast_waypoint } }

/-- One call of a state-changing member function, with its arguments and the answers of the
collaborators during the call. -/
inductive Call (α : Type) where
  | set_loiter_target (position : Vector3 α)
  | set_loiter_target_vel (e : Env α) (position velocity : Vector3 α)
  | move_loiter_target (control_roll control_pitch dt : α)
  | translate_loiter_target_movements (e : Env α) (nav_dt : α)
  | update_loiter (e : Env α)
  | calculate_loiter_leash_length (e : Env α)
  | set_destination (e : Env α) (destination : Vector3 α)
  | set_origin_and_destination (e : Env α) (origin destination : Vector3 α)
  | advance_target_along_track (e : Env α) (dt : α)
  | update_wpnav (e : Env α)
  | get_loiter_position_to_velocity (e : Env α) (dt max_speed_cms : α)
  | get_loiter_velocity_to_acceleration (e : Env α) (vel_lat vel_lon dt : α)
  | get_loiter_acceleration_to_lean_angles (accel_lat accel_lon : α)
  | reset_I (e : Env α)
  | calculate_wp_leash_length (e : Env α) (climb : Bool)
  | external_write (wp_speed wp_radius speed_up speed_down loiter_speed : α)
      (cos_yaw sin_yaw cos_pitch : α) (fast_waypoint : Bool)

/-- The state after one call. -/
def Call.run (F : FloatOps α) (K : Consts α) (c : Call α) (s : State α) : State α :=
  match c with
  | .set_loiter_target p => AC_WPNav.set_loiter_target p s
  | .set_loiter_target_vel e p v => AC_WPNav.set_loiter_target_vel K e p v s
  | .move_loiter_target r p dt => AC_WPNav.move_loiter_target K r p dt s
  | .translate_loiter_target_movements e dt =>
      AC_WPNav.translate_loiter_target_movements F K e dt s
  | .update_loiter e => AC_WPNav.update_loiter F K e s
  | .calculate_loiter_leash_length e => AC_WPNav.calculate_loiter_leash_length F K e s
  | .set_destination e d => AC_WPNav.set_destination F K e d s
  | .set_origin_and_destination e o d => AC_WPNav.set_origin_and_destination F K e o d s
  | .advance_target_along_track e dt => AC_WPNav.advance_target_along_track F K e dt s
  | .update_wpnav e => AC_WPNav.update_wpnav F K e s
  | .get_loiter_position_to_velocity e dt m =>
      AC_WPNav.get_loiter_position_to_velocity F K e dt m s
  | .get_loiter_velocity_to_acceleration e a b dt =>
      AC_WPNav.get_loiter_velocity_to_acceleration F K e a b dt s
  | .get_loiter_acceleration_to_lean_angles a b =>
      AC_WPNav.get_loiter_acceleration_to_lean_angles F K a b s
  | .reset_I e => AC_WPNav.reset_I e s
  | .calculate_wp_leash_length e c => AC_WPNav.calculate_wp_leash_length F K e c s
  | .external_write a b c d l cy sy cp fw => AC_WPNav.external_write a b c d l cy sy cp fw s

/-- The state after a sequence of calls, first call first. -/
def run_calls (F : FloatOps α) (K : Consts α) (cs : List (Call α)) (s : State α) : State α :=
  cs.foldl (fun st c => c.run F K st) s

/-- States of a constructed object: the constructor followed by any calls. -/
def Reachable (F : FloatOps α) (K : Consts α) (s : State α) : Prop :=
  ∃ (e : Env α) (garbage : State α) (cs : List (Call α)),
    s = run_calls F K cs (AC_WPNav F K e garbage)

/-! ## Fixtures for the worked scenarios -/

/-- Constants with the values the scenarios use: acceleration 250, minimum leash 100. -/
def scenario_consts : Consts α :=
  { WPNAV_ACCELERATION := 250
    WPNAV_ACCEL_MAX := 980
    WPNAV_LOITER_SPEED := 500
    WPNAV_LOITER_ACCEL_MAX := 250
    WPNAV_LOITER_ACCEL_MIN := 25
    MAX_LEAN_ANGLE := 4500
    WPNAV_WP_SPEED := 500
    WPNAV_WP_RADIUS := 200
    WPNAV_WP_SPEED_UP := 250
    WPNAV_WP_SPEED_DOWN := 150
    WPNAV_ALT_HOLD_P := 1
    WPNAV_ALT_HOLD_ACCEL_MAX := 250
    WPNAV_MIN_LEASH_LENGTH := 100
    GRAVITY_MSS := 980665 / 100000
    M_PI := 314159265358979 / 100000000000000 }

/-- An estimator at rest at `position`, position gain `kP`, proportional controllers
`kP * error`, rate controllers answering `0`. -/
def scenario_env (kP : α) (position : Vector3 α) : Env α :=
  { position := position
    velocity := { x := 0, y := 0, z := 0 }
    roll_sensor := 0
    pitch_sensor := 0
    kP := kP
    get_p_lat := fun err => kP * err
    get_p_lon := fun err => kP * err
    get_pid_lat := fun i _ _ => (0, i)
    get_pid_lon := fun i _ _ => (0, i)
    millis := 0 }

/-- The state the constructor builds from all-zero memory with the scenario constants,
position gain `kP`. -/
def scenario_state (F : FloatOps α) (kP : α) : State α :=
  AC_WPNav F scenario_consts (scenario_env kP { x := 0, y := 0, z := 0 })
    { _wp_speed_cms := 0, _wp_radius_cm := 0, _wp_speed_up_cms := 0, _wp_speed_down_cms := 0,
      _loiter_speed_cms := 0, _loiter_last_update := 0, _wpnav_last_update := 0,
      _cos_yaw := 0, _sin_yaw := 0, _cos_pitch := 0, _desired_roll := 0, _desired_pitch := 0,
      _target := { x := 0, y := 0, z := 0 }, _pilot_vel_forward_cms := 0,
      _pilot_vel_right_cms := 0, _target_vel := { x := 0, y := 0, z := 0 },
      _vel_last := { x := 0, y := 0, z := 0 }, _lean_angle_max := 0, _loiter_leash := 0,
      _wp_leash_xy := 0, dist_error := { x := 0, y := 0 }, desired_vel := { x := 0, y := 0 },
      desired_accel := { x := 0, y := 0 }, _origin := { x := 0, y := 0, z := 0 },
      _destination := { x := 0, y := 0, z := 0 }, _pos_delta_unit := { x := 0, y := 0, z := 0 },
      _track_length := 0, _track_desired := 0, _limited_speed_xy_cms := 0,
      _vert_track_scale := 0, _flags := { reached_destination := false, fast_waypoint := false },
      _distance_to_target := 0,
      pid_I := { pos_lat := 0, pos_lon := 0, rate_lat := 0, rate_lon := 0 } }

/-- The scenario object after `set_origin_and_destination` from `(0, 0, 0)` to
`(1000, 0, 0)` with gain `2`: track length `1000`, unit vector `(1, 0, 0)`. -/
def scenario_segment (F : FloatOps α) : State α :=
  set_origin_and_destination F scenario_consts (scenario_env 2 { x := 0, y := 0, z := 0 })
    { x := 0, y := 0, z := 0 } { x := 1000, y := 0, z := 0 } (scenario_state F 2)

/-! ## Predicates used in the statements -/

/-- The two horizontal leashes of a state. -/
def leashes (s : State α) : α × α := (s._loiter_leash, s._wp_leash_xy)

/-- Both horizontal leashes are at least the minimum. -/
def leash_ok (K : Consts α) (s : State α) : Prop :=
  K.WPNAV_MIN_LEASH_LENGTH ≤ (leashes s).1 ∧ K.WPNAV_MIN_LEASH_LENGTH ≤ (leashes s).2

/-- The length `dist_to_dest.length()` that `advance_target_along_track` compares with the
waypoint radius: distance from the measured position to the destination, altitude difference
multiplied by `_vert_track_scale`. -/
def dist_to_dest_length (F : FloatOps α) (e : Env α) (s : State α) : α :=
  Vector3.length F
    { x := e.position.x - s._destination.x,
      y := e.position.y - s._destination.y,
      z := (e.position.z - s._destination.z) * s._vert_track_scale }

/-- Repeated `advance_target_along_track` within one segment, each call with its own
estimator readings and time step, first call first. -/
def advance_calls (F : FloatOps α) (K : Consts α) (cs : List (Env α × α))
    (s : State α) : State α :=
  cs.foldl (fun st c => advance_target_along_track F K c.1 c.2 st) s

/-- The members that carry the lean-angle outputs and their limit. -/
def lean_fields (s : State α) : ℤ × ℤ × ℤ :=
  (s._lean_angle_max, s._desired_roll, s._desired_pitch)

/-- Both lean-angle outputs lie in `[-L, L]`. -/
def lean_angles_bounded (L : ℤ) (s : State α) : Prop :=
  -L ≤ s._desired_roll ∧ s._desired_roll ≤ L ∧ -L ≤ s._desired_pitch ∧ s._desired_pitch ≤ L

/-- The limit is the one the constructor set and both outputs are within it. -/
def lean_inv (K : Consts α) (s : State α) : Prop :=
  s._lean_angle_max = K.MAX_LEAN_ANGLE ∧ lean_angles_bounded K.MAX_LEAN_ANGLE s

/-- The roll command of `get_loiter_acceleration_to_lean_angles` before clamping: the first
argument of `constrain_float` in the assignment to `_desired_roll`. -/
def roll_before_clamp (F : FloatOps α) (K : Consts α) (accel_lat accel_lon : α)
    (s : State α) : α :=
  let z_accel_meas := -K.GRAVITY_MSS * 100
  let accel_right := -accel_lat * s._sin_yaw + accel_lon * s._cos_yaw
  fdiv F (accel_right * s._cos_pitch) (-z_accel_meas) * fdiv F 18000 K.M_PI

/-- The pitch command of `get_loiter_acceleration_to_lean_angles` before clamping: the first
argument of `constrain_float` in the assignment to `_desired_pitch`. -/
def pitch_before_clamp (F : FloatOps α) (K : Consts α) (accel_lat accel_lon : α)
    (s : State α) : α :=
  let z_accel_meas := -K.GRAVITY_MSS * 100
  let accel_forward := accel_lat * s._cos_yaw + accel_lon * s._sin_yaw
  fdiv F (-accel_forward) (-z_accel_meas) * fdiv F 18000 K.M_PI

/-- The local `track_covered` of `advance_target_along_track`: the measured position
relative to the origin (altitude scaled), projected on the track unit vector. -/
def track_covered (e : Env α) (s : State α) : α :=
  (e.position.x - s._origin.x) * s._pos_delta_unit.x
    + (e.position.y - s._origin.y) * s._pos_delta_unit.y
    + (e.position.z - s._origin.z) * s._vert_track_scale * s._pos_delta_unit.z

/-- The local `track_error` of `advance_target_along_track`: the cross-track distance. -/
def track_error (F : FloatOps α) (e : Env α) (s : State α) : α :=
  F.safe_sqrt
    (Vector3.length F
        { x := e.position.x - s._origin.x,
          y := e.position.y - s._origin.y,
          z := (e.position.z - s._origin.z) * s._vert_track_scale }
      * Vector3.length F
        { x := e.position.x - s._origin.x,
          y := e.position.y - s._origin.y,
          z := (e.position.z - s._origin.z) * s._vert_track_scale }
      - track_covered e s * track_covered e s)

/-- The local `track_extra_max` of `advance_target_along_track`: how far ahead of
`track_covered` the leash lets the intermediate target be. -/
def track_extra_max (F : FloatOps α) (e : Env α) (s : State α) : α :=
  F.safe_sqrt (s._wp_leash_xy * s._wp_leash_xy - track_error F e s * track_error F e s)

/-- The distance between the intermediate target and the measured position, altitude
difference multiplied by `_vert_track_scale`. -/
def target_distance (F : FloatOps α) (e : Env α) (s : State α) : α :=
  Vector3.length F
    { x := s._target.x - e.position.x,
      y := s._target.y - e.position.y,
      z := (s._target.z - e.position.z) * s._vert_track_scale }

/-- The local `dist_error_total` of `get_loiter_position_to_velocity`: the horizontal
distance between the intermediate target and the measured position. -/
def dist_error_length (F : FloatOps α) (e : Env α) (s : State α) : α :=
  F.safe_sqrt ((s._target.x - e.position.x) * (s._target.x - e.position.x)
    + (s._target.y - e.position.y) * (s._target.y - e.position.y))

/-- The locals `desired_vel.x`, `desired_vel.y` of `get_loiter_position_to_velocity` in the
branch `kP > 0`, after the choice between the square-root law and `get_p` and before the
speed limit and the feed-forward. -/
def position_law (F : FloatOps α) (K : Consts α) (e : Env α) (s : State α) : Vector2 α :=
  let curr := e.position
  let kP := e.kP
  let dist_error_x := s._target.x - curr.x
  let dist_error_y := s._target.y - curr.y
  let linear_distance := fdiv F K.WPNAV_ACCELERATION (2 * kP * kP)
  let dist_error_total :=
    F.safe_sqrt (dist_error_x * dist_error_x + dist_error_y * dist_error_y)
  let vel_sqrt :=
    F.safe_sqrt (2 * K.WPNAV_ACCELERATION * (dist_error_total - linear_distance))
  let vx :=
    if dist_error_total > 2 * linear_distance then
      fdiv F (vel_sqrt * dist_error_x) dist_error_total
    else e.get_p_lat dist_error_x
  let vy :=
    if dist_error_total > 2 * linear_distance then
      fdiv F (vel_sqrt * dist_error_y) dist_error_total
    else e.get_p_lon dist_error_y
  { x := vx, y := vy }

/-- The local `vel_total` of `get_loiter_position_to_velocity`: the commanded speed before
the speed limit. -/
def position_law_speed (F : FloatOps α) (K : Consts α) (e : Env α) (s : State α) : α :=
  F.safe_sqrt ((position_law F K e s).x * (position_law F K e s).x
    + (position_law F K e s).y * (position_law F K e s).y)

end Model

/-! ## Basic lemmas -/

section Basic

variable {α : Type} [LinearOrderedField α]

theorem fdiv_of_ne (F : FloatOps α) (a : α) {b : α} (hb : b ≠ 0) : fdiv F a b = a / b := by
  simp [fdiv, hb]

theorem fdiv_of_pos (F : FloatOps α) (a : α) {b : α} (hb : 0 < b) : fdiv F a b = a / b :=
  fdiv_of_ne F a hb.ne'

theorem floor_at_eq_max (m x : α) : (if x < m then m else x) = max m x := by
  split_ifs with h
  · exact (max_eq_left h.le).symm
  · exact (max_eq_right (not_lt.mp h)).symm

theorem constrain_float_le (amt : α) {low high : α} (h : low ≤ high) :
    constrain_float amt low high ≤ high := by
  unfold constrain_float
  split_ifs with h1 h2
  · exact h
  · exact le_rfl
  · exact not_lt.mp h2

theorem le_constrain_float (amt : α) {low high : α} (h : low ≤ high) :
    low ≤ constrain_float amt low high := by
  unfold constrain_float
  split_ifs with h1 h2
  · exact le_rfl
  · exact h
  · exact not_lt.mp h1

end Basic

/-! ## Leash calculator -/

section Leash

theorem loiter_leash_eq (F : FloatOps ℝ) (K : Consts ℝ) (e : Env ℝ) (s : State ℝ) :
    (calculate_loiter_leash_length F K e s)._loiter_leash =
      if e.kP ≤ 0 then K.WPNAV_MIN_LEASH_LENGTH
      else max K.WPNAV_MIN_LEASH_LENGTH
        (if s._loiter_speed_cms ≤ fdiv F K.WPNAV_ACCELERATION e.kP then
          fdiv F s._loiter_speed_cms e.kP
        else
          fdiv F K.WPNAV_ACCELERATION (2 * e.kP * e.kP)
            + fdiv F (s._loiter_speed_cms * s._loiter_speed_cms) (2 * K.WPNAV_ACCELERATION)) := by
  unfold calculate_loiter_leash_length
  by_cases hk : e.kP ≤ 0
  · simp [hk]
  · simp only [hk, if_false, floor_at_eq_max]

theorem wp_leash_eq (F : FloatOps ℝ) (K : Consts ℝ) (e : Env ℝ) (climb : Bool) (s : State ℝ) :
    (calculate_wp_leash_length F K e climb s)._wp_leash_xy =
      if e.kP ≤ 0 then K.WPNAV_MIN_LEASH_LENGTH
      else max K.WPNAV_MIN_LEASH_LENGTH
        (if s._wp_speed_cms ≤ fdiv F K.WPNAV_ACCELERATION e.kP then
          fdiv F s._wp_speed_cms e.kP
        else
          fdiv F K.WPNAV_ACCELERATION (2 * e.kP * e.kP)
            + fdiv F (s._wp_speed_cms * s._wp_speed_cms) (2 * K.WPNAV_ACCELERATION)) := by
  unfold calculate_wp_leash_length
  by_cases hk : e.kP ≤ 0
  · simp [hk]
  · simp only [hk, if_false, floor_at_eq_max]

/-- The leash as the claim writes it, in terms of minimum `m`, acceleration `a`, gain `kP` and
speed limit `sp`, with ordinary division. -/
theorem leash_value (F : FloatOps ℝ) (m a kP sp : ℝ) (ha : 0 < a) (hk : 0 < kP) :
    max m (if sp ≤ fdiv F a kP then fdiv F sp kP
      else fdiv F a (2 * kP * kP) + fdiv F (sp * sp) (2 * a)) =
    max m (if sp ≤ a / kP then sp / kP else a / (2 * kP ^ 2) + sp ^ 2 / (2 * a)) := by
  have h1 : (2 * kP * kP) ≠ 0 := by positivity
  have h2 : (2 * a) ≠ 0 := by positivity
  rw [fdiv_of_pos F a hk, fdiv_of_pos F sp hk, fdiv_of_ne F a h1, fdiv_of_ne F _ h2]
  have e1 : 2 * kP * kP = 2 * kP ^ 2 := by ring
  have e2 : sp * sp = sp ^ 2 := by ring
  rw [e1, e2]

/-- C1. Leash formula: with `a = WPNAV_ACCELERATION > 0` and `m = WPNAV_MIN_LEASH_LENGTH`, the
leash stored by `calculate_loiter_leash_length` (speed limit: the loiter speed) and by
`calculate_wp_leash_length` (speed limit: the waypoint speed) is `m` when `kP ≤ 0`,
`max m (s / kP)` when `kP > 0` and `s ≤ a / kP`, and `max m (a / (2 kP²) + s² / (2 a))` when
`kP > 0` and `s > a / kP`. -/
theorem C1_leash_formula (F : FloatOps ℝ) (K : Consts ℝ) (e : Env ℝ) (climb : Bool)
    (s : State ℝ) (ha : 0 < K.WPNAV_ACCELERATION) :
    (e.kP ≤ 0 →
      (calculate_loiter_leash_length F K e s)._loiter_leash = K.WPNAV_MIN_LEASH_LENGTH ∧
      (calculate_wp_leash_length F K e climb s)._wp_leash_xy = K.WPNAV_MIN_LEASH_LENGTH) ∧
    (0 < e.kP → s._loiter_speed_cms ≤ K.WPNAV_ACCELERATION / e.kP →
      (calculate_loiter_leash_length F K e s)._loiter_leash =
        max K.WPNAV_MIN_LEASH_LENGTH (s._loiter_speed_cms / e.kP)) ∧
    (0 < e.kP → K.WPNAV_ACCELERATION / e.kP < s._loiter_speed_cms →
      (calculate_loiter_leash_length F K e s)._loiter_leash =
        max K.WPNAV_MIN_LEASH_LENGTH (K.WPNAV_ACCELERATION / (2 * e.kP ^ 2)
          + s._loiter_speed_cms ^ 2 / (2 * K.WPNAV_ACCELERATION))) ∧
    (0 < e.kP → s._wp_speed_cms ≤ K.WPNAV_ACCELERATION / e.kP →
      (calculate_wp_leash_length F K e climb s)._wp_leash_xy =
        max K.WPNAV_MIN_LEASH_LENGTH (s._wp_speed_cms / e.kP)) ∧
    (0 < e.kP → K.WPNAV_ACCELERATION / e.kP < s._wp_speed_cms →
      (calculate_wp_leash_length F K e climb s)._wp_leash_xy =
        max K.WPNAV_MIN_LEASH_LENGTH (K.WPNAV_ACCELERATION / (2 * e.kP ^ 2)
          + s._wp_speed_cms ^ 2 / (2 * K.WPNAV_ACCELERATION))) := by
  refine ⟨?_, ?_, ?_, ?_, ?_⟩
  · intro hk
    rw [loiter_leash_eq, wp_leash_eq]
    simp [hk]
  · intro hk hs
    rw [loiter_leash_eq, if_neg (not_le.mpr hk), leash_value F _ _ _ _ ha hk, if_pos hs]
  · intro hk hs
    rw [loiter_leash_eq, if_neg (not_le.mpr hk), leash_value F _ _ _ _ ha hk,
      if_neg (not_le.mpr hs)]
  · intro hk hs
    rw [wp_leash_eq, if_neg (not_le.mpr hk), leash_value F _ _ _ _ ha hk, if_pos hs]
  · intro hk hs
    rw [wp_leash_eq, if_neg (not_le.mpr hk), leash_value F _ _ _ _ ha hk,
      if_neg (not_le.mpr hs)]

/-- Scenario A for C1: `kP = 2`, `a = 250`, speed limit `500`, minimum `100` give the leash
`531.25`, for the loiter leash and for the horizontal waypoint leash. -/
theorem C1_leash_formula_witness :
    0 < (scenario_consts : Consts ℝ).WPNAV_ACCELERATION ∧
    (calculate_loiter_leash_length ⟨Real.sqrt, fun _ => 0⟩ scenario_consts
      (scenario_env 2 ⟨0, 0, 0⟩) (scenario_state ⟨Real.sqrt, fun _ => 0⟩ 2))._loiter_leash
        = 531.25 ∧
    (calculate_wp_leash_length ⟨Real.sqrt, fun _ => 0⟩ scenario_consts
      (scenario_env 2 ⟨0, 0, 0⟩) true (scenario_state ⟨Real.sqrt, fun _ => 0⟩ 2))._wp_leash_xy
        = 531.25 := by
  have ha : 0 < (scenario_consts : Consts ℝ).WPNAV_ACCELERATION := by
    norm_num [scenario_consts]
  have h := C1_leash_formula ⟨Real.sqrt, fun _ => 0⟩ scenario_consts
    (scenario_env 2 ⟨0, 0, 0⟩) true (scenario_state ⟨Real.sqrt, fun _ => 0⟩ 2) ha
  have hl : (scenario_state (⟨Real.sqrt, fun _ => 0⟩ : FloatOps ℝ) 2)._loiter_speed_cms = 500 := by
    unfold scenario_state AC_WPNav calculate_loiter_leash_length
    norm_num [scenario_consts, scenario_env]
  have hw : (scenario_state (⟨Real.sqrt, fun _ => 0⟩ : FloatOps ℝ) 2)._wp_speed_cms = 500 := by
    unfold scenario_state AC_WPNav calculate_loiter_leash_length
    norm_num [scenario_consts, scenario_env]
  refine ⟨ha, ?_, ?_⟩
  · rw [h.2.2.1 (by norm_num [scenario_env]) (by rw [hl]; norm_num [scenario_env, scenario_consts]),
      hl]
    norm_num [scenario_env, scenario_consts]
  · rw [h.2.2.2.2 (by norm_num [scenario_env])
      (by rw [hw]; norm_num [scenario_env, scenario_consts]), hw]
    norm_num [scenario_env, scenario_consts]

end Leash

/-! ## The leashes are written only by the leash calculators -/

section LeashFrame

variable (F : FloatOps ℝ) (K : Consts ℝ) (e : Env ℝ)

theorem leashes_lean_angles (a b : ℝ) (s : State ℝ) :
    leashes (get_loiter_acceleration_to_lean_angles F K a b s) = leashes s := rfl

theorem leashes_velocity_to_acceleration (a b dt : ℝ) (s : State ℝ) :
    leashes (get_loiter_velocity_to_acceleration F K e a b dt s) = leashes s := rfl

theorem leashes_position_to_velocity (dt m : ℝ) (s : State ℝ) :
    leashes (get_loiter_position_to_velocity F K e dt m s) = leashes s := by
  unfold get_loiter_position_to_velocity
  dsimp only
  split_ifs <;> rfl

theorem leashes_reset_I (s : State ℝ) : leashes (reset_I e s) = leashes s := rfl

theorem leashes_translate (dt : ℝ) (s : State ℝ) :
    leashes (translate_loiter_target_movements F K e dt s) = leashes s := by
  unfold translate_loiter_target_movements
  by_cases h : dt < 0
  · rw [if_pos h]
  · rw [if_neg h]
    rfl

theorem leashes_update_loiter (s : State ℝ) : leashes (update_loiter F K e s) = leashes s := by
  unfold update_loiter
  dsimp only
  rw [leashes_position_to_velocity, leashes_translate]
  split_ifs <;> rfl

theorem leashes_advance (dt : ℝ) (s : State ℝ) :
    leashes (advance_target_along_track F K e dt s) = leashes s := rfl

theorem leashes_update_wpnav (s : State ℝ) : leashes (update_wpnav F K e s) = leashes s := by
  unfold update_wpnav
  dsimp only
  rw [leashes_position_to_velocity]
  split_ifs <;> rfl

theorem leashes_set_origin_and_destination (o d : Vector3 ℝ) (s : State ℝ) :
    leashes (set_origin_and_destination F K e o d s) =
      (s._loiter_leash, (calculate_wp_leash_length F K e (decide (d.z - o.z ≥ 0))
        { s with _origin := o, _destination := d })._wp_leash_xy) := by
  unfold set_origin_and_destination calculate_wp_leash_length
  dsimp only
  split_ifs <;> rfl

theorem loiter_leash_floor (s : State ℝ) :
    K.WPNAV_MIN_LEASH_LENGTH ≤ (calculate_loiter_leash_length F K e s)._loiter_leash := by
  rw [loiter_leash_eq]
  by_cases hk : e.kP ≤ 0
  · rw [if_pos hk]
  · rw [if_neg hk]
    exact le_max_left _ _

theorem wp_leash_floor (climb : Bool) (s : State ℝ) :
    K.WPNAV_MIN_LEASH_LENGTH ≤ (calculate_wp_leash_length F K e climb s)._wp_leash_xy := by
  rw [wp_leash_eq]
  by_cases hk : e.kP ≤ 0
  · rw [if_pos hk]
  · rw [if_neg hk]
    exact le_max_left _ _

theorem loiter_leash_wp_frame (s : State ℝ) :
    (calculate_loiter_leash_length F K e s)._wp_leash_xy = s._wp_leash_xy := by
  unfold calculate_loiter_leash_length
  dsimp only
  split_ifs <;> rfl

theorem wp_leash_loiter_frame (climb : Bool) (s : State ℝ) :
    (calculate_wp_leash_length F K e climb s)._loiter_leash = s._loiter_leash := by
  unfold calculate_wp_leash_length
  dsimp only
  split_ifs <;> rfl

theorem leash_ok_constructor (garbage : State ℝ) : leash_ok K (AC_WPNav F K e garbage) := by
  unfold leash_ok leashes AC_WPNav
  refine ⟨loiter_leash_floor F K e _, ?_⟩
  dsimp only
  rw [loiter_leash_wp_frame]

theorem leash_ok_run (c : Call ℝ) (s : State ℝ) (h : leash_ok K s) :
    leash_ok K (c.run F K s) := by
  unfold leash_ok at h ⊢
  cases c with
  | set_loiter_target p => exact h
  | set_loiter_target_vel e p v => exact h
  | move_loiter_target r p dt => exact h
  | translate_loiter_target_movements e dt =>
      simp only [Call.run, leashes_translate]; exact h
  | update_loiter e => simp only [Call.run, leashes_update_loiter]; exact h
  | calculate_loiter_leash_length e =>
      simp only [Call.run, leashes]
      exact ⟨loiter_leash_floor F K e s, by rw [loiter_leash_wp_frame]; exact h.2⟩
  | set_destination e d =>
      simp only [Call.run, set_destination, leashes_set_origin_and_destination]
      exact ⟨h.1, wp_leash_floor F K e _ _⟩
  | set_origin_and_destination e o d =>
      simp only [Call.run, leashes_set_origin_and_destination]
      exact ⟨h.1, wp_leash_floor F K e _ _⟩
  | advance_target_along_track e dt => exact h
  | update_wpnav e => simp only [Call.run, leashes_update_wpnav]; exact h
  | get_loiter_position_to_velocity e dt m =>
      simp only [Call.run, leashes_position_to_velocity]; exact h
  | get_loiter_velocity_to_acceleration e a b dt => exact h
  | get_loiter_acceleration_to_lean_angles a b => exact h
  | reset_I e => exact h
  | calculate_wp_leash_length e c =>
      simp only [Call.run, leashes]
      exact ⟨by rw [wp_leash_loiter_frame]; exact h.1, wp_leash_floor F K e c s⟩
  | external_write a b c d l cy sy cp fw => exact h

theorem leash_ok_run_calls (cs : List (Call ℝ)) (s : State ℝ) (h : leash_ok K s) :
    leash_ok K (run_calls F K cs s) := by
  induction cs generalizing s with
  | nil => exact h
  | cons c cs ih => exact ih _ (leash_ok_run F K c s h)

/-- C2. Leash floor: for every gain and every configured speed the loiter leash after
`calculate_loiter_leash_length` and the horizontal waypoint leash after
`calculate_wp_leash_length` (either climb flag) are at least `WPNAV_MIN_LEASH_LENGTH`; the
constructor establishes both bounds, and they hold in every reachable state. -/
theorem C2_leash_floor (F : FloatOps ℝ) (K : Consts ℝ) :
    (∀ (e : Env ℝ) (s : State ℝ),
      K.WPNAV_MIN_LEASH_LENGTH ≤ (calculate_loiter_leash_length F K e s)._loiter_leash) ∧
    (∀ (e : Env ℝ) (climb : Bool) (s : State ℝ),
      K.WPNAV_MIN_LEASH_LENGTH ≤ (calculate_wp_leash_length F K e climb s)._wp_leash_xy) ∧
    (∀ (e : Env ℝ) (garbage : State ℝ),
      K.WPNAV_MIN_LEASH_LENGTH ≤ (AC_WPNav F K e garbage)._loiter_leash ∧
      K.WPNAV_MIN_LEASH_LENGTH ≤ (AC_WPNav F K e garbage)._wp_leash_xy) ∧
    (∀ s : State ℝ, Reachable F K s →
      K.WPNAV_MIN_LEASH_LENGTH ≤ s._loiter_leash ∧ K.WPNAV_MIN_LEASH_LENGTH ≤ s._wp_leash_xy) := by
  refine ⟨fun e s => loiter_leash_floor F K e s, fun e c s => wp_leash_floor F K e c s,
    fun e g => leash_ok_constructor F K e g, ?_⟩
  rintro s ⟨e, g, cs, rfl⟩
  exact leash_ok_run_calls F K cs _ (leash_ok_constructor F K e g)

/-- A reachable state for C2: the scenario object after a leash recomputation with gain `0`
and a segment set up with a negative gain still has both leashes at least the minimum. -/
theorem C2_leash_floor_witness :
    Reachable (⟨Real.sqrt, fun _ => 0⟩ : FloatOps ℝ) scenario_consts
      (run_calls ⟨Real.sqrt, fun _ => 0⟩ scenario_consts
        [Call.calculate_loiter_leash_length (scenario_env 0 ⟨0, 0, 0⟩),
         Call.set_origin_and_destination (scenario_env (-1) ⟨0, 0, 0⟩) ⟨0, 0, 0⟩ ⟨1000, 0, 0⟩]
        (scenario_state ⟨Real.sqrt, fun _ => 0⟩ 2)) ∧
    (scenario_consts : Consts ℝ).WPNAV_MIN_LEASH_LENGTH ≤
      (run_calls ⟨Real.sqrt, fun _ => 0⟩ scenario_consts
        [Call.calculate_loiter_leash_length (scenario_env 0 ⟨0, 0, 0⟩),
         Call.set_origin_and_destination (scenario_env (-1) ⟨0, 0, 0⟩) ⟨0, 0, 0⟩ ⟨1000, 0, 0⟩]
        (scenario_state ⟨Real.sqrt, fun _ => 0⟩ 2))._loiter_leash := by
  have hr : Reachable (⟨Real.sqrt, fun _ => 0⟩ : FloatOps ℝ) scenario_consts
      (run_calls ⟨Real.sqrt, fun _ => 0⟩ scenario_consts
        [Call.calculate_loiter_leash_length (scenario_env 0 ⟨0, 0, 0⟩),
         Call.set_origin_and_destination (scenario_env (-1) ⟨0, 0, 0⟩) ⟨0, 0, 0⟩ ⟨1000, 0, 0⟩]
        (scenario_state ⟨Real.sqrt, fun _ => 0⟩ 2)) :=
    ⟨_, _, _, rfl⟩
  exact ⟨hr, ((C2_leash_floor _ _).2.2.2 _ hr).1⟩

end LeashFrame

/-! ## Continuity of the leash in the speed limit -/

section LeashContinuity

theorem leash_profile_continuous (m a g : ℝ) (ha : 0 < a) (hg : 0 < g) :
    Continuous fun sp : ℝ =>
      max m (if sp ≤ a / g then sp / g else a / (2 * g ^ 2) + sp ^ 2 / (2 * a)) := by
  refine continuous_const.max ?_
  refine Continuous.if_le (by fun_prop) (by fun_prop) continuous_id continuous_const ?_
  intro x hx
  simp only [id] at hx
  subst hx
  field_simp
  ring

/-- C3. Leash continuity: for gain `g > 0` and acceleration `a > 0`, at the crossover speed
`a / g` the linear branch and the square-root branch of the leash calculation, as the code
computes them, both equal `a / g²`; the stored loiter leash and horizontal waypoint leash
are continuous functions of the speed limit. -/
theorem C3_leash_continuity (F : FloatOps ℝ) (K : Consts ℝ) (e : Env ℝ) (climb : Bool)
    (s : State ℝ) (hg : 0 < e.kP) (ha : 0 < K.WPNAV_ACCELERATION) :
    fdiv F (fdiv F K.WPNAV_ACCELERATION e.kP) e.kP = K.WPNAV_ACCELERATION / e.kP ^ 2 ∧
    fdiv F K.WPNAV_ACCELERATION (2 * e.kP * e.kP)
      + fdiv F (fdiv F K.WPNAV_ACCELERATION e.kP * fdiv F K.WPNAV_ACCELERATION e.kP)
          (2 * K.WPNAV_ACCELERATION) = K.WPNAV_ACCELERATION / e.kP ^ 2 ∧
    Continuous (fun sp : ℝ =>
      (calculate_loiter_leash_length F K e { s with _loiter_speed_cms := sp })._loiter_leash) ∧
    Continuous (fun sp : ℝ =>
      (calculate_wp_leash_length F K e climb { s with _wp_speed_cms := sp })._wp_leash_xy) := by
  have h1 : (2 * e.kP * e.kP) ≠ 0 := by positivity
  have h2 : (2 * K.WPNAV_ACCELERATION) ≠ 0 := by positivity
  refine ⟨?_, ?_, ?_, ?_⟩
  · rw [fdiv_of_pos F _ hg, fdiv_of_pos F _ hg, div_div, sq]
  · rw [fdiv_of_pos F _ hg, fdiv_of_ne F _ h1, fdiv_of_ne F _ h2]
    field_simp
    ring
  · have : (fun sp : ℝ => (calculate_loiter_leash_length F K e
        { s with _loiter_speed_cms := sp })._loiter_leash) = fun sp : ℝ =>
        max K.WPNAV_MIN_LEASH_LENGTH (if sp ≤ K.WPNAV_ACCELERATION / e.kP then sp / e.kP
          else K.WPNAV_ACCELERATION / (2 * e.kP ^ 2) + sp ^ 2 / (2 * K.WPNAV_ACCELERATION)) := by
      funext sp
      rw [loiter_leash_eq, if_neg (not_le.mpr hg), leash_value F _ _ _ _ ha hg]
    rw [this]
    exact leash_profile_continuous _ _ _ ha hg
  · have : (fun sp : ℝ => (calculate_wp_leash_length F K e climb
        { s with _wp_speed_cms := sp })._wp_leash_xy) = fun sp : ℝ =>
        max K.WPNAV_MIN_LEASH_LENGTH (if sp ≤ K.WPNAV_ACCELERATION / e.kP then sp / e.kP
          else K.WPNAV_ACCELERATION / (2 * e.kP ^ 2) + sp ^ 2 / (2 * K.WPNAV_ACCELERATION)) := by
      funext sp
      rw [wp_leash_eq, if_neg (not_le.mpr hg), leash_value F _ _ _ _ ha hg]
    rw [this]
    exact leash_profile_continuous _ _ _ ha hg

/-- C3 at `g = 2`, `a = 250`: crossover speed `125`, both branches give `62.5`. -/
theorem C3_leash_continuity_witness :
    0 < (scenario_env (2 : ℝ) ⟨0, 0, 0⟩).kP ∧
    0 < (scenario_consts : Consts ℝ).WPNAV_ACCELERATION ∧
    fdiv (⟨Real.sqrt, fun _ => 0⟩ : FloatOps ℝ) (fdiv ⟨Real.sqrt, fun _ => 0⟩ 250 2) 2 = 62.5 ∧
    fdiv (⟨Real.sqrt, fun _ => 0⟩ : FloatOps ℝ) 250 (2 * 2 * 2)
      + fdiv ⟨Real.sqrt, fun _ => 0⟩
          (fdiv ⟨Real.sqrt, fun _ => 0⟩ 250 2 * fdiv ⟨Real.sqrt, fun _ => 0⟩ 250 2) (2 * 250)
      = 62.5 := by
  have hg : 0 < (scenario_env (2 : ℝ) ⟨0, 0, 0⟩).kP := by norm_num [scenario_env]
  have ha : 0 < (scenario_consts : Consts ℝ).WPNAV_ACCELERATION := by
    norm_num [scenario_consts]
  have h := C3_leash_continuity ⟨Real.sqrt, fun _ => 0⟩ scenario_consts
    (scenario_env 2 ⟨0, 0, 0⟩) true (scenario_state ⟨Real.sqrt, fun _ => 0⟩ 2) hg ha
  refine ⟨hg, ha, ?_, ?_⟩
  · have h1 := h.1
    simp only [scenario_env, scenario_consts] at h1
    rw [h1]; norm_num
  · have h2 := h.2.1
    simp only [scenario_env, scenario_consts] at h2
    rw [h2]; norm_num

end LeashContinuity

/-! ## Scaling a horizontal vector to a given length -/

section Scaling

theorem sqrt_sum_sq_zero : Real.sqrt ((0 : ℝ) ^ 2 + (0 : ℝ) ^ 2) = 0 := by
  norm_num

/-- A vector `(x, y)` multiplied by `d / |(x, y)|` has length `d`. -/
theorem sqrt_scaled (d x y : ℝ) (hS : 0 < Real.sqrt (x * x + y * y)) (hd : 0 ≤ d) :
    Real.sqrt ((d * x / Real.sqrt (x * x + y * y)) ^ 2
      + (d * y / Real.sqrt (x * x + y * y)) ^ 2) = d := by
  have hnn : 0 ≤ x * x + y * y := add_nonneg (mul_self_nonneg x) (mul_self_nonneg y)
  have hS2 : Real.sqrt (x * x + y * y) * Real.sqrt (x * x + y * y) = x * x + y * y :=
    Real.mul_self_sqrt hnn
  have hne : Real.sqrt (x * x + y * y) ≠ 0 := hS.ne'
  have h : (d * x / Real.sqrt (x * x + y * y)) ^ 2
      + (d * y / Real.sqrt (x * x + y * y)) ^ 2 = d ^ 2 := by
    have h1 : (d * x / Real.sqrt (x * x + y * y)) ^ 2
        + (d * y / Real.sqrt (x * x + y * y)) ^ 2
        = d ^ 2 * (x * x + y * y)
          / (Real.sqrt (x * x + y * y) * Real.sqrt (x * x + y * y)) := by
      field_simp
      ring
    rw [h1, hS2]
    have hpos : x * x + y * y ≠ 0 := by
      intro h0
      rw [h0, Real.sqrt_zero] at hS
      exact lt_irrefl _ hS
    field_simp
  rw [h, Real.sqrt_sq hd]

/-- The same with the products written as the code writes them. -/
theorem sqrt_scaled_mul (d x y : ℝ) (hS : 0 < Real.sqrt (x * x + y * y)) (hd : 0 ≤ d) :
    Real.sqrt ((d * x / Real.sqrt (x * x + y * y)) * (d * x / Real.sqrt (x * x + y * y))
      + (d * y / Real.sqrt (x * x + y * y)) * (d * y / Real.sqrt (x * x + y * y))) = d := by
  have h := sqrt_scaled d x y hS hd
  rw [sq, sq] at h
  exact h

end Scaling

/-! ## Stopping-point predictor -/

section StoppingPoint

theorem stopping_point_passthrough (dz : ℝ → ℝ) (K : Consts ℝ) (e : Env ℝ) (s : State ℝ)
    (position velocity : Vector3 ℝ)
    (h : Real.sqrt (velocity.x * velocity.x + velocity.y * velocity.y) < 10 ∨ e.kP ≤ 0) :
    get_stopping_point ⟨Real.sqrt, dz⟩ K e s position velocity = position := by
  unfold get_stopping_point
  dsimp only
  rw [if_pos h]

/-- C4. Stopping-point passthrough: when the horizontal speed `sqrt(vx² + vy²)` is below `10`
or the position gain is `≤ 0`, `get_stopping_point` returns the input position in all three
components; in particular (Scenario B) for horizontal velocity `(0, 0)` and any position. -/
theorem C4_stopping_point_passthrough (dz : ℝ → ℝ) (K : Consts ℝ) (e : Env ℝ) (s : State ℝ)
    (position velocity : Vector3 ℝ) :
    ((Real.sqrt (velocity.x * velocity.x + velocity.y * velocity.y) < 10 ∨ e.kP ≤ 0) →
      get_stopping_point ⟨Real.sqrt, dz⟩ K e s position velocity = position) ∧
    (velocity.x = 0 → velocity.y = 0 →
      get_stopping_point ⟨Real.sqrt, dz⟩ K e s position velocity = position) := by
  refine ⟨stopping_point_passthrough dz K e s position velocity, ?_⟩
  intro hx hy
  apply stopping_point_passthrough
  left
  rw [hx, hy]
  norm_num

/-- C4 at position `(3, 4, 5)` with velocity `(0, 0, 7)` and gain `2` (Scenario B), and with
speed `5` from velocity `(3, 4, 0)`. -/
theorem C4_stopping_point_passthrough_witness :
    get_stopping_point ⟨Real.sqrt, fun _ => 0⟩ scenario_consts (scenario_env 2 ⟨0, 0, 0⟩)
      (scenario_state ⟨Real.sqrt, fun _ => 0⟩ 2) ⟨3, 4, 5⟩ ⟨0, 0, 7⟩ = ⟨3, 4, 5⟩ ∧
    Real.sqrt ((3 : ℝ) * 3 + 4 * 4) < 10 ∧
    get_stopping_point ⟨Real.sqrt, fun _ => 0⟩ scenario_consts (scenario_env 2 ⟨0, 0, 0⟩)
      (scenario_state ⟨Real.sqrt, fun _ => 0⟩ 2) ⟨3, 4, 5⟩ ⟨3, 4, 0⟩ = ⟨3, 4, 5⟩ := by
  have h5 : Real.sqrt ((3 : ℝ) * 3 + 4 * 4) < 10 := by
    rw [Real.sqrt_lt' (by norm_num)]
    norm_num
  exact ⟨(C4_stopping_point_passthrough _ _ _ _ ⟨3, 4, 5⟩ ⟨0, 0, 7⟩).2 rfl rfl, h5,
    (C4_stopping_point_passthrough _ _ _ _ ⟨3, 4, 5⟩ ⟨3, 4, 0⟩).1 (Or.inl h5)⟩

/-- The stopping point when the guard lets the computation through: the position displaced
by the clamped distance along the horizontal velocity. -/
theorem stopping_point_moving (dz : ℝ → ℝ) (K : Consts ℝ) (e : Env ℝ) (s : State ℝ)
    (position velocity : Vector3 ℝ)
    (hv : 10 ≤ Real.sqrt (velocity.x * velocity.x + velocity.y * velocity.y))
    (hk : 0 < e.kP) :
    get_stopping_point ⟨Real.sqrt, dz⟩ K e s position velocity =
      { x := position.x + constrain_float
            (if Real.sqrt (velocity.x * velocity.x + velocity.y * velocity.y)
                < K.WPNAV_ACCELERATION / e.kP then
              Real.sqrt (velocity.x * velocity.x + velocity.y * velocity.y) / e.kP
            else K.WPNAV_ACCELERATION / (2 * e.kP * e.kP)
              + fdiv ⟨Real.sqrt, dz⟩
                  (Real.sqrt (velocity.x * velocity.x + velocity.y * velocity.y)
                    * Real.sqrt (velocity.x * velocity.x + velocity.y * velocity.y))
                  (2 * K.WPNAV_ACCELERATION))
            0 (s._loiter_leash * 2) * velocity.x
              / Real.sqrt (velocity.x * velocity.x + velocity.y * velocity.y),
        y := position.y + constrain_float
            (if Real.sqrt (velocity.x * velocity.x + velocity.y * velocity.y)
                < K.WPNAV_ACCELERATION / e.kP then
              Real.sqrt (velocity.x * velocity.x + velocity.y * velocity.y) / e.kP
            else K.WPNAV_ACCELERATION / (2 * e.kP * e.kP)
              + fdiv ⟨Real.sqrt, dz⟩
                  (Real.sqrt (velocity.x * velocity.x + velocity.y * velocity.y)
                    * Real.sqrt (velocity.x * velocity.x + velocity.y * velocity.y))
                  (2 * K.WPNAV_ACCELERATION))
            0 (s._loiter_leash * 2) * velocity.y
              / Real.sqrt (velocity.x * velocity.x + velocity.y * velocity.y),
        z := position.z } := by
  have hS : Real.sqrt (velocity.x * velocity.x + velocity.y * velocity.y) ≠ 0 := by
    intro h0
    rw [h0] at hv
    norm_num at hv
  have hg : ¬ (Real.sqrt (velocity.x * velocity.x + velocity.y * velocity.y) < 10
      ∨ e.kP ≤ 0) := by
    rintro (h | h)
    · exact absurd hv (not_le.mpr h)
    · exact absurd hk (not_lt.mpr h)
  have h2 : 2 * e.kP * e.kP ≠ 0 := by positivity
  unfold get_stopping_point
  dsimp only
  rw [if_neg hg, fdiv_of_pos _ _ hk, fdiv_of_pos _ _ hk, fdiv_of_ne _ _ h2,
    fdiv_of_ne _ _ hS, fdiv_of_ne _ _ hS]

/-- C5. Stopping-point boundedness: with loiter leash `≥ 0`, the point returned by
`get_stopping_point` has the altitude of the input position and lies at horizontal distance
`≤ 2 * loiter_leash` from it; when the speed is `≥ 10` and `kP > 0` it is the input position
displaced along the unit vector of the horizontal velocity by a distance `d` in
`[0, 2 * loiter_leash]`, its horizontal distance from the input position is exactly `d`, and
`d` is the stopping distance (`speed / kP` below the crossover speed `a / kP`, otherwise
`a / (2 kP²) + speed² / (2 a)`, for `a ≠ 0`) clamped to `[0, 2 * loiter_leash]`. -/
theorem C5_stopping_point_bounded (dz : ℝ → ℝ) (K : Consts ℝ) (e : Env ℝ) (s : State ℝ)
    (position velocity : Vector3 ℝ) (hl : 0 ≤ s._loiter_leash) :
    (get_stopping_point ⟨Real.sqrt, dz⟩ K e s position velocity).z = position.z ∧
    Real.sqrt (((get_stopping_point ⟨Real.sqrt, dz⟩ K e s position velocity).x - position.x) ^ 2
      + ((get_stopping_point ⟨Real.sqrt, dz⟩ K e s position velocity).y - position.y) ^ 2)
      ≤ 2 * s._loiter_leash ∧
    (10 ≤ Real.sqrt (velocity.x * velocity.x + velocity.y * velocity.y) → 0 < e.kP →
      ∃ speed d : ℝ, speed = Real.sqrt (velocity.x * velocity.x + velocity.y * velocity.y) ∧
        0 ≤ d ∧ d ≤ 2 * s._loiter_leash ∧
        (K.WPNAV_ACCELERATION ≠ 0 → d = constrain_float
          (if speed < K.WPNAV_ACCELERATION / e.kP then speed / e.kP
            else K.WPNAV_ACCELERATION / (2 * e.kP ^ 2) + speed ^ 2 / (2 * K.WPNAV_ACCELERATION))
          0 (2 * s._loiter_leash)) ∧
        (get_stopping_point ⟨Real.sqrt, dz⟩ K e s position velocity).x
          = position.x + d * (velocity.x / speed) ∧
        (get_stopping_point ⟨Real.sqrt, dz⟩ K e s position velocity).y
          = position.y + d * (velocity.y / speed) ∧
        Real.sqrt
          (((get_stopping_point ⟨Real.sqrt, dz⟩ K e s position velocity).x - position.x) ^ 2
          + ((get_stopping_point ⟨Real.sqrt, dz⟩ K e s position velocity).y - position.y) ^ 2)
          = d) := by
  have hl2 : (0 : ℝ) ≤ s._loiter_leash * 2 := by linarith
  by_cases hg : Real.sqrt (velocity.x * velocity.x + velocity.y * velocity.y) < 10 ∨ e.kP ≤ 0
  · rw [stopping_point_passthrough dz K e s position velocity hg]
    refine ⟨rfl, ?_, ?_⟩
    · rw [sub_self, sub_self, sqrt_sum_sq_zero]
      linarith
    · intro hv hk
      rcases hg with h | h
      · exact absurd hv (not_le.mpr h)
      · exact absurd hk (not_lt.mpr h)
  · have hv : 10 ≤ Real.sqrt (velocity.x * velocity.x + velocity.y * velocity.y) := by
      by_contra h
      exact hg (Or.inl (not_le.mp h))
    have hk : 0 < e.kP := by
      by_contra h
      exact hg (Or.inr (not_lt.mp h))
    have hS : 0 < Real.sqrt (velocity.x * velocity.x + velocity.y * velocity.y) := by
      linarith
    rw [stopping_point_moving dz K e s position velocity hv hk]
    dsimp only
    have hhi := constrain_float_le
      (if Real.sqrt (velocity.x * velocity.x + velocity.y * velocity.y)
          < K.WPNAV_ACCELERATION / e.kP then
        Real.sqrt (velocity.x * velocity.x + velocity.y * velocity.y) / e.kP
      else K.WPNAV_ACCELERATION / (2 * e.kP * e.kP)
        + fdiv ⟨Real.sqrt, dz⟩
            (Real.sqrt (velocity.x * velocity.x + velocity.y * velocity.y)
              * Real.sqrt (velocity.x * velocity.x + velocity.y * velocity.y))
            (2 * K.WPNAV_ACCELERATION)) hl2
    have hlo := le_constrain_float
      (if Real.sqrt (velocity.x * velocity.x + velocity.y * velocity.y)
          < K.WPNAV_ACCELERATION / e.kP then
        Real.sqrt (velocity.x * velocity.x + velocity.y * velocity.y) / e.kP
      else K.WPNAV_ACCELERATION / (2 * e.kP * e.kP)
        + fdiv ⟨Real.sqrt, dz⟩
            (Real.sqrt (velocity.x * velocity.x + velocity.y * velocity.y)
              * Real.sqrt (velocity.x * velocity.x + velocity.y * velocity.y))
            (2 * K.WPNAV_ACCELERATION)) hl2
    refine ⟨rfl, ?_, ?_⟩
    · rw [add_sub_cancel_left, add_sub_cancel_left, sqrt_scaled _ _ _ hS hlo]
      linarith
    · intro _ _
      refine ⟨_, _, rfl, hlo, by linarith, ?_, by ring, by ring, ?_⟩
      · intro ha
        have h2a : 2 * K.WPNAV_ACCELERATION ≠ 0 := mul_ne_zero two_ne_zero ha
        rw [fdiv_of_ne _ _ h2a, mul_comm s._loiter_leash 2]
        have e1 : 2 * e.kP * e.kP = 2 * e.kP ^ 2 := by ring
        rw [e1, sq (Real.sqrt _)]
      · rw [add_sub_cancel_left, add_sub_cancel_left]
        exact sqrt_scaled _ _ _ hS hlo

theorem scenario_loiter_leash :
    (scenario_state (⟨Real.sqrt, fun _ => 0⟩ : FloatOps ℝ) 2)._loiter_leash = 531.25 := by
  unfold scenario_state AC_WPNav
  rw [loiter_leash_eq]
  norm_num [scenario_env, scenario_consts, fdiv]

theorem sqrt_300_400 : Real.sqrt ((300 : ℝ) * 300 + 400 * 400) = 500 := by
  rw [show (300 : ℝ) * 300 + 400 * 400 = 500 * 500 by norm_num]
  exact Real.sqrt_mul_self (by norm_num)

/-- C5 at gain `2`, acceleration `250`, loiter leash `531.25`, position `(0, 0, 5)` and
velocity `(300, 400, 0)`: speed `500`, stopping distance `531.25`, stopping point
`(318.75, 425, 5)`. -/
theorem C5_stopping_point_bounded_witness :
    0 ≤ (scenario_state (⟨Real.sqrt, fun _ => 0⟩ : FloatOps ℝ) 2)._loiter_leash ∧
    get_stopping_point ⟨Real.sqrt, fun _ => 0⟩ scenario_consts (scenario_env 2 ⟨0, 0, 0⟩)
      (scenario_state ⟨Real.sqrt, fun _ => 0⟩ 2) ⟨0, 0, 5⟩ ⟨300, 400, 0⟩
        = ⟨318.75, 425, 5⟩ := by
  have hl : 0 ≤ (scenario_state (⟨Real.sqrt, fun _ => 0⟩ : FloatOps ℝ) 2)._loiter_leash := by
    rw [scenario_loiter_leash]; norm_num
  refine ⟨hl, ?_⟩
  obtain ⟨hz, -, h⟩ := C5_stopping_point_bounded (fun _ => 0) scenario_consts
    (scenario_env 2 ⟨0, 0, 0⟩) (scenario_state ⟨Real.sqrt, fun _ => 0⟩ 2) ⟨0, 0, 5⟩
    ⟨300, 400, 0⟩ hl
  obtain ⟨speed, d, hspeed, -, -, hd, hx, hy, -⟩ :=
    h (by rw [sqrt_300_400]; norm_num) (by norm_num [scenario_env])
  have hs : speed = 500 := by rw [hspeed]; exact sqrt_300_400
  have hd' : d = 531.25 := by
    rw [hd (by norm_num [scenario_consts]), hs, scenario_loiter_leash]
    norm_num [constrain_float, scenario_env, scenario_consts]
  rw [hd', hs] at hx hy
  have hx' : (get_stopping_point ⟨Real.sqrt, fun _ => 0⟩ scenario_consts
      (scenario_env 2 ⟨0, 0, 0⟩) (scenario_state ⟨Real.sqrt, fun _ => 0⟩ 2) ⟨0, 0, 5⟩
      ⟨300, 400, 0⟩).x = 318.75 := by rw [hx]; norm_num
  have hy' : (get_stopping_point ⟨Real.sqrt, fun _ => 0⟩ scenario_consts
      (scenario_env 2 ⟨0, 0, 0⟩) (scenario_state ⟨Real.sqrt, fun _ => 0⟩ 2) ⟨0, 0, 5⟩
      ⟨300, 400, 0⟩).y = 425 := by rw [hy]; norm_num
  calc get_stopping_point ⟨Real.sqrt, fun _ => 0⟩ scenario_consts (scenario_env 2 ⟨0, 0, 0⟩)
        (scenario_state ⟨Real.sqrt, fun _ => 0⟩ 2) ⟨0, 0, 5⟩ ⟨300, 400, 0⟩
      = ⟨(get_stopping_point ⟨Real.sqrt, fun _ => 0⟩ scenario_consts
          (scenario_env 2 ⟨0, 0, 0⟩) (scenario_state ⟨Real.sqrt, fun _ => 0⟩ 2) ⟨0, 0, 5⟩
          ⟨300, 400, 0⟩).x,
         (get_stopping_point ⟨Real.sqrt, fun _ => 0⟩ scenario_consts
          (scenario_env 2 ⟨0, 0, 0⟩) (scenario_state ⟨Real.sqrt, fun _ => 0⟩ 2) ⟨0, 0, 5⟩
          ⟨300, 400, 0⟩).y,
         (get_stopping_point ⟨Real.sqrt, fun _ => 0⟩ scenario_consts
          (scenario_env 2 ⟨0, 0, 0⟩) (scenario_state ⟨Real.sqrt, fun _ => 0⟩ 2) ⟨0, 0, 5⟩
          ⟨300, 400, 0⟩).z⟩ := rfl
    _ = ⟨318.75, 425, 5⟩ := by rw [hx', hy', hz]

end StoppingPoint

/-! ## Track progress -/

section Progress

variable (F : FloatOps ℝ) (K : Consts ℝ)

theorem advance_track_length (e : Env ℝ) (dt : ℝ) (s : State ℝ) :
    (advance_target_along_track F K e dt s)._track_length = s._track_length := rfl

theorem advance_progress_ge (e : Env ℝ) (dt : ℝ) (s : State ℝ) :
    s._track_desired ≤ (advance_target_along_track F K e dt s)._track_desired :=
  le_max_left _ _

theorem advance_progress_le (e : Env ℝ) (dt : ℝ) (s : State ℝ)
    (h0 : 0 ≤ s._track_length) (h1 : s._track_desired ≤ s._track_length) :
    (advance_target_along_track F K e dt s)._track_desired ≤ s._track_length :=
  max_le h1 (constrain_float_le _ h0)

theorem advance_calls_append (xs ys : List (Env ℝ × ℝ)) (s : State ℝ) :
    advance_calls F K (xs ++ ys) s = advance_calls F K ys (advance_calls F K xs s) := by
  unfold advance_calls
  rw [List.foldl_append]

theorem advance_calls_bounds (cs : List (Env ℝ × ℝ)) (s : State ℝ)
    (h0 : 0 ≤ s._track_desired) (h1 : s._track_desired ≤ s._track_length) :
    (advance_calls F K cs s)._track_length = s._track_length ∧
    s._track_desired ≤ (advance_calls F K cs s)._track_desired ∧
    (advance_calls F K cs s)._track_desired ≤ s._track_length := by
  induction cs generalizing s with
  | nil => exact ⟨rfl, le_rfl, h1⟩
  | cons c cs ih =>
      have hge := advance_progress_ge F K c.1 c.2 s
      have hle := advance_progress_le F K c.1 c.2 s (h0.trans h1) h1
      obtain ⟨i1, i2, i3⟩ := ih (advance_target_along_track F K c.1 c.2 s)
        (h0.trans hge) hle
      rw [advance_track_length] at i1 i3
      exact ⟨i1, hge.trans i2, i3⟩

theorem segment_start_progress (e : Env ℝ) (dz : ℝ → ℝ) (o d : Vector3 ℝ) (s : State ℝ) :
    (set_origin_and_destination ⟨Real.sqrt, dz⟩ K e o d s)._track_desired = 0 ∧
    0 ≤ (set_origin_and_destination ⟨Real.sqrt, dz⟩ K e o d s)._track_length := by
  refine ⟨rfl, ?_⟩
  exact Real.sqrt_nonneg _

/-- C6. Progress monotonicity: from a state with `0 ≤ track_progress ≤ track_length`, for
every measured position and velocity, every gain and every `dt` (in particular `dt ≥ 0`),
one call of `advance_target_along_track` leaves `track_length` unchanged and gives
`old track_progress ≤ new track_progress ≤ track_length`; over any sequence of such calls
the progress after a prefix is at most the progress after the whole sequence and stays in
`[0, track_length]`; and `set_origin_and_destination` leaves `track_progress = 0` and
`track_length ≥ 0`. -/
theorem C6_progress_monotone (dz : ℝ → ℝ) (K : Consts ℝ) (s : State ℝ)
    (h0 : 0 ≤ s._track_desired) (h1 : s._track_desired ≤ s._track_length) :
    (∀ (e : Env ℝ) (dt : ℝ),
      s._track_desired ≤ (advance_target_along_track ⟨Real.sqrt, dz⟩ K e dt s)._track_desired ∧
      (advance_target_along_track ⟨Real.sqrt, dz⟩ K e dt s)._track_desired
        ≤ (advance_target_along_track ⟨Real.sqrt, dz⟩ K e dt s)._track_length ∧
      (advance_target_along_track ⟨Real.sqrt, dz⟩ K e dt s)._track_length = s._track_length) ∧
    (∀ xs ys : List (Env ℝ × ℝ),
      (advance_calls ⟨Real.sqrt, dz⟩ K xs s)._track_desired
        ≤ (advance_calls ⟨Real.sqrt, dz⟩ K (xs ++ ys) s)._track_desired ∧
      0 ≤ (advance_calls ⟨Real.sqrt, dz⟩ K (xs ++ ys) s)._track_desired ∧
      (advance_calls ⟨Real.sqrt, dz⟩ K (xs ++ ys) s)._track_desired
        ≤ (advance_calls ⟨Real.sqrt, dz⟩ K (xs ++ ys) s)._track_length ∧
      (advance_calls ⟨Real.sqrt, dz⟩ K (xs ++ ys) s)._track_length = s._track_length) ∧
    (∀ (e : Env ℝ) (o d : Vector3 ℝ) (s0 : State ℝ),
      0 ≤ (set_origin_and_destination ⟨Real.sqrt, dz⟩ K e o d s0)._track_desired ∧
      (set_origin_and_destination ⟨Real.sqrt, dz⟩ K e o d s0)._track_desired
        ≤ (set_origin_and_destination ⟨Real.sqrt, dz⟩ K e o d s0)._track_length) := by
  refine ⟨?_, ?_, ?_⟩
  · intro e dt
    refine ⟨advance_progress_ge _ K e dt s, ?_, rfl⟩
    rw [advance_track_length]
    exact advance_progress_le _ K e dt s (h0.trans h1) h1
  · intro xs ys
    obtain ⟨a1, a2, a3⟩ := advance_calls_bounds ⟨Real.sqrt, dz⟩ K xs s h0 h1
    obtain ⟨b1, b2, b3⟩ := advance_calls_bounds ⟨Real.sqrt, dz⟩ K ys
      (advance_calls ⟨Real.sqrt, dz⟩ K xs s) (h0.trans a2) (by rw [a1]; exact a3)
    rw [advance_calls_append]
    rw [a1] at b1 b3
    refine ⟨b2, (h0.trans a2).trans b2, ?_, b1⟩
    rw [b1]
    exact b3
  · intro e o d s0
    obtain ⟨p, q⟩ := segment_start_progress K e dz o d s0
    rw [p]
    exact ⟨le_rfl, q⟩

theorem sqrt_eq_of_mul_self (x y : ℝ) (hy : 0 ≤ y) (h : y * y = x) : Real.sqrt x = y := by
  rw [← h]
  exact Real.sqrt_mul_self hy

theorem sqrt_1000000 : Real.sqrt (1000000 : ℝ) = 1000 :=
  sqrt_eq_of_mul_self _ _ (by norm_num) (by norm_num)

theorem sqrt_4515625 : Real.sqrt (4515625 : ℝ) = 2125 :=
  sqrt_eq_of_mul_self _ _ (by norm_num) (by norm_num)

theorem sqrt_16 : Real.sqrt (16 : ℝ) = 4 :=
  sqrt_eq_of_mul_self _ _ (by norm_num) (by norm_num)

/-- The fields of the scenario segment. -/
theorem scenario_segment_eq (dz : ℝ → ℝ) :
    (scenario_segment (⟨Real.sqrt, dz⟩ : FloatOps ℝ))._track_length = 1000 ∧
    (scenario_segment (⟨Real.sqrt, dz⟩ : FloatOps ℝ))._track_desired = 0 ∧
    (scenario_segment (⟨Real.sqrt, dz⟩ : FloatOps ℝ))._pos_delta_unit = ⟨1, 0, 0⟩ ∧
    (scenario_segment (⟨Real.sqrt, dz⟩ : FloatOps ℝ))._origin = ⟨0, 0, 0⟩ ∧
    (scenario_segment (⟨Real.sqrt, dz⟩ : FloatOps ℝ))._destination = ⟨1000, 0, 0⟩ ∧
    (scenario_segment (⟨Real.sqrt, dz⟩ : FloatOps ℝ))._wp_leash_xy = 531.25 ∧
    (scenario_segment (⟨Real.sqrt, dz⟩ : FloatOps ℝ))._vert_track_scale = 2.125 ∧
    (scenario_segment (⟨Real.sqrt, dz⟩ : FloatOps ℝ))._limited_speed_xy_cms = 0 ∧
    (scenario_segment (⟨Real.sqrt, dz⟩ : FloatOps ℝ))._wp_speed_cms = 500 ∧
    (scenario_segment (⟨Real.sqrt, dz⟩ : FloatOps ℝ))._wp_radius_cm = 200 ∧
    (scenario_segment (⟨Real.sqrt, dz⟩ : FloatOps ℝ))._flags = ⟨false, false⟩ := by
  unfold scenario_segment set_origin_and_destination
  simp only [Vector3.length]
  norm_num [sqrt_1000000, calculate_wp_leash_length, scenario_state, AC_WPNav,
    calculate_loiter_leash_length, scenario_env, scenario_consts, fdiv, constrain_float]

/-- The first step along the scenario segment, vehicle at rest at the origin, `dt = 0.1`:
the speed limit ramps from `0` to `50` and the progress becomes `5`. -/
theorem scenario_segment_first_step :
    (advance_target_along_track ⟨Real.sqrt, fun _ => 0⟩ scenario_consts
      (scenario_env 2 ⟨0, 0, 0⟩) (1 / 10)
      (scenario_segment ⟨Real.sqrt, fun _ => 0⟩))._track_desired = 5 := by
  obtain ⟨h1, h2, h3, h4, h5, h6, h7, h8, h9, h10, h11⟩ := scenario_segment_eq (fun _ => 0)
  unfold advance_target_along_track
  simp only [h1, h2, h3, h4, h5, h6, h7, h8, h9, h10, h11, Vector3.length]
  norm_num [scenario_env, scenario_consts, fdiv, constrain_float, sqrt_4515625, sqrt_16]

/-- C6 on the scenario segment (progress `0`, track length `1000`): the first call with
`dt = 0.1` moves the progress to `5`, and `0 ≤ 5 ≤ 1000`. -/
theorem C6_progress_monotone_witness :
    0 ≤ (scenario_segment (⟨Real.sqrt, fun _ => 0⟩ : FloatOps ℝ))._track_desired ∧
    (scenario_segment (⟨Real.sqrt, fun _ => 0⟩ : FloatOps ℝ))._track_desired
      ≤ (scenario_segment (⟨Real.sqrt, fun _ => 0⟩ : FloatOps ℝ))._track_length ∧
    (scenario_segment (⟨Real.sqrt, fun _ => 0⟩ : FloatOps ℝ))._track_desired ≤ 5 ∧
    (5 : ℝ) ≤ (advance_target_along_track ⟨Real.sqrt, fun _ => 0⟩ scenario_consts
      (scenario_env 2 ⟨0, 0, 0⟩) (1 / 10)
      (scenario_segment ⟨Real.sqrt, fun _ => 0⟩))._track_length := by
  obtain ⟨h1, h2, -⟩ := scenario_segment_eq (fun _ => 0)
  have h0 : 0 ≤ (scenario_segment (⟨Real.sqrt, fun _ => 0⟩ : FloatOps ℝ))._track_desired := by
    rw [h2]
  have hle : (scenario_segment (⟨Real.sqrt, fun _ => 0⟩ : FloatOps ℝ))._track_desired
      ≤ (scenario_segment (⟨Real.sqrt, fun _ => 0⟩ : FloatOps ℝ))._track_length := by
    rw [h1, h2]; norm_num
  obtain ⟨a, b, -⟩ := (C6_progress_monotone (fun _ => 0) scenario_consts
    (scenario_segment ⟨Real.sqrt, fun _ => 0⟩) h0 hle).1 (scenario_env 2 ⟨0, 0, 0⟩) (1 / 10)
  rw [scenario_segment_first_step] at a b
  exact ⟨h0, hle, a, b⟩

end Progress

/-! ## Loiter target and its leash -/

section LoiterLeash

/-- After a call with `nav_dt ≥ 0` the loiter target is within the loiter leash of the
measured position, provided the leash is not negative. -/
theorem translate_within_leash (dz : ℝ → ℝ) (K : Consts ℝ) (e : Env ℝ) (s : State ℝ)
    (nav_dt : ℝ) (hdt : 0 ≤ nav_dt) (hl : 0 ≤ s._loiter_leash) :
    Real.sqrt (((translate_loiter_target_movements ⟨Real.sqrt, dz⟩ K e nav_dt s)._target.x
        - e.position.x) ^ 2
      + ((translate_loiter_target_movements ⟨Real.sqrt, dz⟩ K e nav_dt s)._target.y
        - e.position.y) ^ 2)
      ≤ (translate_loiter_target_movements ⟨Real.sqrt, dz⟩ K e nav_dt s)._loiter_leash := by
  unfold translate_loiter_target_movements
  rw [if_neg (not_lt.mpr hdt)]
  lift_lets
  intro loiter_speed_cms adj_x adj_y vx0 vy0 vxd vx vyd vy vel_total scale vx1 vy1 tx ty
    curr_pos dex dey distance pull tx1 ty1 src1 src2
  show Real.sqrt ((tx1 - e.position.x) ^ 2 + (ty1 - e.position.y) ^ 2) ≤ s._loiter_leash
  have hD : distance = Real.sqrt (dex * dex + dey * dey) := rfl
  by_cases hp : distance > s._loiter_leash ∧ distance > 0
  · have hx : tx1 = e.position.x + s._loiter_leash * dex / distance := by
      simp only [tx1, pull, hp, and_self, decide_True, if_true, curr_pos]
      rw [fdiv_of_pos _ _ hp.2]
    have hy : ty1 = e.position.y + s._loiter_leash * dey / distance := by
      simp only [ty1, pull, hp, and_self, decide_True, if_true, curr_pos]
      rw [fdiv_of_pos _ _ hp.2]
    rw [hx, hy, add_sub_cancel_left, add_sub_cancel_left, hD]
    rw [hD] at hp
    rw [sqrt_scaled _ _ _ hp.2 hl]
  · have hx : tx1 = tx := by
      simp only [tx1, pull, hp, decide_False, Bool.false_eq_true, if_false]
    have hy : ty1 = ty := by
      simp only [ty1, pull, hp, decide_False, Bool.false_eq_true, if_false]
    have hd2 : Real.sqrt ((tx - e.position.x) ^ 2 + (ty - e.position.y) ^ 2) = distance := by
      rw [hD, sq, sq]
    rw [hx, hy, hd2]
    by_contra hgt
    have h1 : distance > s._loiter_leash := not_le.mp hgt
    exact hp ⟨h1, lt_of_le_of_lt hl h1⟩

theorem translate_negative_dt (F : FloatOps ℝ) (K : Consts ℝ) (e : Env ℝ) (s : State ℝ)
    (nav_dt : ℝ) (hdt : nav_dt < 0) :
    translate_loiter_target_movements F K e nav_dt s = s := by
  unfold translate_loiter_target_movements
  rw [if_pos hdt]

/-- C7 as stated fails for a negative `nav_dt`: the scenario object (loiter leash `531.25`,
minimum `100`) with loiter target `(1000, 0, 0)` and the vehicle at the origin; after
`translate_loiter_target_movements(-1)` the target is still `1000` away. -/
theorem C7_loiter_leash_containment_counterexample :
    (scenario_consts : Consts ℝ).WPNAV_MIN_LEASH_LENGTH
      ≤ (set_loiter_target ⟨1000, 0, 0⟩
          (scenario_state (⟨Real.sqrt, fun _ => 0⟩ : FloatOps ℝ) 2))._loiter_leash ∧
    ¬ Real.sqrt (((translate_loiter_target_movements ⟨Real.sqrt, fun _ => 0⟩ scenario_consts
          (scenario_env 2 ⟨0, 0, 0⟩) (-1)
          (set_loiter_target ⟨1000, 0, 0⟩ (scenario_state ⟨Real.sqrt, fun _ => 0⟩ 2)))._target.x
            - (scenario_env (2 : ℝ) ⟨0, 0, 0⟩).position.x) ^ 2
        + ((translate_loiter_target_movements ⟨Real.sqrt, fun _ => 0⟩ scenario_consts
          (scenario_env 2 ⟨0, 0, 0⟩) (-1)
          (set_loiter_target ⟨1000, 0, 0⟩ (scenario_state ⟨Real.sqrt, fun _ => 0⟩ 2)))._target.y
            - (scenario_env (2 : ℝ) ⟨0, 0, 0⟩).position.y) ^ 2)
      ≤ (translate_loiter_target_movements ⟨Real.sqrt, fun _ => 0⟩ scenario_consts
          (scenario_env 2 ⟨0, 0, 0⟩) (-1)
          (set_loiter_target ⟨1000, 0, 0⟩
            (scenario_state ⟨Real.sqrt, fun _ => 0⟩ 2)))._loiter_leash := by
  have hleash : (set_loiter_target ⟨1000, 0, 0⟩
      (scenario_state (⟨Real.sqrt, fun _ => 0⟩ : FloatOps ℝ) 2))._loiter_leash = 531.25 :=
    scenario_loiter_leash
  rw [translate_negative_dt _ _ _ _ _ (by norm_num), hleash]
  refine ⟨by norm_num [scenario_consts], ?_⟩
  have hd : Real.sqrt (((set_loiter_target ⟨1000, 0, 0⟩
      (scenario_state (⟨Real.sqrt, fun _ => 0⟩ : FloatOps ℝ) 2))._target.x
        - (scenario_env (2 : ℝ) ⟨0, 0, 0⟩).position.x) ^ 2
      + ((set_loiter_target ⟨1000, 0, 0⟩
      (scenario_state (⟨Real.sqrt, fun _ => 0⟩ : FloatOps ℝ) 2))._target.y
        - (scenario_env (2 : ℝ) ⟨0, 0, 0⟩).position.y) ^ 2) = 1000 := by
    apply sqrt_eq_of_mul_self _ _ (by norm_num)
    norm_num [set_loiter_target, scenario_env]
  rw [hd]
  norm_num

/-- C7, amended. For every state whose loiter leash is at least the configured minimum, the
minimum being non-negative, every measured position, every stored pilot input and every
`nav_dt ≥ 0`, after `translate_loiter_target_movements(nav_dt)` the horizontal distance
between the loiter target and the measured position is `≤ loiter_leash`.  For `nav_dt < 0`
the call returns at its range check and leaves the state as it was. -/
theorem C7_loiter_leash_containment (dz : ℝ → ℝ) (K : Consts ℝ) (e : Env ℝ) (s : State ℝ)
    (nav_dt : ℝ) (hm : 0 ≤ K.WPNAV_MIN_LEASH_LENGTH)
    (hl : K.WPNAV_MIN_LEASH_LENGTH ≤ s._loiter_leash) :
    (0 ≤ nav_dt →
      Real.sqrt (((translate_loiter_target_movements ⟨Real.sqrt, dz⟩ K e nav_dt s)._target.x
          - e.position.x) ^ 2
        + ((translate_loiter_target_movements ⟨Real.sqrt, dz⟩ K e nav_dt s)._target.y
          - e.position.y) ^ 2)
        ≤ (translate_loiter_target_movements ⟨Real.sqrt, dz⟩ K e nav_dt s)._loiter_leash) ∧
    (nav_dt < 0 → translate_loiter_target_movements ⟨Real.sqrt, dz⟩ K e nav_dt s = s) :=
  ⟨fun hdt => translate_within_leash dz K e s nav_dt hdt (hm.trans hl),
   fun hdt => translate_negative_dt _ K e s nav_dt hdt⟩

/-- C7 (amended) on the scenario object with loiter target `(1000, 0, 0)`, the vehicle at
the origin and `nav_dt = 0.1`: the target is pulled back to within `531.25`. -/
theorem C7_loiter_leash_containment_witness :
    0 ≤ (scenario_consts : Consts ℝ).WPNAV_MIN_LEASH_LENGTH ∧
    (scenario_consts : Consts ℝ).WPNAV_MIN_LEASH_LENGTH
      ≤ (set_loiter_target ⟨1000, 0, 0⟩
          (scenario_state (⟨Real.sqrt, fun _ => 0⟩ : FloatOps ℝ) 2))._loiter_leash ∧
    Real.sqrt (((translate_loiter_target_movements ⟨Real.sqrt, fun _ => 0⟩ scenario_consts
          (scenario_env 2 ⟨0, 0, 0⟩) (1 / 10)
          (set_loiter_target ⟨1000, 0, 0⟩ (scenario_state ⟨Real.sqrt, fun _ => 0⟩ 2)))._target.x
            - (scenario_env (2 : ℝ) ⟨0, 0, 0⟩).position.x) ^ 2
        + ((translate_loiter_target_movements ⟨Real.sqrt, fun _ => 0⟩ scenario_consts
          (scenario_env 2 ⟨0, 0, 0⟩) (1 / 10)
          (set_loiter_target ⟨1000, 0, 0⟩ (scenario_state ⟨Real.sqrt, fun _ => 0⟩ 2)))._target.y
            - (scenario_env (2 : ℝ) ⟨0, 0, 0⟩).position.y) ^ 2)
      ≤ 531.25 := by
  have hm : 0 ≤ (scenario_consts : Consts ℝ).WPNAV_MIN_LEASH_LENGTH := by
    norm_num [scenario_consts]
  have hleash : (set_loiter_target ⟨1000, 0, 0⟩
      (scenario_state (⟨Real.sqrt, fun _ => 0⟩ : FloatOps ℝ) 2))._loiter_leash = 531.25 :=
    scenario_loiter_leash
  have hl : (scenario_consts : Consts ℝ).WPNAV_MIN_LEASH_LENGTH
      ≤ (set_loiter_target ⟨1000, 0, 0⟩
          (scenario_state (⟨Real.sqrt, fun _ => 0⟩ : FloatOps ℝ) 2))._loiter_leash := by
    rw [hleash]; norm_num [scenario_consts]
  have h := (C7_loiter_leash_containment (fun _ => 0) scenario_consts
    (scenario_env 2 ⟨0, 0, 0⟩)
    (set_loiter_target ⟨1000, 0, 0⟩ (scenario_state ⟨Real.sqrt, fun _ => 0⟩ 2)) (1 / 10)
    hm hl).1 (by norm_num)
  have hfr : (translate_loiter_target_movements ⟨Real.sqrt, fun _ => 0⟩ scenario_consts
      (scenario_env 2 ⟨0, 0, 0⟩) (1 / 10)
      (set_loiter_target ⟨1000, 0, 0⟩
        (scenario_state (⟨Real.sqrt, fun _ => 0⟩ : FloatOps ℝ) 2)))._loiter_leash = 531.25 := by
    have := leashes_translate ⟨Real.sqrt, fun _ => 0⟩ scenario_consts
      (scenario_env 2 ⟨0, 0, 0⟩) (1 / 10)
      (set_loiter_target ⟨1000, 0, 0⟩ (scenario_state ⟨Real.sqrt, fun _ => 0⟩ 2))
    have h1 := congrArg Prod.fst this
    simp only [leashes] at h1
    rw [h1, hleash]
  rw [hfr] at h
  exact ⟨hm, hl, h⟩

end LoiterLeash

/-! ## Position stage: velocity saturation -/

section PositionStage

theorem velocity_to_acceleration_desired_vel (F : FloatOps ℝ) (K : Consts ℝ) (e : Env ℝ)
    (a b dt : ℝ) (s : State ℝ) :
    (get_loiter_velocity_to_acceleration F K e a b dt s).desired_vel = s.desired_vel := rfl

theorem position_stage_before_feed_forward (dz : ℝ → ℝ) (K : Consts ℝ) (e : Env ℝ)
    (s : State ℝ) (dt max_speed_cms : ℝ) (hm : 0 ≤ max_speed_cms) (hk : 0 < e.kP) :
    Real.sqrt
      (((get_loiter_position_to_velocity ⟨Real.sqrt, dz⟩ K e dt max_speed_cms s).desired_vel.x
          - s._target_vel.x) ^ 2
      + ((get_loiter_position_to_velocity ⟨Real.sqrt, dz⟩ K e dt max_speed_cms s).desired_vel.y
          - s._target_vel.y) ^ 2) ≤ max_speed_cms := by
  unfold get_loiter_position_to_velocity
  lift_lets
  intro curr kP dist_error_x dist_error_y linear_distance dist_error_total vel_sqrt vx vy
    vel_total vx1 vy1 vx2 vy2
  have hkP : ¬ kP ≤ 0 := not_le.mpr hk
  rw [if_neg hkP]
  show Real.sqrt ((vx2 - s._target_vel.x) ^ 2 + (vy2 - s._target_vel.y) ^ 2) ≤ max_speed_cms
  have hx2 : vx2 - s._target_vel.x = vx1 := add_sub_cancel_right _ _
  have hy2 : vy2 - s._target_vel.y = vy1 := add_sub_cancel_right _ _
  have hV : vel_total = Real.sqrt (vx * vx + vy * vy) := rfl
  rw [hx2, hy2]
  by_cases hc : vel_total > max_speed_cms
  · have hpos : 0 < vel_total := lt_of_le_of_lt hm hc
    have hx : vx1 = max_speed_cms * vx / vel_total := by
      simp only [vx1, hc, if_true]
      rw [fdiv_of_pos _ _ hpos]
    have hy : vy1 = max_speed_cms * vy / vel_total := by
      simp only [vy1, hc, if_true]
      rw [fdiv_of_pos _ _ hpos]
    rw [hx, hy, hV]
    rw [hV] at hpos
    rw [sqrt_scaled _ _ _ hpos hm]
  · have hx : vx1 = vx := by simp only [vx1, hc, if_false]
    have hy : vy1 = vy := by simp only [vy1, hc, if_false]
    rw [hx, hy, sq, sq, ← hV]
    exact not_lt.mp hc

theorem position_stage_zero_gain (F : FloatOps ℝ) (K : Consts ℝ) (e : Env ℝ)
    (s : State ℝ) (dt max_speed_cms : ℝ) (hk : e.kP ≤ 0) :
    (get_loiter_position_to_velocity F K e dt max_speed_cms s).desired_vel = ⟨0, 0⟩ := by
  unfold get_loiter_position_to_velocity
  dsimp only
  rw [if_pos hk]
  rfl

theorem sqrt_2500 : Real.sqrt (2500 : ℝ) = 50 :=
  sqrt_eq_of_mul_self _ _ (by norm_num) (by norm_num)

theorem sqrt_10000 : Real.sqrt (10000 : ℝ) = 100 :=
  sqrt_eq_of_mul_self _ _ (by norm_num) (by norm_num)

theorem sqrt_360000 : Real.sqrt (360000 : ℝ) = 600 :=
  sqrt_eq_of_mul_self _ _ (by norm_num) (by norm_num)

/-- The loiter scenario: target `(50, 0)` with feed-forward velocity `(500, 0)`, vehicle at
the origin, gain `2`, speed limit `500`.  The proportional law gives `(100, 0)`, which is
within the limit; the feed-forward is added afterwards, giving `(600, 0)`. -/
theorem scenario_position_stage :
    (get_loiter_position_to_velocity ⟨Real.sqrt, fun _ => 0⟩ scenario_consts
      (scenario_env 2 ⟨0, 0, 0⟩) (1 / 10) 500
      (set_loiter_target_vel scenario_consts (scenario_env 2 ⟨0, 0, 0⟩) ⟨50, 0, 0⟩ ⟨500, 0, 0⟩
        (scenario_state ⟨Real.sqrt, fun _ => 0⟩ 2))).desired_vel = ⟨600, 0⟩ := by
  unfold get_loiter_position_to_velocity
  norm_num [velocity_to_acceleration_desired_vel, set_loiter_target_vel, scenario_env,
    scenario_consts, fdiv, sqrt_2500, sqrt_10000]

/-- C8 as stated fails when the feed-forward target velocity is not zero: in the loiter
scenario the speed limit is `500 ≥ 0` and the desired velocity handed to the velocity stage
is `(600, 0)`, of magnitude `600`. -/
theorem C8_velocity_saturation_counterexample :
    (0 : ℝ) ≤ 500 ∧
    ¬ Real.sqrt
      ((get_loiter_position_to_velocity ⟨Real.sqrt, fun _ => 0⟩ scenario_consts
        (scenario_env 2 ⟨0, 0, 0⟩) (1 / 10) 500
        (set_loiter_target_vel scenario_consts (scenario_env 2 ⟨0, 0, 0⟩) ⟨50, 0, 0⟩ ⟨500, 0, 0⟩
          (scenario_state ⟨Real.sqrt, fun _ => 0⟩ 2))).desired_vel.x ^ 2
      + (get_loiter_position_to_velocity ⟨Real.sqrt, fun _ => 0⟩ scenario_consts
        (scenario_env 2 ⟨0, 0, 0⟩) (1 / 10) 500
        (set_loiter_target_vel scenario_consts (scenario_env 2 ⟨0, 0, 0⟩) ⟨50, 0, 0⟩ ⟨500, 0, 0⟩
          (scenario_state ⟨Real.sqrt, fun _ => 0⟩ 2))).desired_vel.y ^ 2) ≤ 500 := by
  rw [scenario_position_stage]
  norm_num [sqrt_360000]

/-- C8, amended. For every target, feed-forward target velocity, measured position, gain and
speed limit `max_speed_cms ≥ 0`: when `kP ≤ 0` the desired velocity that
`get_loiter_position_to_velocity` outputs is zero; when `kP > 0` it is the feed-forward
target velocity plus a vector of horizontal magnitude `≤ max_speed_cms`, so its own
magnitude is `≤ max_speed_cms` whenever the feed-forward target velocity is zero (as it is
in waypoint mode). -/
theorem C8_velocity_saturation (dz : ℝ → ℝ) (K : Consts ℝ) (e : Env ℝ) (s : State ℝ)
    (dt max_speed_cms : ℝ) (hm : 0 ≤ max_speed_cms) :
    (e.kP ≤ 0 →
      (get_loiter_position_to_velocity ⟨Real.sqrt, dz⟩ K e dt max_speed_cms s).desired_vel
        = ⟨0, 0⟩) ∧
    (0 < e.kP →
      Real.sqrt
        (((get_loiter_position_to_velocity ⟨Real.sqrt, dz⟩ K e dt max_speed_cms s).desired_vel.x
            - s._target_vel.x) ^ 2
        + ((get_loiter_position_to_velocity ⟨Real.sqrt, dz⟩ K e dt max_speed_cms s).desired_vel.y
            - s._target_vel.y) ^ 2) ≤ max_speed_cms) ∧
    ((e.kP ≤ 0 ∨ (s._target_vel.x = 0 ∧ s._target_vel.y = 0)) →
      Real.sqrt
        ((get_loiter_position_to_velocity ⟨Real.sqrt, dz⟩ K e dt max_speed_cms s).desired_vel.x ^ 2
        + (get_loiter_position_to_velocity ⟨Real.sqrt, dz⟩ K e dt max_speed_cms s).desired_vel.y
            ^ 2) ≤ max_speed_cms) := by
  refine ⟨position_stage_zero_gain _ K e s dt max_speed_cms,
    position_stage_before_feed_forward dz K e s dt max_speed_cms hm, ?_⟩
  intro h
  by_cases hk : e.kP ≤ 0
  · rw [position_stage_zero_gain _ K e s dt max_speed_cms hk, sqrt_sum_sq_zero]
    exact hm
  · rcases h with h | ⟨hx, hy⟩
    · exact absurd h hk
    · have := position_stage_before_feed_forward dz K e s dt max_speed_cms hm (not_le.mp hk)
      rw [hx, hy, sub_zero, sub_zero] at this
      exact this

/-- C8 (amended) on the loiter scenario (gain `2 > 0`, limit `500`): the desired velocity
`(600, 0)` minus the feed-forward `(500, 0)` has magnitude `≤ 500`. -/
theorem C8_velocity_saturation_witness :
    (0 : ℝ) ≤ 500 ∧ 0 < (scenario_env (2 : ℝ) ⟨0, 0, 0⟩).kP ∧
    Real.sqrt
      (((get_loiter_position_to_velocity ⟨Real.sqrt, fun _ => 0⟩ scenario_consts
          (scenario_env 2 ⟨0, 0, 0⟩) (1 / 10) 500
          (set_loiter_target_vel scenario_consts (scenario_env 2 ⟨0, 0, 0⟩) ⟨50, 0, 0⟩
            ⟨500, 0, 0⟩ (scenario_state ⟨Real.sqrt, fun _ => 0⟩ 2))).desired_vel.x - 500) ^ 2
      + ((get_loiter_position_to_velocity ⟨Real.sqrt, fun _ => 0⟩ scenario_consts
          (scenario_env 2 ⟨0, 0, 0⟩) (1 / 10) 500
          (set_loiter_target_vel scenario_consts (scenario_env 2 ⟨0, 0, 0⟩) ⟨50, 0, 0⟩
            ⟨500, 0, 0⟩ (scenario_state ⟨Real.sqrt, fun _ => 0⟩ 2))).desired_vel.y - 0) ^ 2)
      ≤ 500 := by
  have hm : (0 : ℝ) ≤ 500 := by norm_num
  have hk : 0 < (scenario_env (2 : ℝ) ⟨0, 0, 0⟩).kP := by norm_num [scenario_env]
  exact ⟨hm, hk, (C8_velocity_saturation (fun _ => 0) scenario_consts
    (scenario_env 2 ⟨0, 0, 0⟩)
    (set_loiter_target_vel scenario_consts (scenario_env 2 ⟨0, 0, 0⟩) ⟨50, 0, 0⟩ ⟨500, 0, 0⟩
      (scenario_state ⟨Real.sqrt, fun _ => 0⟩ 2)) (1 / 10) 500 hm).2.1 hk⟩

end PositionStage

/-! ## Velocity stage: acceleration saturation -/

section VelocityStage

/-- C9. Acceleration saturation: for every desired velocity, measured velocity, previous
commanded velocity, `dt` (including `0`) and rate-controller outputs, with
`WPNAV_ACCEL_MAX > 0`, the desired acceleration that `get_loiter_velocity_to_acceleration`
hands to the lean-angle stage has magnitude `≤ WPNAV_ACCEL_MAX`, and it is the unsaturated
acceleration (feed-forward plus rate-controller output) with both axes multiplied by one
factor `k`, `0 ≤ k ≤ 1`. -/
theorem C9_acceleration_saturation (dz : ℝ → ℝ) (K : Consts ℝ) (e : Env ℝ) (s : State ℝ)
    (vel_lat vel_lon dt : ℝ) (hA : 0 < K.WPNAV_ACCEL_MAX) :
    Real.sqrt
      ((get_loiter_velocity_to_acceleration ⟨Real.sqrt, dz⟩ K e vel_lat vel_lon dt s).desired_accel.x
          ^ 2
      + (get_loiter_velocity_to_acceleration ⟨Real.sqrt, dz⟩ K e vel_lat vel_lon dt s).desired_accel.y
          ^ 2) ≤ K.WPNAV_ACCEL_MAX ∧
    ∃ k : ℝ, 0 ≤ k ∧ k ≤ 1 ∧
      (get_loiter_velocity_to_acceleration ⟨Real.sqrt, dz⟩ K e vel_lat vel_lon dt s).desired_accel.x
        = k * ((if dt = 0 then 0 else (vel_lat - s._vel_last.x) / dt)
            + (e.get_pid_lat s.pid_I.rate_lat (vel_lat - e.velocity.x) dt).1) ∧
      (get_loiter_velocity_to_acceleration ⟨Real.sqrt, dz⟩ K e vel_lat vel_lon dt s).desired_accel.y
        = k * ((if dt = 0 then 0 else (vel_lon - s._vel_last.y) / dt)
            + (e.get_pid_lon s.pid_I.rate_lon (vel_lon - e.velocity.y) dt).1) := by
  unfold get_loiter_velocity_to_acceleration
  lift_lets
  intro vel_curr ff_x ff_y vel_error_x vel_error_y pid_lat pid_lon ax ay accel_total ax1 ay1
    src1 src2
  show Real.sqrt (ax1 ^ 2 + ay1 ^ 2) ≤ K.WPNAV_ACCEL_MAX ∧
    ∃ k : ℝ, 0 ≤ k ∧ k ≤ 1 ∧
      ax1 = k * ((if dt = 0 then 0 else (vel_lat - s._vel_last.x) / dt)
            + (e.get_pid_lat s.pid_I.rate_lat (vel_lat - e.velocity.x) dt).1) ∧
      ay1 = k * ((if dt = 0 then 0 else (vel_lon - s._vel_last.y) / dt)
            + (e.get_pid_lon s.pid_I.rate_lon (vel_lon - e.velocity.y) dt).1)
  have hax : (if dt = 0 then 0 else (vel_lat - s._vel_last.x) / dt)
      + (e.get_pid_lat s.pid_I.rate_lat (vel_lat - e.velocity.x) dt).1 = ax := by
    simp only [ax, ff_x, pid_lat, vel_error_x, vel_curr]
    by_cases h0 : dt = 0
    · rw [if_pos h0, if_pos h0]
    · rw [if_neg h0, if_neg h0, fdiv_of_ne _ _ h0]
  have hay : (if dt = 0 then 0 else (vel_lon - s._vel_last.y) / dt)
      + (e.get_pid_lon s.pid_I.rate_lon (vel_lon - e.velocity.y) dt).1 = ay := by
    simp only [ay, ff_y, pid_lon, vel_error_y, vel_curr]
    by_cases h0 : dt = 0
    · rw [if_pos h0, if_pos h0]
    · rw [if_neg h0, if_neg h0, fdiv_of_ne _ _ h0]
  rw [hax, hay]
  have hT : accel_total = Real.sqrt (ax * ax + ay * ay) := rfl
  by_cases hc : accel_total > K.WPNAV_ACCEL_MAX
  · have hpos : 0 < accel_total := lt_trans hA hc
    have hx : ax1 = K.WPNAV_ACCEL_MAX * ax / accel_total := by
      simp only [ax1, hc, if_true]
      rw [fdiv_of_pos _ _ hpos]
    have hy : ay1 = K.WPNAV_ACCEL_MAX * ay / accel_total := by
      simp only [ay1, hc, if_true]
      rw [fdiv_of_pos _ _ hpos]
    refine ⟨?_, K.WPNAV_ACCEL_MAX / accel_total, div_nonneg hA.le hpos.le, ?_, ?_, ?_⟩
    · rw [hx, hy, hT]
      rw [hT] at hpos
      rw [sqrt_scaled _ _ _ hpos hA.le]
    · rw [div_le_one hpos]
      exact hc.le
    · rw [hx]; ring
    · rw [hy]; ring
  · have hx : ax1 = ax := by simp only [ax1, hc, if_false]
    have hy : ay1 = ay := by simp only [ay1, hc, if_false]
    refine ⟨?_, 1, zero_le_one, le_rfl, ?_, ?_⟩
    · rw [hx, hy, sq, sq, ← hT]
      exact not_lt.mp hc
    · rw [hx, one_mul]
    · rw [hy, one_mul]

/-- C9 on the scenario object: desired velocity `(200, 0)` after a previous command of
zero, `dt = 0.1`, rate controllers answering `0`; the feed-forward `2000` is scaled down to
the limit `980`. -/
theorem C9_acceleration_saturation_witness :
    0 < (scenario_consts : Consts ℝ).WPNAV_ACCEL_MAX ∧
    Real.sqrt
      ((get_loiter_velocity_to_acceleration ⟨Real.sqrt, fun _ => 0⟩ scenario_consts
        (scenario_env 2 ⟨0, 0, 0⟩) 200 0 (1 / 10)
        (scenario_state ⟨Real.sqrt, fun _ => 0⟩ 2)).desired_accel.x ^ 2
      + (get_loiter_velocity_to_acceleration ⟨Real.sqrt, fun _ => 0⟩ scenario_consts
        (scenario_env 2 ⟨0, 0, 0⟩) 200 0 (1 / 10)
        (scenario_state ⟨Real.sqrt, fun _ => 0⟩ 2)).desired_accel.y ^ 2) ≤ 980 := by
  have hA : 0 < (scenario_consts : Consts ℝ).WPNAV_ACCEL_MAX := by norm_num [scenario_consts]
  exact ⟨hA, (C9_acceleration_saturation (fun _ => 0) scenario_consts
    (scenario_env 2 ⟨0, 0, 0⟩) (scenario_state ⟨Real.sqrt, fun _ => 0⟩ 2) 200 0 (1 / 10) hA).1⟩

end VelocityStage

/-! ## Arrival at the destination -/

section Arrival

/-- The arrival flag after `advance_target_along_track`, as the code nests its tests. -/
theorem advance_reached_eq (F : FloatOps ℝ) (K : Consts ℝ) (e : Env ℝ) (dt : ℝ)
    (s : State ℝ) :
    (advance_target_along_track F K e dt s)._flags.reached_destination =
      if s._flags.reached_destination = false then
        if (advance_target_along_track F K e dt s)._track_desired ≥ s._track_length then
          if s._flags.fast_waypoint = true then true
          else if dist_to_dest_length F e s ≤ s._wp_radius_cm then true
          else s._flags.reached_destination
        else s._flags.reached_destination
      else s._flags.reached_destination := rfl

/-- The arrival flag after the call is the flag before, or track end together with
`fast_waypoint` or the radius test. -/
theorem advance_reached_iff (F : FloatOps ℝ) (K : Consts ℝ) (e : Env ℝ) (dt : ℝ)
    (s : State ℝ) :
    (advance_target_along_track F K e dt s)._flags.reached_destination = true ↔
      s._flags.reached_destination = true ∨
      ((advance_target_along_track F K e dt s)._track_desired ≥ s._track_length ∧
        (s._flags.fast_waypoint = true ∨ dist_to_dest_length F e s ≤ s._wp_radius_cm)) := by
  rw [advance_reached_eq]
  by_cases hr : s._flags.reached_destination = true
  · simp [hr]
  · have hr' : s._flags.reached_destination = false := by
      simpa using hr
    by_cases ht : (advance_target_along_track F K e dt s)._track_desired ≥ s._track_length
    · by_cases hf : s._flags.fast_waypoint = true
      · simp [hr', ht, hf]
      · by_cases hd : dist_to_dest_length F e s ≤ s._wp_radius_cm
        · simp [hr', ht, hf, hd]
        · simp [hr', ht, hf, hd]
    · simp [hr', ht]

/-- The scenario segment with the vehicle at rest at the destination `(1000, 0, 0)` while
the intermediate target is still at the origin: one call with `dt = 0.1` moves the progress
to `5`, short of the track length `1000`. -/
theorem scenario_segment_step_at_destination :
    (advance_target_along_track ⟨Real.sqrt, fun _ => 0⟩ scenario_consts
      (scenario_env 2 ⟨1000, 0, 0⟩) (1 / 10)
      (scenario_segment ⟨Real.sqrt, fun _ => 0⟩))._track_desired = 5 := by
  obtain ⟨h1, h2, h3, h4, h5, h6, h7, h8, h9, h10, h11⟩ := scenario_segment_eq (fun _ => 0)
  unfold advance_target_along_track
  simp only [h1, h2, h3, h4, h5, h6, h7, h8, h9, h10, h11, Vector3.length]
  norm_num [scenario_env, scenario_consts, fdiv, constrain_float, sqrt_4515625, sqrt_16,
    sqrt_1000000]

theorem scenario_dist_at_destination :
    dist_to_dest_length (⟨Real.sqrt, fun _ => 0⟩ : FloatOps ℝ) (scenario_env 2 ⟨1000, 0, 0⟩)
      (scenario_segment ⟨Real.sqrt, fun _ => 0⟩) = 0 := by
  obtain ⟨h1, h2, h3, h4, h5, h6, h7, h8, h9, h10, h11⟩ := scenario_segment_eq (fun _ => 0)
  unfold dist_to_dest_length
  simp only [h5, h7, Vector3.length]
  norm_num [scenario_env]

/-- C10 as stated fails when the vehicle is inside the waypoint radius before the
intermediate target has reached the end of the track: scenario segment (`reached_destination`
false, `fast_waypoint` false, radius `200`), vehicle at the destination, `dt = 0.1`.  The
distance to the destination is `0 ≤ 200`, yet the flag stays false. -/
theorem C10_arrival_semantics_counterexample :
    (scenario_segment (⟨Real.sqrt, fun _ => 0⟩ : FloatOps ℝ))._flags.reached_destination = false ∧
    (0 : ℝ) ≤ 1 / 10 ∧
    ¬ ((advance_target_along_track ⟨Real.sqrt, fun _ => 0⟩ scenario_consts
          (scenario_env 2 ⟨1000, 0, 0⟩) (1 / 10)
          (scenario_segment ⟨Real.sqrt, fun _ => 0⟩))._flags.reached_destination = true ↔
        (((scenario_segment (⟨Real.sqrt, fun _ => 0⟩ : FloatOps ℝ))._flags.fast_waypoint = true ∧
          (advance_target_along_track ⟨Real.sqrt, fun _ => 0⟩ scenario_consts
            (scenario_env 2 ⟨1000, 0, 0⟩) (1 / 10)
            (scenario_segment ⟨Real.sqrt, fun _ => 0⟩))._track_desired
          ≥ (advance_target_along_track ⟨Real.sqrt, fun _ => 0⟩ scenario_consts
            (scenario_env 2 ⟨1000, 0, 0⟩) (1 / 10)
            (scenario_segment ⟨Real.sqrt, fun _ => 0⟩))._track_length) ∨
         dist_to_dest_length (⟨Real.sqrt, fun _ => 0⟩ : FloatOps ℝ) (scenario_env 2 ⟨1000, 0, 0⟩)
            (scenario_segment ⟨Real.sqrt, fun _ => 0⟩)
          ≤ (scenario_segment (⟨Real.sqrt, fun _ => 0⟩ : FloatOps ℝ))._wp_radius_cm)) := by
  obtain ⟨h1, h2, h3, h4, h5, h6, h7, h8, h9, h10, h11⟩ := scenario_segment_eq (fun _ => 0)
  refine ⟨by rw [h11], by norm_num, ?_⟩
  intro hiff
  have hreach := hiff.mpr (Or.inr (by rw [scenario_dist_at_destination, h10]; norm_num))
  rw [advance_reached_iff, scenario_segment_step_at_destination, h1, h11] at hreach
  norm_num at hreach

/-- C10, amended. For every state in which `reached_destination` is false and every
measured position, velocity and `dt`, after one call of `advance_target_along_track`
`reached_destination` is true if and only if the updated `track_progress ≥ track_length`
and (`fast_waypoint` is set or the distance from the measured position to the destination,
altitude scaled by `leash_vertical_scale`, is `≤` the waypoint radius). -/
theorem C10_arrival_semantics (dz : ℝ → ℝ) (K : Consts ℝ) (e : Env ℝ) (dt : ℝ) (s : State ℝ)
    (hr : s._flags.reached_destination = false) :
    (advance_target_along_track ⟨Real.sqrt, dz⟩ K e dt s)._flags.reached_destination = true ↔
      ((s._flags.fast_waypoint = true ∧
        (advance_target_along_track ⟨Real.sqrt, dz⟩ K e dt s)._track_desired
          ≥ (advance_target_along_track ⟨Real.sqrt, dz⟩ K e dt s)._track_length) ∨
       ((advance_target_along_track ⟨Real.sqrt, dz⟩ K e dt s)._track_desired
          ≥ (advance_target_along_track ⟨Real.sqrt, dz⟩ K e dt s)._track_length ∧
        dist_to_dest_length ⟨Real.sqrt, dz⟩ e s ≤ s._wp_radius_cm)) := by
  rw [advance_reached_iff, advance_track_length, hr]
  constructor
  · rintro (h | ⟨ht, hf | hd⟩)
    · exact absurd h (by decide)
    · exact Or.inl ⟨hf, ht⟩
    · exact Or.inr ⟨ht, hd⟩
  · rintro (⟨hf, ht⟩ | ⟨ht, hd⟩)
    · exact Or.inr ⟨ht, Or.inl hf⟩
    · exact Or.inr ⟨ht, Or.inr hd⟩

/-- Scenario C for C10 (amended): track length `1000`, origin `(0, 0, 0)`, destination
`(1000, 0, 0)`, the intermediate target at the end of the track, the vehicle at the
destination, `fast_waypoint` false, radius `200`: `reached_destination` becomes true. -/
theorem C10_arrival_semantics_witness :
    ({ scenario_segment (⟨Real.sqrt, fun _ => 0⟩ : FloatOps ℝ) with
        _track_desired := 1000 } : State ℝ)._flags.reached_destination = false ∧
    (advance_target_along_track ⟨Real.sqrt, fun _ => 0⟩ scenario_consts
      (scenario_env 2 ⟨1000, 0, 0⟩) (1 / 10)
      { scenario_segment (⟨Real.sqrt, fun _ => 0⟩ : FloatOps ℝ) with
        _track_desired := 1000 })._flags.reached_destination = true := by
  obtain ⟨h1, h2, h3, h4, h5, h6, h7, h8, h9, h10, h11⟩ := scenario_segment_eq (fun _ => 0)
  have hr : ({ scenario_segment (⟨Real.sqrt, fun _ => 0⟩ : FloatOps ℝ) with
      _track_desired := 1000 } : State ℝ)._flags.reached_destination = false := by
    show (scenario_segment (⟨Real.sqrt, fun _ => 0⟩ : FloatOps ℝ))._flags.reached_destination
      = false
    rw [h11]
  refine ⟨hr, ?_⟩
  rw [C10_arrival_semantics (fun _ => 0) scenario_consts (scenario_env 2 ⟨1000, 0, 0⟩) (1 / 10)
    _ hr]
  right
  constructor
  · rw [advance_track_length]
    refine le_trans ?_ (advance_progress_ge _ _ _ _ _)
    show (scenario_segment (⟨Real.sqrt, fun _ => 0⟩ : FloatOps ℝ))._track_length ≤ 1000
    rw [h1]
  · have hd : dist_to_dest_length (⟨Real.sqrt, fun _ => 0⟩ : FloatOps ℝ)
        (scenario_env 2 ⟨1000, 0, 0⟩)
        { scenario_segment (⟨Real.sqrt, fun _ => 0⟩ : FloatOps ℝ) with _track_desired := 1000 }
        = 0 := scenario_dist_at_destination
    rw [hd]
    show (0 : ℝ) ≤ (scenario_segment (⟨Real.sqrt, fun _ => 0⟩ : FloatOps ℝ))._wp_radius_cm
    rw [h10]
    norm_num

end Arrival

/-! ## Arrival check at the end of the track -/

section ArrivalCheck

theorem sqrt_90000 : Real.sqrt (90000 : ℝ) = 300 :=
  sqrt_eq_of_mul_self _ _ (by norm_num) (by norm_num)

/-- Scenario D distance: vehicle at `(700, 0, 0)`, destination `(1000, 0, 0)`. -/
theorem scenario_dist_at_700 :
    dist_to_dest_length (⟨Real.sqrt, fun _ => 0⟩ : FloatOps ℝ) (scenario_env 2 ⟨700, 0, 0⟩)
      { scenario_segment (⟨Real.sqrt, fun _ => 0⟩ : FloatOps ℝ) with _track_desired := 1000 }
      = 300 := by
  obtain ⟨h1, h2, h3, h4, h5, h6, h7, h8, h9, h10, h11⟩ := scenario_segment_eq (fun _ => 0)
  unfold dist_to_dest_length
  simp only [h5, h7, Vector3.length]
  norm_num [scenario_env, sqrt_90000]

/-- C11. Arrival check at track end: for every state and every call of
`advance_target_along_track`, `reached_destination` afterwards is true exactly when it was
true before, or the updated `track_progress ≥ track_length` and (`fast_waypoint` is set or
the altitude-scaled distance from the measured position to the destination is `≤` the
waypoint radius).  So the call never clears the flag, and a waypoint that is not fast, not
yet reached, and whose vehicle is farther than the radius from the destination is not marked
reached, whatever the track progress. -/
theorem C11_arrival_check (dz : ℝ → ℝ) (K : Consts ℝ) (e : Env ℝ) (dt : ℝ) (s : State ℝ) :
    ((advance_target_along_track ⟨Real.sqrt, dz⟩ K e dt s)._flags.reached_destination
      = (s._flags.reached_destination ||
          (decide ((advance_target_along_track ⟨Real.sqrt, dz⟩ K e dt s)._track_desired
              ≥ (advance_target_along_track ⟨Real.sqrt, dz⟩ K e dt s)._track_length) &&
            (s._flags.fast_waypoint ||
              decide (dist_to_dest_length ⟨Real.sqrt, dz⟩ e s ≤ s._wp_radius_cm))))) ∧
    (s._flags.reached_destination = true →
      (advance_target_along_track ⟨Real.sqrt, dz⟩ K e dt s)._flags.reached_destination = true) ∧
    (s._flags.reached_destination = false → s._flags.fast_waypoint = false →
      s._wp_radius_cm < dist_to_dest_length ⟨Real.sqrt, dz⟩ e s →
      (advance_target_along_track ⟨Real.sqrt, dz⟩ K e dt s)._flags.reached_destination
        = false) := by
  have hiff := advance_reached_iff ⟨Real.sqrt, dz⟩ K e dt s
  refine ⟨?_, ?_, ?_⟩
  · rw [Bool.eq_iff_iff, hiff, advance_track_length]
    simp only [Bool.or_eq_true, Bool.and_eq_true, decide_eq_true_eq]
  · intro hr
    exact hiff.mpr (Or.inl hr)
  · intro hr hf hd
    rw [← Bool.not_eq_true, hiff, hr, hf]
    rintro (h | ⟨-, h | h⟩)
    · exact absurd h (by decide)
    · exact absurd h (by decide)
    · exact absurd hd (not_lt.mpr h)

/-- Scenario D for C11: vehicle at `(700, 0, 0)`, destination `(1000, 0, 0)`, radius `200`,
`fast_waypoint` false, `track_progress = 1000`: the distance is `300 > 200` and
`reached_destination` stays false. -/
theorem C11_arrival_check_witness :
    dist_to_dest_length (⟨Real.sqrt, fun _ => 0⟩ : FloatOps ℝ) (scenario_env 2 ⟨700, 0, 0⟩)
      { scenario_segment (⟨Real.sqrt, fun _ => 0⟩ : FloatOps ℝ) with _track_desired := 1000 }
      = 300 ∧
    (advance_target_along_track ⟨Real.sqrt, fun _ => 0⟩ scenario_consts
      (scenario_env 2 ⟨700, 0, 0⟩) (1 / 10)
      { scenario_segment (⟨Real.sqrt, fun _ => 0⟩ : FloatOps ℝ) with
        _track_desired := 1000 })._flags.reached_destination = false := by
  obtain ⟨h1, h2, h3, h4, h5, h6, h7, h8, h9, h10, h11⟩ := scenario_segment_eq (fun _ => 0)
  refine ⟨scenario_dist_at_700, ?_⟩
  refine (C11_arrival_check (fun _ => 0) scenario_consts (scenario_env 2 ⟨700, 0, 0⟩) (1 / 10)
    { scenario_segment (⟨Real.sqrt, fun _ => 0⟩ : FloatOps ℝ) with
      _track_desired := 1000 }).2.2 ?_ ?_ ?_
  · show (scenario_segment (⟨Real.sqrt, fun _ => 0⟩ : FloatOps ℝ))._flags.reached_destination
      = false
    rw [h11]
  · show (scenario_segment (⟨Real.sqrt, fun _ => 0⟩ : FloatOps ℝ))._flags.fast_waypoint = false
    rw [h11]
  · rw [scenario_dist_at_700]
    show (scenario_segment (⟨Real.sqrt, fun _ => 0⟩ : FloatOps ℝ))._wp_radius_cm < 300
    rw [h10]
    norm_num

end ArrivalCheck

/-! ## Stale time gap in waypoint mode -/

section StaleGap

variable (F : FloatOps ℝ) (K : Consts ℝ) (e : Env ℝ)

/-- What the velocity stage leaves in the integrators: the position integrators as they
were, the rate integrators as the rate controllers return them. -/
theorem velocity_to_acceleration_pid_I (a b dt : ℝ) (s : State ℝ) :
    (get_loiter_velocity_to_acceleration F K e a b dt s).pid_I =
      { pos_lat := s.pid_I.pos_lat, pos_lon := s.pid_I.pos_lon,
        rate_lat := (e.get_pid_lat s.pid_I.rate_lat (a - e.velocity.x) dt).2,
        rate_lon := (e.get_pid_lon s.pid_I.rate_lon (b - e.velocity.y) dt).2 } := rfl

/-- With `dt = 0` the velocity stage has no feed-forward term: the acceleration it
saturates is the pair of rate-controller outputs. -/
theorem velocity_to_acceleration_zero_dt (dz : ℝ → ℝ) (a b : ℝ) (s : State ℝ) :
    (get_loiter_velocity_to_acceleration ⟨Real.sqrt, dz⟩ K e a b 0 s).desired_accel =
      { x := if Real.sqrt
              ((e.get_pid_lat s.pid_I.rate_lat (a - e.velocity.x) 0).1
                  * (e.get_pid_lat s.pid_I.rate_lat (a - e.velocity.x) 0).1
                + (e.get_pid_lon s.pid_I.rate_lon (b - e.velocity.y) 0).1
                  * (e.get_pid_lon s.pid_I.rate_lon (b - e.velocity.y) 0).1)
              > K.WPNAV_ACCEL_MAX then
            fdiv ⟨Real.sqrt, dz⟩ (K.WPNAV_ACCEL_MAX * (e.get_pid_lat s.pid_I.rate_lat (a - e.velocity.x) 0).1)
              (Real.sqrt
                ((e.get_pid_lat s.pid_I.rate_lat (a - e.velocity.x) 0).1
                    * (e.get_pid_lat s.pid_I.rate_lat (a - e.velocity.x) 0).1
                  + (e.get_pid_lon s.pid_I.rate_lon (b - e.velocity.y) 0).1
                    * (e.get_pid_lon s.pid_I.rate_lon (b - e.velocity.y) 0).1))
          else (e.get_pid_lat s.pid_I.rate_lat (a - e.velocity.x) 0).1,
        y := if Real.sqrt
              ((e.get_pid_lat s.pid_I.rate_lat (a - e.velocity.x) 0).1
                  * (e.get_pid_lat s.pid_I.rate_lat (a - e.velocity.x) 0).1
                + (e.get_pid_lon s.pid_I.rate_lon (b - e.velocity.y) 0).1
                  * (e.get_pid_lon s.pid_I.rate_lon (b - e.velocity.y) 0).1)
              > K.WPNAV_ACCEL_MAX then
            fdiv ⟨Real.sqrt, dz⟩ (K.WPNAV_ACCEL_MAX * (e.get_pid_lon s.pid_I.rate_lon (b - e.velocity.y) 0).1)
              (Real.sqrt
                ((e.get_pid_lat s.pid_I.rate_lat (a - e.velocity.x) 0).1
                    * (e.get_pid_lat s.pid_I.rate_lat (a - e.velocity.x) 0).1
                  + (e.get_pid_lon s.pid_I.rate_lon (b - e.velocity.y) 0).1
                    * (e.get_pid_lon s.pid_I.rate_lon (b - e.velocity.y) 0).1))
          else (e.get_pid_lon s.pid_I.rate_lon (b - e.velocity.y) 0).1 } := by
  unfold get_loiter_velocity_to_acceleration get_loiter_acceleration_to_lean_angles
  simp only [if_true, zero_add]

/-- The position stage ends in the velocity stage, called with the desired velocity it
stored, on a state whose integrators, timestamps and track members are those it was given. -/
theorem position_stage_handover (dt m : ℝ) (s : State ℝ) :
    ∃ s2 : State ℝ,
      get_loiter_position_to_velocity F K e dt m s =
        get_loiter_velocity_to_acceleration F K e
          (get_loiter_position_to_velocity F K e dt m s).desired_vel.x
          (get_loiter_position_to_velocity F K e dt m s).desired_vel.y dt s2 ∧
      s2.pid_I = s.pid_I ∧ s2._track_desired = s._track_desired ∧
      s2._limited_speed_xy_cms = s._limited_speed_xy_cms ∧ s2._target = s._target ∧
      s2._flags = s._flags := by
  by_cases hk : e.kP ≤ 0
  · have h : get_loiter_position_to_velocity F K e dt m s =
        get_loiter_velocity_to_acceleration F K e 0 0 dt
          { s with desired_vel := { x := 0, y := 0 } } := by
      unfold get_loiter_position_to_velocity
      dsimp only
      rw [if_pos hk]
    rw [h]
    exact ⟨_, rfl, rfl, rfl, rfl, rfl, rfl⟩
  · obtain ⟨vx, vy, s2, h, h1, h2, h3, h4, h5, h6⟩ : ∃ (vx vy : ℝ) (s2 : State ℝ),
        get_loiter_position_to_velocity F K e dt m s =
          get_loiter_velocity_to_acceleration F K e vx vy dt s2 ∧
        s2.desired_vel = ⟨vx, vy⟩ ∧ s2.pid_I = s.pid_I ∧
        s2._track_desired = s._track_desired ∧
        s2._limited_speed_xy_cms = s._limited_speed_xy_cms ∧ s2._target = s._target ∧
        s2._flags = s._flags := by
      unfold get_loiter_position_to_velocity
      dsimp only
      rw [if_neg hk]
      exact ⟨_, _, _, rfl, rfl, rfl, rfl, rfl, rfl, rfl⟩
    rw [h, velocity_to_acceleration_desired_vel, h1]
    exact ⟨s2, rfl, h2, h3, h4, h5, h6⟩

/-- The velocity stage does not write the track members. -/
theorem velocity_to_acceleration_track (a b dt : ℝ) (s : State ℝ) :
    (get_loiter_velocity_to_acceleration F K e a b dt s)._track_desired = s._track_desired ∧
    (get_loiter_velocity_to_acceleration F K e a b dt s)._limited_speed_xy_cms
      = s._limited_speed_xy_cms ∧
    (get_loiter_velocity_to_acceleration F K e a b dt s)._target = s._target ∧
    (get_loiter_velocity_to_acceleration F K e a b dt s)._flags = s._flags :=
  ⟨rfl, rfl, rfl, rfl⟩

/-- With an elapsed time of at least one second `update_wpnav` is the cascade with `dt = 0`
run after `reset_I`, without `advance_target_along_track`. -/
theorem update_wpnav_stale (s : State ℝ)
    (h : (1 : ℝ) ≤ elapsed_seconds (e.millis % 4294967296) s._wpnav_last_update) :
    update_wpnav F K e s =
      get_loiter_position_to_velocity F K e 0 s._wp_speed_cms
        (reset_I e { s with _wpnav_last_update := e.millis % 4294967296 }) := by
  unfold update_wpnav
  dsimp only
  rw [if_pos (ge_iff_le.mpr h), if_pos (ge_iff_le.mpr h)]
  rfl

/-- C12. Stale time gap in waypoint mode (Scenario E): when the elapsed time since the
previous waypoint update is at least one second, `update_wpnav` (a) is the cascade run on
the state `reset_I` leaves, in which the integrators of the four controllers are zero, and
the position integrators are still zero afterwards; (b) does not run
`advance_target_along_track`: `track_progress`, `limited_speed`, the intermediate target and
the flags are unchanged; (c) runs the cascade with `dt = 0`: the acceleration that is
saturated is the pair of rate-controller outputs (computed from zeroed integrators), with no
feed-forward term. -/
theorem C12_stale_gap (dz : ℝ → ℝ) (K : Consts ℝ) (e : Env ℝ) (s : State ℝ)
    (h : (1 : ℝ) ≤ elapsed_seconds (e.millis % 4294967296) s._wpnav_last_update) :
    (update_wpnav ⟨Real.sqrt, dz⟩ K e s =
        get_loiter_position_to_velocity ⟨Real.sqrt, dz⟩ K e 0 s._wp_speed_cms
          (reset_I e { s with _wpnav_last_update := e.millis % 4294967296 }) ∧
      (reset_I e { s with _wpnav_last_update := e.millis % 4294967296 }).pid_I
        = { pos_lat := 0, pos_lon := 0, rate_lat := 0, rate_lon := 0 } ∧
      (update_wpnav ⟨Real.sqrt, dz⟩ K e s).pid_I.pos_lat = 0 ∧
      (update_wpnav ⟨Real.sqrt, dz⟩ K e s).pid_I.pos_lon = 0) ∧
    ((update_wpnav ⟨Real.sqrt, dz⟩ K e s)._track_desired = s._track_desired ∧
      (update_wpnav ⟨Real.sqrt, dz⟩ K e s)._limited_speed_xy_cms = s._limited_speed_xy_cms ∧
      (update_wpnav ⟨Real.sqrt, dz⟩ K e s)._target = s._target ∧
      (update_wpnav ⟨Real.sqrt, dz⟩ K e s)._flags = s._flags) ∧
    (∀ px py : ℝ,
      px = (e.get_pid_lat 0
        ((update_wpnav ⟨Real.sqrt, dz⟩ K e s).desired_vel.x - e.velocity.x) 0).1 →
      py = (e.get_pid_lon 0
        ((update_wpnav ⟨Real.sqrt, dz⟩ K e s).desired_vel.y - e.velocity.y) 0).1 →
      (update_wpnav ⟨Real.sqrt, dz⟩ K e s).desired_accel =
        { x := if Real.sqrt (px * px + py * py) > K.WPNAV_ACCEL_MAX then
              fdiv ⟨Real.sqrt, dz⟩ (K.WPNAV_ACCEL_MAX * px) (Real.sqrt (px * px + py * py))
            else px,
          y := if Real.sqrt (px * px + py * py) > K.WPNAV_ACCEL_MAX then
              fdiv ⟨Real.sqrt, dz⟩ (K.WPNAV_ACCEL_MAX * py) (Real.sqrt (px * px + py * py))
            else py }) := by
  have hu := update_wpnav_stale ⟨Real.sqrt, dz⟩ K e s h
  obtain ⟨s2, hs2, hI, ht, hl, htg, hf⟩ := position_stage_handover ⟨Real.sqrt, dz⟩ K e 0
    s._wp_speed_cms (reset_I e { s with _wpnav_last_update := e.millis % 4294967296 })
  rw [← hu] at hs2
  have hI0 : s2.pid_I = { pos_lat := 0, pos_lon := 0, rate_lat := 0, rate_lon := 0 } := hI
  refine ⟨⟨hu, rfl, ?_, ?_⟩, ⟨?_, ?_, ?_, ?_⟩, ?_⟩
  · rw [hs2, velocity_to_acceleration_pid_I, hI0]
  · rw [hs2, velocity_to_acceleration_pid_I, hI0]
  · rw [hs2, (velocity_to_acceleration_track _ K e _ _ _ s2).1, ht]
    rfl
  · rw [hs2, (velocity_to_acceleration_track _ K e _ _ _ s2).2.1, hl]
    rfl
  · rw [hs2, (velocity_to_acceleration_track _ K e _ _ _ s2).2.2.1, htg]
    rfl
  · rw [hs2, (velocity_to_acceleration_track _ K e _ _ _ s2).2.2.2, hf]
    rfl
  · intro px py hpx hpy
    have hz := velocity_to_acceleration_zero_dt K e dz
      (update_wpnav ⟨Real.sqrt, dz⟩ K e s).desired_vel.x
      (update_wpnav ⟨Real.sqrt, dz⟩ K e s).desired_vel.y s2
    rw [← hs2, hI0] at hz
    rw [hz, ← hpx, ← hpy]

theorem scenario_segment_last_update (dz : ℝ → ℝ) :
    (scenario_segment (⟨Real.sqrt, dz⟩ : FloatOps ℝ))._wpnav_last_update = 0 := by
  unfold scenario_segment set_origin_and_destination calculate_wp_leash_length
  norm_num [scenario_state, AC_WPNav, calculate_loiter_leash_length, scenario_env]

/-- Scenario E for C12: the scenario segment, last waypoint update at `0` ms, clock at
`1000` ms.  The elapsed time is one second; the call leaves the progress at `0` and the
position integrators at zero. -/
theorem C12_stale_gap_witness :
    (1 : ℝ) ≤ elapsed_seconds
      (({ scenario_env (2 : ℝ) ⟨0, 0, 0⟩ with millis := 1000 } : Env ℝ).millis % 4294967296)
      (scenario_segment (⟨Real.sqrt, fun _ => 0⟩ : FloatOps ℝ))._wpnav_last_update ∧
    (update_wpnav ⟨Real.sqrt, fun _ => 0⟩ scenario_consts
      { scenario_env (2 : ℝ) ⟨0, 0, 0⟩ with millis := 1000 }
      (scenario_segment ⟨Real.sqrt, fun _ => 0⟩))._track_desired = 0 ∧
    (update_wpnav ⟨Real.sqrt, fun _ => 0⟩ scenario_consts
      { scenario_env (2 : ℝ) ⟨0, 0, 0⟩ with millis := 1000 }
      (scenario_segment ⟨Real.sqrt, fun _ => 0⟩)).pid_I.pos_lat = 0 := by
  have h : (1 : ℝ) ≤ elapsed_seconds
      (({ scenario_env (2 : ℝ) ⟨0, 0, 0⟩ with millis := 1000 } : Env ℝ).millis % 4294967296)
      (scenario_segment (⟨Real.sqrt, fun _ => 0⟩ : FloatOps ℝ))._wpnav_last_update := by
    rw [scenario_segment_last_update]
    norm_num [elapsed_seconds]
  obtain ⟨⟨-, -, hp, -⟩, ⟨ht, -⟩, -⟩ := C12_stale_gap (fun _ => 0) scenario_consts
    { scenario_env (2 : ℝ) ⟨0, 0, 0⟩ with millis := 1000 }
    (scenario_segment ⟨Real.sqrt, fun _ => 0⟩) h
  refine ⟨h, ?_, hp⟩
  rw [ht]
  exact (scenario_segment_eq (fun _ => 0)).2.1

end StaleGap

/-! ## The gain guard of `advance_target_along_track` -/

section GainGuard

/-- For `kP ≤ 0` the sibling functions do not reach their divisions by the gain: the stopping
point is the position, both leashes are the minimum and the desired velocity is zero,
whatever a quotient by zero would evaluate to. -/
theorem gain_guard_siblings (F : FloatOps ℝ) (K : Consts ℝ) (e : Env ℝ) (s : State ℝ)
    (p v : Vector3 ℝ) (climb : Bool) (dt m : ℝ) (hk : e.kP ≤ 0) :
    get_stopping_point F K e s p v = p ∧
    (calculate_loiter_leash_length F K e s)._loiter_leash = K.WPNAV_MIN_LEASH_LENGTH ∧
    (calculate_wp_leash_length F K e climb s)._wp_leash_xy = K.WPNAV_MIN_LEASH_LENGTH ∧
    (get_loiter_position_to_velocity F K e dt m s).desired_vel = ⟨0, 0⟩ := by
  refine ⟨?_, ?_, ?_, position_stage_zero_gain F K e s dt m hk⟩
  · unfold get_stopping_point
    dsimp only
    rw [if_pos (Or.inr hk)]
  · rw [loiter_leash_eq, if_pos hk]
  · rw [wp_leash_eq, if_pos hk]

/-- C13 fails in `advance_target_along_track` at `kP = 0`: the guard `kP >= 0.0f` lets the
quotient `WPNAV_ACCELERATION / kP` be evaluated with a zero divisor.  On the scenario
segment with the vehicle at rest, `dt = 0.1`, the new `limited_speed` is `50` when that
quotient is given the value `0` and `10` when it is given the value `10`: the result depends
on a division by zero. -/
theorem C13_gain_division_at_zero_gain :
    (scenario_env (0 : ℝ) ⟨0, 0, 0⟩).kP = 0 ∧
    (advance_target_along_track ⟨Real.sqrt, fun _ => 0⟩ scenario_consts
      (scenario_env 0 ⟨0, 0, 0⟩) (1 / 10)
      (scenario_segment ⟨Real.sqrt, fun _ => 0⟩))._limited_speed_xy_cms = 50 ∧
    (advance_target_along_track ⟨Real.sqrt, fun _ => 10⟩ scenario_consts
      (scenario_env 0 ⟨0, 0, 0⟩) (1 / 10)
      (scenario_segment ⟨Real.sqrt, fun _ => 0⟩))._limited_speed_xy_cms = 10 := by
  obtain ⟨h1, h2, h3, h4, h5, h6, h7, h8, h9, h10, h11⟩ := scenario_segment_eq (fun _ => 0)
  refine ⟨rfl, ?_, ?_⟩
  · unfold advance_target_along_track
    simp only [h1, h2, h3, h4, h5, h6, h7, h8, h9, h10, h11, Vector3.length]
    norm_num [scenario_env, scenario_consts, fdiv, constrain_float]
  · unfold advance_target_along_track
    simp only [h1, h2, h3, h4, h5, h6, h7, h8, h9, h10, h11, Vector3.length]
    norm_num [scenario_env, scenario_consts, fdiv, constrain_float]

end GainGuard

/-! ## Lean-angle outputs -/

section LeanAngles

variable (F : FloatOps ℝ) (K : Consts ℝ)

theorem to_int32_bounds (L : ℤ) (x : ℝ) (h1 : -(L : ℝ) ≤ x) (h2 : x ≤ (L : ℝ)) :
    -L ≤ to_int32 x ∧ to_int32 x ≤ L := by
  have h1' : ((-L : ℤ) : ℝ) ≤ x := by
    rw [Int.cast_neg]
    exact h1
  unfold to_int32
  split_ifs
  · exact ⟨Int.le_floor.mpr h1', Int.cast_le.mp ((Int.floor_le x).trans h2)⟩
  · exact ⟨Int.cast_le.mp (h1'.trans (Int.le_ceil x)), Int.ceil_le.mpr h2⟩

theorem constrain_int32_bounds (L amt : ℤ) (hL : 0 ≤ L) :
    -L ≤ constrain_int32 amt (-L) L ∧ constrain_int32 amt (-L) L ≤ L := by
  unfold constrain_int32
  split_ifs <;> omega

theorem lean_angles_fields (a b : ℝ) (s : State ℝ) :
    (get_loiter_acceleration_to_lean_angles F K a b s)._lean_angle_max = s._lean_angle_max ∧
    (get_loiter_acceleration_to_lean_angles F K a b s)._desired_roll =
      to_int32 (constrain_float
        (fdiv F ((-a * s._sin_yaw + b * s._cos_yaw) * s._cos_pitch) (-(-K.GRAVITY_MSS * 100))
          * fdiv F 18000 K.M_PI)
        (-(s._lean_angle_max : ℝ)) (s._lean_angle_max : ℝ)) ∧
    (get_loiter_acceleration_to_lean_angles F K a b s)._desired_pitch =
      to_int32 (constrain_float
        (fdiv F (-(a * s._cos_yaw + b * s._sin_yaw)) (-(-K.GRAVITY_MSS * 100))
          * fdiv F 18000 K.M_PI)
        (-(s._lean_angle_max : ℝ)) (s._lean_angle_max : ℝ)) :=
  ⟨rfl, rfl, rfl⟩

theorem lean_inv_lean_angles (hL : 0 ≤ K.MAX_LEAN_ANGLE) (a b : ℝ) (s : State ℝ)
    (hs : s._lean_angle_max = K.MAX_LEAN_ANGLE) :
    lean_inv K (get_loiter_acceleration_to_lean_angles F K a b s) := by
  obtain ⟨h0, hr, hp⟩ := lean_angles_fields F K a b s
  have hLr : (0 : ℝ) ≤ (K.MAX_LEAN_ANGLE : ℝ) := Int.cast_nonneg.mpr hL
  have hlh : -(K.MAX_LEAN_ANGLE : ℝ) ≤ (K.MAX_LEAN_ANGLE : ℝ) := by linarith
  unfold lean_inv lean_angles_bounded
  rw [h0, hr, hp, hs]
  exact ⟨rfl,
    (to_int32_bounds _ _ (le_constrain_float _ hlh) (constrain_float_le _ hlh)).1,
    (to_int32_bounds _ _ (le_constrain_float _ hlh) (constrain_float_le _ hlh)).2,
    (to_int32_bounds _ _ (le_constrain_float _ hlh) (constrain_float_le _ hlh)).1,
    (to_int32_bounds _ _ (le_constrain_float _ hlh) (constrain_float_le _ hlh)).2⟩

theorem lean_inv_of_fields {s t : State ℝ} (h : lean_fields t = lean_fields s)
    (hs : lean_inv K s) : lean_inv K t := by
  unfold lean_fields at h
  simp only [Prod.mk.injEq] at h
  obtain ⟨h1, h2, h3⟩ := h
  unfold lean_inv lean_angles_bounded at hs ⊢
  rw [h1, h2, h3]
  exact hs

theorem lean_inv_velocity_to_acceleration (hL : 0 ≤ K.MAX_LEAN_ANGLE) (e : Env ℝ)
    (a b dt : ℝ) (s : State ℝ) (hs : s._lean_angle_max = K.MAX_LEAN_ANGLE) :
    lean_inv K (get_loiter_velocity_to_acceleration F K e a b dt s) := by
  obtain ⟨x, y, s2, h, h2⟩ : ∃ (x y : ℝ) (s2 : State ℝ),
      get_loiter_velocity_to_acceleration F K e a b dt s =
        get_loiter_acceleration_to_lean_angles F K x y s2 ∧
      s2._lean_angle_max = s._lean_angle_max := ⟨_, _, _, rfl, rfl⟩
  rw [h]
  exact lean_inv_lean_angles F K hL x y s2 (h2.trans hs)

theorem lean_inv_position_to_velocity (hL : 0 ≤ K.MAX_LEAN_ANGLE) (e : Env ℝ)
    (dt m : ℝ) (s : State ℝ) (hs : s._lean_angle_max = K.MAX_LEAN_ANGLE) :
    lean_inv K (get_loiter_position_to_velocity F K e dt m s) := by
  obtain ⟨x, y, s2, h, h2⟩ : ∃ (x y : ℝ) (s2 : State ℝ),
      get_loiter_position_to_velocity F K e dt m s =
        get_loiter_velocity_to_acceleration F K e x y dt s2 ∧
      s2._lean_angle_max = s._lean_angle_max := by
    unfold get_loiter_position_to_velocity
    dsimp only
    by_cases hk : e.kP ≤ 0
    · rw [if_pos hk]
      exact ⟨_, _, _, rfl, rfl⟩
    · rw [if_neg hk]
      exact ⟨_, _, _, rfl, rfl⟩
  rw [h]
  exact lean_inv_velocity_to_acceleration F K hL e x y dt s2 (h2.trans hs)

theorem lean_fields_translate (e : Env ℝ) (dt : ℝ) (s : State ℝ) :
    lean_fields (translate_loiter_target_movements F K e dt s) = lean_fields s := by
  unfold translate_loiter_target_movements
  by_cases h : dt < 0
  · rw [if_pos h]
  · rw [if_neg h]
    rfl

theorem lean_fields_loiter_leash (e : Env ℝ) (s : State ℝ) :
    lean_fields (calculate_loiter_leash_length F K e s) = lean_fields s := by
  unfold calculate_loiter_leash_length
  dsimp only
  split_ifs <;> rfl

theorem lean_fields_wp_leash (e : Env ℝ) (climb : Bool) (s : State ℝ) :
    lean_fields (calculate_wp_leash_length F K e climb s) = lean_fields s := by
  unfold calculate_wp_leash_length
  dsimp only
  split_ifs <;> rfl

theorem lean_inv_set_loiter_target_vel (hL : 0 ≤ K.MAX_LEAN_ANGLE) (e : Env ℝ)
    (p v : Vector3 ℝ) (s : State ℝ) (hs : s._lean_angle_max = K.MAX_LEAN_ANGLE) :
    lean_inv K (set_loiter_target_vel K e p v s) :=
  ⟨hs, (constrain_int32_bounds _ _ hL).1, (constrain_int32_bounds _ _ hL).2,
    (constrain_int32_bounds _ _ hL).1, (constrain_int32_bounds _ _ hL).2⟩

theorem set_origin_and_destination_bounded (hL : 0 ≤ K.MAX_LEAN_ANGLE) (e : Env ℝ)
    (o d : Vector3 ℝ) (s : State ℝ) :
    lean_angles_bounded K.MAX_LEAN_ANGLE (set_origin_and_destination F K e o d s) :=
  ⟨(constrain_int32_bounds _ _ hL).1, (constrain_int32_bounds _ _ hL).2,
    (constrain_int32_bounds _ _ hL).1, (constrain_int32_bounds _ _ hL).2⟩

theorem set_origin_and_destination_lean_max (e : Env ℝ) (o d : Vector3 ℝ) (s : State ℝ) :
    (set_origin_and_destination F K e o d s)._lean_angle_max = s._lean_angle_max := by
  have h := lean_fields_wp_leash F K e (decide (d.z - o.z ≥ 0))
    { s with _origin := o, _destination := d }
  exact congrArg Prod.fst h

theorem lean_inv_constructor (hL : 0 ≤ K.MAX_LEAN_ANGLE) (e : Env ℝ) (garbage : State ℝ) :
    lean_inv K (AC_WPNav F K e garbage) := by
  unfold AC_WPNav
  refine lean_inv_of_fields K (lean_fields_loiter_leash F K e _) ?_
  exact ⟨rfl, by show -K.MAX_LEAN_ANGLE ≤ 0; omega, hL, by show -K.MAX_LEAN_ANGLE ≤ 0; omega, hL⟩

theorem lean_inv_update_loiter (hL : 0 ≤ K.MAX_LEAN_ANGLE) (e : Env ℝ) (s : State ℝ)
    (hs : s._lean_angle_max = K.MAX_LEAN_ANGLE) : lean_inv K (update_loiter F K e s) := by
  unfold update_loiter
  dsimp only
  apply lean_inv_position_to_velocity F K hL
  have h := congrArg Prod.fst (lean_fields_translate F K e
    (if elapsed_seconds (e.millis % 4294967296) s._loiter_last_update ≥ (1 : ℝ) then 0
      else elapsed_seconds (e.millis % 4294967296) s._loiter_last_update)
    (if elapsed_seconds (e.millis % 4294967296) s._loiter_last_update ≥ (1 : ℝ) then
      reset_I e { s with _loiter_last_update := e.millis % 4294967296 }
      else { s with _loiter_last_update := e.millis % 4294967296 }))
  simp only [lean_fields] at h
  rw [h]
  split_ifs <;> exact hs

theorem lean_inv_update_wpnav (hL : 0 ≤ K.MAX_LEAN_ANGLE) (e : Env ℝ) (s : State ℝ)
    (hs : s._lean_angle_max = K.MAX_LEAN_ANGLE) : lean_inv K (update_wpnav F K e s) := by
  unfold update_wpnav
  dsimp only
  apply lean_inv_position_to_velocity F K hL
  split_ifs <;> exact hs

theorem lean_inv_run (hL : 0 ≤ K.MAX_LEAN_ANGLE) (c : Call ℝ) (s : State ℝ)
    (h : lean_inv K s) : lean_inv K (c.run F K s) := by
  cases c with
  | set_loiter_target p => exact h
  | set_loiter_target_vel e p v => exact lean_inv_set_loiter_target_vel K hL e p v s h.1
  | move_loiter_target r p dt => exact h
  | translate_loiter_target_movements e dt =>
      exact lean_inv_of_fields K (lean_fields_translate F K e dt s) h
  | update_loiter e => exact lean_inv_update_loiter F K hL e s h.1
  | calculate_loiter_leash_length e =>
      exact lean_inv_of_fields K (lean_fields_loiter_leash F K e s) h
  | set_destination e d =>
      exact ⟨(set_origin_and_destination_lean_max F K e _ d _).trans h.1,
        set_origin_and_destination_bounded F K hL e _ d _⟩
  | set_origin_and_destination e o d =>
      exact ⟨(set_origin_and_destination_lean_max F K e o d s).trans h.1,
        set_origin_and_destination_bounded F K hL e o d s⟩
  | advance_target_along_track e dt => exact h
  | update_wpnav e => exact lean_inv_update_wpnav F K hL e s h.1
  | get_loiter_position_to_velocity e dt m =>
      exact lean_inv_position_to_velocity F K hL e dt m s h.1
  | get_loiter_velocity_to_acceleration e a b dt =>
      exact lean_inv_velocity_to_acceleration F K hL e a b dt s h.1
  | get_loiter_acceleration_to_lean_angles a b => exact lean_inv_lean_angles F K hL a b s h.1
  | reset_I e => exact h
  | calculate_wp_leash_length e c =>
      exact lean_inv_of_fields K (lean_fields_wp_leash F K e c s) h
  | external_write a b c d l cy sy cp fw => exact h

theorem lean_inv_run_calls (hL : 0 ≤ K.MAX_LEAN_ANGLE) (cs : List (Call ℝ)) (s : State ℝ)
    (h : lean_inv K s) : lean_inv K (run_calls F K cs s) := by
  induction cs generalizing s with
  | nil => exact h
  | cons c cs ih => exact ih _ (lean_inv_run F K hL c s h)

/-- C14. Lean-angle outputs are bounded: with `L = MAX_LEAN_ANGLE ≥ 0`, in every reachable
state the limit `_lean_angle_max` is the `L` the constructor set and `desired_roll`,
`desired_pitch` lie in `[-L, L]`; in particular after
`get_loiter_acceleration_to_lean_angles` (every acceleration, every cached `cos_yaw`,
`sin_yaw`, `cos_pitch`, limit `L`), after `set_loiter_target(position, velocity)` and after
`set_origin_and_destination` (every measured roll and pitch). -/
theorem C14_lean_angles_bounded (F : FloatOps ℝ) (K : Consts ℝ) (hL : 0 ≤ K.MAX_LEAN_ANGLE) :
    (∀ (accel_lat accel_lon : ℝ) (s : State ℝ), s._lean_angle_max = K.MAX_LEAN_ANGLE →
      lean_angles_bounded K.MAX_LEAN_ANGLE
        (get_loiter_acceleration_to_lean_angles F K accel_lat accel_lon s)) ∧
    (∀ (e : Env ℝ) (position velocity : Vector3 ℝ) (s : State ℝ),
      lean_angles_bounded K.MAX_LEAN_ANGLE (set_loiter_target_vel K e position velocity s)) ∧
    (∀ (e : Env ℝ) (origin destination : Vector3 ℝ) (s : State ℝ),
      lean_angles_bounded K.MAX_LEAN_ANGLE
        (set_origin_and_destination F K e origin destination s)) ∧
    (∀ s : State ℝ, Reachable F K s →
      s._lean_angle_max = K.MAX_LEAN_ANGLE ∧ lean_angles_bounded K.MAX_LEAN_ANGLE s) := by
  refine ⟨fun a b s hs => (lean_inv_lean_angles F K hL a b s hs).2,
    fun e p v s => ⟨(constrain_int32_bounds _ _ hL).1, (constrain_int32_bounds _ _ hL).2,
      (constrain_int32_bounds _ _ hL).1, (constrain_int32_bounds _ _ hL).2⟩,
    fun e o d s => set_origin_and_destination_bounded F K hL e o d s, ?_⟩
  rintro s ⟨e, g, cs, rfl⟩
  exact lean_inv_run_calls F K hL cs _ (lean_inv_constructor F K hL e g)

/-- C14 on the scenario object (`L = 4500`): after the lean-angle stage with acceleration
`(100000, -100000)` both outputs are within `[-4500, 4500]`. -/
theorem C14_lean_angles_bounded_witness :
    0 ≤ (scenario_consts : Consts ℝ).MAX_LEAN_ANGLE ∧
    lean_angles_bounded 4500
      (get_loiter_acceleration_to_lean_angles ⟨Real.sqrt, fun _ => 0⟩ scenario_consts
        100000 (-100000) (scenario_state ⟨Real.sqrt, fun _ => 0⟩ 2)) := by
  have hL : 0 ≤ (scenario_consts : Consts ℝ).MAX_LEAN_ANGLE := by
    norm_num [scenario_consts]
  have hr : Reachable (⟨Real.sqrt, fun _ => 0⟩ : FloatOps ℝ) scenario_consts
      (scenario_state ⟨Real.sqrt, fun _ => 0⟩ 2) := ⟨_, _, [], rfl⟩
  have h := C14_lean_angles_bounded ⟨Real.sqrt, fun _ => 0⟩ scenario_consts hL
  exact ⟨hL, h.1 100000 (-100000) _ (h.2.2.2 _ hr).1⟩

end LeanAngles

/-! ## Acceleration to lean angle -/

section LeanAngleFormula

/-- The stored lean angles are the commands before clamping, clamped to the lean-angle limit
and converted to `int32_t`. -/
theorem lean_angles_from_commands (F : FloatOps ℝ) (K : Consts ℝ) (a b : ℝ) (s : State ℝ) :
    (get_loiter_acceleration_to_lean_angles F K a b s)._desired_roll =
      to_int32 (constrain_float (roll_before_clamp F K a b s)
        (-(s._lean_angle_max : ℝ)) (s._lean_angle_max : ℝ)) ∧
    (get_loiter_acceleration_to_lean_angles F K a b s)._desired_pitch =
      to_int32 (constrain_float (pitch_before_clamp F K a b s)
        (-(s._lean_angle_max : ℝ)) (s._lean_angle_max : ℝ)) :=
  ⟨rfl, rfl⟩

/-- C15 as stated fails for the roll axis: the code multiplies by `cos_pitch`, it does not
divide by it.  Scenario constants (`g = 980.665`), `cos_yaw = 1`, `sin_yaw = 0`,
`cos_pitch = 1/2`, acceleration `(0, 980.665)`, so `accel_right = 980.665`: the claimed roll
command is `(accel_right / g) / cos_pitch * (18000 / pi) = 2 * (18000 / pi)`, the code's is
`(1/2) * (18000 / pi)`. -/
theorem C15_lean_angle_formula_counterexample :
    ({ scenario_state (⟨Real.sqrt, fun _ => 0⟩ : FloatOps ℝ) 2 with
        _cos_pitch := 1 / 2 } : State ℝ)._cos_pitch ≠ 0 ∧
    roll_before_clamp ⟨Real.sqrt, fun _ => 0⟩ scenario_consts 0 (980665 / 1000)
        { scenario_state (⟨Real.sqrt, fun _ => 0⟩ : FloatOps ℝ) 2 with _cos_pitch := 1 / 2 }
      = 1 / 2 * (18000 / (scenario_consts : Consts ℝ).M_PI) ∧
    roll_before_clamp ⟨Real.sqrt, fun _ => 0⟩ scenario_consts 0 (980665 / 1000)
        { scenario_state (⟨Real.sqrt, fun _ => 0⟩ : FloatOps ℝ) 2 with _cos_pitch := 1 / 2 }
      ≠ ((-0 * (scenario_state (⟨Real.sqrt, fun _ => 0⟩ : FloatOps ℝ) 2)._sin_yaw
            + 980665 / 1000 * (scenario_state (⟨Real.sqrt, fun _ => 0⟩ : FloatOps ℝ) 2)._cos_yaw)
          / ((scenario_consts : Consts ℝ).GRAVITY_MSS * 100)) / (1 / 2)
        * (18000 / (scenario_consts : Consts ℝ).M_PI) := by
  have hc : (scenario_state (⟨Real.sqrt, fun _ => 0⟩ : FloatOps ℝ) 2)._cos_yaw = 1 := by
    unfold scenario_state AC_WPNav calculate_loiter_leash_length
    norm_num [scenario_env]
  have hs : (scenario_state (⟨Real.sqrt, fun _ => 0⟩ : FloatOps ℝ) 2)._sin_yaw = 0 := by
    unfold scenario_state AC_WPNav calculate_loiter_leash_length
    norm_num [scenario_env]
  have hroll : roll_before_clamp ⟨Real.sqrt, fun _ => 0⟩ scenario_consts 0 (980665 / 1000)
      { scenario_state (⟨Real.sqrt, fun _ => 0⟩ : FloatOps ℝ) 2 with _cos_pitch := 1 / 2 }
      = 1 / 2 * (18000 / (scenario_consts : Consts ℝ).M_PI) := by
    unfold roll_before_clamp
    simp only [hc, hs]
    norm_num [scenario_consts, fdiv]
  refine ⟨by norm_num, hroll, ?_⟩
  rw [hroll, hc, hs]
  norm_num [scenario_consts]

/-- C15, amended. For every navigation-frame acceleration `(lat, lon)` and cached `cos_yaw`,
`sin_yaw`, `cos_pitch`, with `g = GRAVITY_MSS * 100 ≠ 0`,
`accel_forward = lat * cos_yaw + lon * sin_yaw` and
`accel_right = -lat * sin_yaw + lon * cos_yaw`: the roll command before clamping is
`accel_right` multiplied by `cos_pitch`, divided by `g`, times `18000 / pi`, and the pitch
command before clamping is `-accel_forward / g` times `18000 / pi`; the stored angles are
these commands clamped to the lean-angle limit. -/
theorem C15_lean_angle_formula (F : FloatOps ℝ) (K : Consts ℝ) (accel_lat accel_lon : ℝ)
    (s : State ℝ) (hg : K.GRAVITY_MSS ≠ 0) (hpi : K.M_PI ≠ 0) :
    roll_before_clamp F K accel_lat accel_lon s =
      (-accel_lat * s._sin_yaw + accel_lon * s._cos_yaw) * s._cos_pitch
        / (K.GRAVITY_MSS * 100) * (18000 / K.M_PI) ∧
    pitch_before_clamp F K accel_lat accel_lon s =
      -(accel_lat * s._cos_yaw + accel_lon * s._sin_yaw)
        / (K.GRAVITY_MSS * 100) * (18000 / K.M_PI) ∧
    (get_loiter_acceleration_to_lean_angles F K accel_lat accel_lon s)._desired_roll =
      to_int32 (constrain_float (roll_before_clamp F K accel_lat accel_lon s)
        (-(s._lean_angle_max : ℝ)) (s._lean_angle_max : ℝ)) ∧
    (get_loiter_acceleration_to_lean_angles F K accel_lat accel_lon s)._desired_pitch =
      to_int32 (constrain_float (pitch_before_clamp F K accel_lat accel_lon s)
        (-(s._lean_angle_max : ℝ)) (s._lean_angle_max : ℝ)) := by
  have hz : -(-K.GRAVITY_MSS * 100) ≠ 0 := by
    rw [neg_mul, neg_neg]
    exact mul_ne_zero hg (by norm_num)
  have hz' : -(-K.GRAVITY_MSS * 100) = K.GRAVITY_MSS * 100 := by ring
  refine ⟨?_, ?_, rfl, rfl⟩
  · unfold roll_before_clamp
    dsimp only
    rw [fdiv_of_ne F _ hz, fdiv_of_ne F _ hpi, hz']
  · unfold pitch_before_clamp
    dsimp only
    rw [fdiv_of_ne F _ hz, fdiv_of_ne F _ hpi, hz']

/-- C15 (amended) at the scenario constants, `cos_pitch = 1/2`, acceleration
`(0, 980.665)`: the roll command before clamping is `(1/2) * (18000 / pi)`. -/
theorem C15_lean_angle_formula_witness :
    (scenario_consts : Consts ℝ).GRAVITY_MSS ≠ 0 ∧ (scenario_consts : Consts ℝ).M_PI ≠ 0 ∧
    roll_before_clamp ⟨Real.sqrt, fun _ => 0⟩ scenario_consts 0 (980665 / 1000)
        { scenario_state (⟨Real.sqrt, fun _ => 0⟩ : FloatOps ℝ) 2 with _cos_pitch := 1 / 2 }
      = (-0 * (scenario_state (⟨Real.sqrt, fun _ => 0⟩ : FloatOps ℝ) 2)._sin_yaw
            + 980665 / 1000 * (scenario_state (⟨Real.sqrt, fun _ => 0⟩ : FloatOps ℝ) 2)._cos_yaw)
          * (1 / 2) / ((scenario_consts : Consts ℝ).GRAVITY_MSS * 100)
        * (18000 / (scenario_consts : Consts ℝ).M_PI) := by
  have hg : (scenario_consts : Consts ℝ).GRAVITY_MSS ≠ 0 := by norm_num [scenario_consts]
  have hpi : (scenario_consts : Consts ℝ).M_PI ≠ 0 := by norm_num [scenario_consts]
  exact ⟨hg, hpi, (C15_lean_angle_formula ⟨Real.sqrt, fun _ => 0⟩ scenario_consts 0
    (980665 / 1000)
    { scenario_state (⟨Real.sqrt, fun _ => 0⟩ : FloatOps ℝ) 2 with _cos_pitch := 1 / 2 }
    hg hpi).1⟩

end LeanAngleFormula

/-! ## Segment creation -/

section SegmentCreation

theorem constrain_float_eq_clamp (x w : ℝ) (hw : 0 ≤ w) :
    constrain_float x 0 w = max 0 (min x w) := by
  unfold constrain_float
  split_ifs with h1 h2
  · rw [min_eq_left (h1.le.trans hw), max_eq_left h1.le]
  · rw [min_eq_right h2.le, max_eq_right hw]
  · rw [min_eq_left (not_lt.mp h2), max_eq_right (not_lt.mp h1)]

/-- What `calculate_wp_leash_length` leaves alone. -/
theorem wp_leash_frame (F : FloatOps ℝ) (K : Consts ℝ) (e : Env ℝ) (climb : Bool)
    (s : State ℝ) :
    (calculate_wp_leash_length F K e climb s)._origin = s._origin ∧
    (calculate_wp_leash_length F K e climb s)._destination = s._destination ∧
    (calculate_wp_leash_length F K e climb s)._wp_speed_cms = s._wp_speed_cms ∧
    (calculate_wp_leash_length F K e climb s)._target_vel = s._target_vel := by
  unfold calculate_wp_leash_length
  dsimp only
  split_ifs <;> exact ⟨rfl, rfl, rfl, rfl⟩

/-- C16. Segment creation postconditions: for every origin, destination, prior state,
measured velocity and waypoint speed `≥ 0`, after `set_origin_and_destination(origin,
destination)` the stored origin and destination are the arguments, `track_progress = 0`, the
intermediate target is `origin`, `reached_destination` and `fast_waypoint` are false, the
horizontal feed-forward target velocity is zero, and `limited_speed` is the dot product of
the measured velocity with the track unit vector, clamped to `[0, waypoint speed]`. -/
theorem C16_segment_creation (F : FloatOps ℝ) (K : Consts ℝ) (e : Env ℝ)
    (origin destination : Vector3 ℝ) (s : State ℝ) (hw : 0 ≤ s._wp_speed_cms) :
    (set_origin_and_destination F K e origin destination s)._origin = origin ∧
    (set_origin_and_destination F K e origin destination s)._destination = destination ∧
    (set_origin_and_destination F K e origin destination s)._track_desired = 0 ∧
    (set_origin_and_destination F K e origin destination s)._target = origin ∧
    (set_origin_and_destination F K e origin destination s)._flags.reached_destination
      = false ∧
    (set_origin_and_destination F K e origin destination s)._flags.fast_waypoint = false ∧
    (set_origin_and_destination F K e origin destination s)._target_vel.x = 0 ∧
    (set_origin_and_destination F K e origin destination s)._target_vel.y = 0 ∧
    (set_origin_and_destination F K e origin destination s)._wp_speed_cms = s._wp_speed_cms ∧
    (set_origin_and_destination F K e origin destination s)._limited_speed_xy_cms =
      max 0 (min
        (e.velocity.x * (set_origin_and_destination F K e origin destination s)._pos_delta_unit.x
          + e.velocity.y
            * (set_origin_and_destination F K e origin destination s)._pos_delta_unit.y
          + e.velocity.z
            * (set_origin_and_destination F K e origin destination s)._pos_delta_unit.z)
        s._wp_speed_cms) := by
  obtain ⟨ho, hd, hs, -⟩ := wp_leash_frame F K e (decide (destination.z - origin.z ≥ 0))
    { s with _origin := origin, _destination := destination }
  refine ⟨ho, hd, rfl, rfl, rfl, rfl, rfl, rfl, hs, ?_⟩
  have hl : (set_origin_and_destination F K e origin destination s)._limited_speed_xy_cms =
      constrain_float
        (e.velocity.x * (set_origin_and_destination F K e origin destination s)._pos_delta_unit.x
          + e.velocity.y
            * (set_origin_and_destination F K e origin destination s)._pos_delta_unit.y
          + e.velocity.z
            * (set_origin_and_destination F K e origin destination s)._pos_delta_unit.z)
        0 (calculate_wp_leash_length F K e (decide (destination.z - origin.z ≥ 0))
          { s with _origin := origin, _destination := destination })._wp_speed_cms := rfl
  rw [hl, hs]
  exact constrain_float_eq_clamp _ _ hw

/-- C16 on the scenario object (waypoint speed `500`), segment `(0, 0, 0)` to `(1000, 0, 0)`,
vehicle at rest: the progress is `0` and the speed limit of the intermediate target `0`. -/
theorem C16_segment_creation_witness :
    0 ≤ (scenario_state (⟨Real.sqrt, fun _ => 0⟩ : FloatOps ℝ) 2)._wp_speed_cms ∧
    (set_origin_and_destination ⟨Real.sqrt, fun _ => 0⟩ scenario_consts
      (scenario_env 2 ⟨0, 0, 0⟩) ⟨0, 0, 0⟩ ⟨1000, 0, 0⟩
      (scenario_state ⟨Real.sqrt, fun _ => 0⟩ 2))._track_desired = 0 ∧
    (set_origin_and_destination ⟨Real.sqrt, fun _ => 0⟩ scenario_consts
      (scenario_env 2 ⟨0, 0, 0⟩) ⟨0, 0, 0⟩ ⟨1000, 0, 0⟩
      (scenario_state ⟨Real.sqrt, fun _ => 0⟩ 2))._destination = ⟨1000, 0, 0⟩ ∧
    (set_origin_and_destination ⟨Real.sqrt, fun _ => 0⟩ scenario_consts
      (scenario_env 2 ⟨0, 0, 0⟩) ⟨0, 0, 0⟩ ⟨1000, 0, 0⟩
      (scenario_state ⟨Real.sqrt, fun _ => 0⟩ 2))._limited_speed_xy_cms = 0 := by
  have hw : 0 ≤ (scenario_state (⟨Real.sqrt, fun _ => 0⟩ : FloatOps ℝ) 2)._wp_speed_cms := by
    unfold scenario_state AC_WPNav calculate_loiter_leash_length
    norm_num [scenario_env, scenario_consts]
  obtain ⟨-, hd, ht, -, -, -, -, -, -, -⟩ := C16_segment_creation ⟨Real.sqrt, fun _ => 0⟩
    scenario_consts (scenario_env 2 ⟨0, 0, 0⟩) ⟨0, 0, 0⟩ ⟨1000, 0, 0⟩
    (scenario_state ⟨Real.sqrt, fun _ => 0⟩ 2) hw
  exact ⟨hw, ht, hd, (scenario_segment_eq (fun _ => 0)).2.2.2.2.2.2.2.1⟩

end SegmentCreation

/-! ## The intermediate target and the leash -/

section TargetLeash

/-- The new progress in terms of the locals of `advance_target_along_track`. -/
theorem advance_track_desired_eq (F : FloatOps ℝ) (K : Consts ℝ) (e : Env ℝ) (dt : ℝ)
    (s : State ℝ) :
    (advance_target_along_track F K e dt s)._track_desired =
      max s._track_desired (constrain_float
        (if s._track_desired + (advance_target_along_track F K e dt s)._limited_speed_xy_cms * dt
            > track_covered e s + track_extra_max F e s then
          track_covered e s + track_extra_max F e s
        else
          s._track_desired + (advance_target_along_track F K e dt s)._limited_speed_xy_cms * dt)
        0 s._track_length) := rfl

/-- The new intermediate target. -/
theorem advance_target_eq (F : FloatOps ℝ) (K : Consts ℝ) (e : Env ℝ) (dt : ℝ)
    (s : State ℝ) :
    (advance_target_along_track F K e dt s)._target =
      { x := s._origin.x
          + s._pos_delta_unit.x * (advance_target_along_track F K e dt s)._track_desired,
        y := s._origin.y
          + s._pos_delta_unit.y * (advance_target_along_track F K e dt s)._track_desired,
        z := s._origin.z
          + fdiv F (s._pos_delta_unit.z * (advance_target_along_track F K e dt s)._track_desired)
              s._vert_track_scale } := rfl

theorem constrain_float_le_max (m tl : ℝ) : constrain_float m 0 tl ≤ max 0 m := by
  unfold constrain_float
  split_ifs with h1 h2
  · exact le_max_left _ _
  · exact h2.le.trans (le_max_right _ _)
  · exact le_max_right _ _

/-- The call never moves the target beyond `track_covered + track_extra_max`. -/
theorem advance_progress_le_max (F : FloatOps ℝ) (K : Consts ℝ) (e : Env ℝ) (dt : ℝ)
    (s : State ℝ) (h0 : 0 ≤ s._track_desired) :
    (advance_target_along_track F K e dt s)._track_desired
      ≤ max s._track_desired (track_covered e s + track_extra_max F e s) := by
  rw [advance_track_desired_eq]
  apply max_le (le_max_left _ _)
  refine (constrain_float_le_max _ _).trans (max_le (h0.trans (le_max_left _ _)) ?_)
  split_ifs with h
  · exact le_max_right _ _
  · exact (not_lt.mp h).trans (le_max_right _ _)

theorem track_extra_max_le_leash (dz : ℝ → ℝ) (e : Env ℝ) (s : State ℝ)
    (hl : 0 ≤ s._wp_leash_xy) :
    track_extra_max ⟨Real.sqrt, dz⟩ e s ≤ s._wp_leash_xy := by
  unfold track_extra_max
  show Real.sqrt _ ≤ _
  rw [Real.sqrt_le_left hl]
  nlinarith [mul_self_nonneg (track_error ⟨Real.sqrt, dz⟩ e s)]

theorem le_mul_self_sqrt (x : ℝ) : x ≤ Real.sqrt x * Real.sqrt x := by
  by_cases h : 0 ≤ x
  · rw [Real.mul_self_sqrt h]
  · rw [Real.sqrt_eq_zero_of_nonpos (not_le.mp h).le]
    linarith [not_le.mp h]

/-- The geometry behind the leash: `d` is the vehicle relative to the origin, `u` a unit
vector, `n` the progress, `c = d · u`, `E` the cross-track error and `X` the remaining
budget.  If `E ≤ L` and `c ≤ n ≤ c + X`, the point `n u` is within `L` of `d`. -/
theorem leash_geometry (dx dy dz ux uy uz n L : ℝ)
    (hu : ux * ux + uy * uy + uz * uz = 1) (hl : 0 ≤ L)
    (herr : Real.sqrt (Real.sqrt (dx * dx + dy * dy + dz * dz)
        * Real.sqrt (dx * dx + dy * dy + dz * dz)
        - (dx * ux + dy * uy + dz * uz) * (dx * ux + dy * uy + dz * uz)) ≤ L)
    (h1 : dx * ux + dy * uy + dz * uz ≤ n)
    (h2 : n ≤ dx * ux + dy * uy + dz * uz
      + Real.sqrt (L * L
        - Real.sqrt (Real.sqrt (dx * dx + dy * dy + dz * dz)
            * Real.sqrt (dx * dx + dy * dy + dz * dz)
            - (dx * ux + dy * uy + dz * uz) * (dx * ux + dy * uy + dz * uz))
          * Real.sqrt (Real.sqrt (dx * dx + dy * dy + dz * dz)
            * Real.sqrt (dx * dx + dy * dy + dz * dz)
            - (dx * ux + dy * uy + dz * uz) * (dx * ux + dy * uy + dz * uz)))) :
    Real.sqrt ((ux * n - dx) * (ux * n - dx) + (uy * n - dy) * (uy * n - dy)
      + (uz * n - dz) * (uz * n - dz)) ≤ L := by
  have hnn : 0 ≤ dx * dx + dy * dy + dz * dz :=
    add_nonneg (add_nonneg (mul_self_nonneg dx) (mul_self_nonneg dy)) (mul_self_nonneg dz)
  rw [Real.mul_self_sqrt hnn] at herr h2
  generalize hc : dx * ux + dy * uy + dz * uz = c at herr h1 h2
  generalize hEd : Real.sqrt (dx * dx + dy * dy + dz * dz - c * c) = E at herr h2
  have hE0 : 0 ≤ E := by rw [← hEd]; exact Real.sqrt_nonneg _
  have hE : dx * dx + dy * dy + dz * dz - c * c ≤ E * E := by
    rw [← hEd]; exact le_mul_self_sqrt _
  have hLE : 0 ≤ L * L - E * E := sub_nonneg.mpr (mul_self_le_mul_self hE0 herr)
  generalize hXd : Real.sqrt (L * L - E * E) = X at h2
  have hX : X * X = L * L - E * E := by rw [← hXd]; exact Real.mul_self_sqrt hLE
  have hstep : (n - c) * (n - c) ≤ X * X :=
    mul_self_le_mul_self (sub_nonneg.mpr h1) (by linarith)
  rw [Real.sqrt_le_left hl]
  have key : (ux * n - dx) * (ux * n - dx) + (uy * n - dy) * (uy * n - dy)
      + (uz * n - dz) * (uz * n - dz)
      = (n - c) * (n - c) + (dx * dx + dy * dy + dz * dz - c * c) := by
    rw [← hc]
    linear_combination (n * n) * hu
  rw [key]
  nlinarith [hE, hX, hstep]

/-- When the track vector has unit length, the cross-track error is within the leash, and
the call moves the target to a point that is not behind the vehicle's along-track position,
the target is within the leash of the vehicle. -/
theorem advance_target_within_leash (dz : ℝ → ℝ) (K : Consts ℝ) (e : Env ℝ) (dt : ℝ)
    (s : State ℝ) (h0 : 0 ≤ s._track_desired)
    (hu : s._pos_delta_unit.x * s._pos_delta_unit.x + s._pos_delta_unit.y * s._pos_delta_unit.y
      + s._pos_delta_unit.z * s._pos_delta_unit.z = 1)
    (hs : 0 < s._vert_track_scale) (hl : 0 ≤ s._wp_leash_xy)
    (herr : track_error ⟨Real.sqrt, dz⟩ e s ≤ s._wp_leash_xy)
    (hadv : s._track_desired
      < (advance_target_along_track ⟨Real.sqrt, dz⟩ K e dt s)._track_desired)
    (hahead : track_covered e s
      ≤ (advance_target_along_track ⟨Real.sqrt, dz⟩ K e dt s)._track_desired) :
    target_distance ⟨Real.sqrt, dz⟩ e (advance_target_along_track ⟨Real.sqrt, dz⟩ K e dt s)
      ≤ s._wp_leash_xy := by
  have hn : (advance_target_along_track ⟨Real.sqrt, dz⟩ K e dt s)._track_desired
      ≤ track_covered e s + track_extra_max ⟨Real.sqrt, dz⟩ e s := by
    rcases le_max_iff.mp (advance_progress_le_max ⟨Real.sqrt, dz⟩ K e dt s h0) with h | h
    · exact absurd hadv (not_lt.mpr h)
    · exact h
  have hT := advance_target_eq ⟨Real.sqrt, dz⟩ K e dt s
  have hsc : (advance_target_along_track ⟨Real.sqrt, dz⟩ K e dt s)._vert_track_scale
      = s._vert_track_scale := rfl
  unfold target_distance Vector3.length
  rw [hT, hsc]
  generalize (advance_target_along_track ⟨Real.sqrt, dz⟩ K e dt s)._track_desired = n
    at hn hahead
  dsimp only
  rw [fdiv_of_pos _ _ hs]
  have hA : (s._origin.x + s._pos_delta_unit.x * n - e.position.x)
        * (s._origin.x + s._pos_delta_unit.x * n - e.position.x)
      + (s._origin.y + s._pos_delta_unit.y * n - e.position.y)
        * (s._origin.y + s._pos_delta_unit.y * n - e.position.y)
      + (s._origin.z + s._pos_delta_unit.z * n / s._vert_track_scale - e.position.z)
          * s._vert_track_scale
        * ((s._origin.z + s._pos_delta_unit.z * n / s._vert_track_scale - e.position.z)
          * s._vert_track_scale)
      = (s._pos_delta_unit.x * n - (e.position.x - s._origin.x))
          * (s._pos_delta_unit.x * n - (e.position.x - s._origin.x))
        + (s._pos_delta_unit.y * n - (e.position.y - s._origin.y))
          * (s._pos_delta_unit.y * n - (e.position.y - s._origin.y))
        + (s._pos_delta_unit.z * n - (e.position.z - s._origin.z) * s._vert_track_scale)
          * (s._pos_delta_unit.z * n - (e.position.z - s._origin.z) * s._vert_track_scale) := by
    have hz : (s._origin.z + s._pos_delta_unit.z * n / s._vert_track_scale - e.position.z)
        * s._vert_track_scale
        = s._pos_delta_unit.z * n - (e.position.z - s._origin.z) * s._vert_track_scale := by
      field_simp
      ring
    rw [hz]
    ring
  rw [hA]
  exact leash_geometry (e.position.x - s._origin.x) (e.position.y - s._origin.y)
    ((e.position.z - s._origin.z) * s._vert_track_scale)
    s._pos_delta_unit.x s._pos_delta_unit.y s._pos_delta_unit.z n s._wp_leash_xy
    hu hl herr hahead hn

theorem sqrt_990025 : Real.sqrt (990025 : ℝ) = 995 :=
  sqrt_eq_of_mul_self _ _ (by norm_num) (by norm_num)

/-- With the vehicle at the destination `(1000, 0, 0)` and the target moved to progress `5`,
the target is `995` away from the vehicle. -/
theorem scenario_target_distance_at_destination :
    target_distance ⟨Real.sqrt, fun _ => 0⟩ (scenario_env 2 ⟨1000, 0, 0⟩)
      (advance_target_along_track ⟨Real.sqrt, fun _ => 0⟩ scenario_consts
        (scenario_env 2 ⟨1000, 0, 0⟩) (1 / 10) (scenario_segment ⟨Real.sqrt, fun _ => 0⟩))
      = 995 := by
  obtain ⟨h1, h2, h3, h4, h5, h6, h7, h8, h9, h10, h11⟩ := scenario_segment_eq (fun _ => 0)
  have hsc : (advance_target_along_track ⟨Real.sqrt, fun _ => 0⟩ scenario_consts
      (scenario_env 2 ⟨1000, 0, 0⟩) (1 / 10)
      (scenario_segment ⟨Real.sqrt, fun _ => 0⟩))._vert_track_scale
      = (scenario_segment (⟨Real.sqrt, fun _ => 0⟩ : FloatOps ℝ))._vert_track_scale := rfl
  unfold target_distance Vector3.length
  rw [advance_target_eq, hsc, scenario_segment_step_at_destination, h3, h4, h7]
  norm_num [scenario_env, fdiv, sqrt_990025]

/-- C17 as stated fails: the scenario segment (progress `0`, track length `1000`, leash
`531.25 ≥ 100`, vertical scale `2.125 > 0`) with the vehicle at the destination
`(1000, 0, 0)` and `dt = 0.1`.  The speed limit lets the target advance to progress `5`
only, `995` away from the vehicle. -/
theorem C17_target_within_leash_counterexample :
    (0 ≤ (scenario_segment (⟨Real.sqrt, fun _ => 0⟩ : FloatOps ℝ))._track_desired ∧
      (scenario_segment (⟨Real.sqrt, fun _ => 0⟩ : FloatOps ℝ))._track_desired
        ≤ (scenario_segment (⟨Real.sqrt, fun _ => 0⟩ : FloatOps ℝ))._track_length ∧
      (scenario_consts : Consts ℝ).WPNAV_MIN_LEASH_LENGTH
        ≤ (scenario_segment (⟨Real.sqrt, fun _ => 0⟩ : FloatOps ℝ))._wp_leash_xy ∧
      0 < (scenario_segment (⟨Real.sqrt, fun _ => 0⟩ : FloatOps ℝ))._vert_track_scale ∧
      (0 : ℝ) ≤ 1 / 10) ∧
    ¬ target_distance ⟨Real.sqrt, fun _ => 0⟩ (scenario_env 2 ⟨1000, 0, 0⟩)
        (advance_target_along_track ⟨Real.sqrt, fun _ => 0⟩ scenario_consts
          (scenario_env 2 ⟨1000, 0, 0⟩) (1 / 10) (scenario_segment ⟨Real.sqrt, fun _ => 0⟩))
      ≤ (advance_target_along_track ⟨Real.sqrt, fun _ => 0⟩ scenario_consts
          (scenario_env 2 ⟨1000, 0, 0⟩) (1 / 10)
          (scenario_segment ⟨Real.sqrt, fun _ => 0⟩))._wp_leash_xy := by
  obtain ⟨h1, h2, h3, h4, h5, h6, h7, h8, h9, h10, h11⟩ := scenario_segment_eq (fun _ => 0)
  have hle : (advance_target_along_track ⟨Real.sqrt, fun _ => 0⟩ scenario_consts
      (scenario_env 2 ⟨1000, 0, 0⟩) (1 / 10)
      (scenario_segment ⟨Real.sqrt, fun _ => 0⟩))._wp_leash_xy
      = (scenario_segment (⟨Real.sqrt, fun _ => 0⟩ : FloatOps ℝ))._wp_leash_xy := rfl
  refine ⟨⟨by rw [h2], by rw [h1, h2]; norm_num, by rw [h6]; norm_num [scenario_consts],
    by rw [h7]; norm_num, by norm_num⟩, ?_⟩
  rw [scenario_target_distance_at_destination, hle, h6]
  norm_num

/-- C17, amended. For every state with `0 ≤ track_progress ≤ track_length`, horizontal leash
at least the (non-negative) minimum and `leash_vertical_scale > 0`, every measured position
and velocity and every `dt`: after `advance_target_along_track(dt)` the new progress is at
most `max(old progress, track_covered + track_extra_max)`, where
`track_extra_max = sqrt(leash² - track_error²) ≤ leash`, so the call never moves the
intermediate target farther ahead of the vehicle's along-track position than the leash
allows.  If moreover the track unit vector has length `1`, the cross-track error is within
the leash, and the call has moved the target to a point that is not behind the vehicle's
along-track position, then the distance between the intermediate target and the measured
position, altitude difference scaled by `leash_vertical_scale`, is `≤` the horizontal
waypoint leash. -/
theorem C17_target_within_leash (dz : ℝ → ℝ) (K : Consts ℝ) (e : Env ℝ) (dt : ℝ)
    (s : State ℝ) (h0 : 0 ≤ s._track_desired) (_h1 : s._track_desired ≤ s._track_length)
    (hm : 0 ≤ K.WPNAV_MIN_LEASH_LENGTH) (hl : K.WPNAV_MIN_LEASH_LENGTH ≤ s._wp_leash_xy)
    (hs : 0 < s._vert_track_scale) :
    (advance_target_along_track ⟨Real.sqrt, dz⟩ K e dt s)._track_desired
      ≤ max s._track_desired (track_covered e s + track_extra_max ⟨Real.sqrt, dz⟩ e s) ∧
    track_extra_max ⟨Real.sqrt, dz⟩ e s ≤ s._wp_leash_xy ∧
    (s._pos_delta_unit.x * s._pos_delta_unit.x + s._pos_delta_unit.y * s._pos_delta_unit.y
        + s._pos_delta_unit.z * s._pos_delta_unit.z = 1 →
      track_error ⟨Real.sqrt, dz⟩ e s ≤ s._wp_leash_xy →
      s._track_desired < (advance_target_along_track ⟨Real.sqrt, dz⟩ K e dt s)._track_desired →
      track_covered e s ≤ (advance_target_along_track ⟨Real.sqrt, dz⟩ K e dt s)._track_desired →
      target_distance ⟨Real.sqrt, dz⟩ e (advance_target_along_track ⟨Real.sqrt, dz⟩ K e dt s)
        ≤ (advance_target_along_track ⟨Real.sqrt, dz⟩ K e dt s)._wp_leash_xy) :=
  ⟨advance_progress_le_max _ K e dt s h0, track_extra_max_le_leash dz e s (hm.trans hl),
    fun hu herr hadv hahead =>
      advance_target_within_leash dz K e dt s h0 hu hs (hm.trans hl) herr hadv hahead⟩

/-- C17 (amended) on the scenario segment with the vehicle at rest at the origin and
`dt = 0.1`: the hypotheses hold, the target moves to progress `5`, ahead of the vehicle
(`track_covered = 0`, `track_error = 0`), and it is within the leash `531.25`. -/
theorem C17_target_within_leash_witness :
    (0 ≤ (scenario_segment (⟨Real.sqrt, fun _ => 0⟩ : FloatOps ℝ))._track_desired ∧
      (scenario_segment (⟨Real.sqrt, fun _ => 0⟩ : FloatOps ℝ))._track_desired
        ≤ (scenario_segment (⟨Real.sqrt, fun _ => 0⟩ : FloatOps ℝ))._track_length ∧
      0 ≤ (scenario_consts : Consts ℝ).WPNAV_MIN_LEASH_LENGTH ∧
      (scenario_consts : Consts ℝ).WPNAV_MIN_LEASH_LENGTH
        ≤ (scenario_segment (⟨Real.sqrt, fun _ => 0⟩ : FloatOps ℝ))._wp_leash_xy ∧
      0 < (scenario_segment (⟨Real.sqrt, fun _ => 0⟩ : FloatOps ℝ))._vert_track_scale) ∧
    target_distance ⟨Real.sqrt, fun _ => 0⟩ (scenario_env 2 ⟨0, 0, 0⟩)
        (advance_target_along_track ⟨Real.sqrt, fun _ => 0⟩ scenario_consts
          (scenario_env 2 ⟨0, 0, 0⟩) (1 / 10) (scenario_segment ⟨Real.sqrt, fun _ => 0⟩))
      ≤ 531.25 := by
  obtain ⟨h1, h2, h3, h4, h5, h6, h7, h8, h9, h10, h11⟩ := scenario_segment_eq (fun _ => 0)
  have a0 : 0 ≤ (scenario_segment (⟨Real.sqrt, fun _ => 0⟩ : FloatOps ℝ))._track_desired := by
    rw [h2]
  have a1 : (scenario_segment (⟨Real.sqrt, fun _ => 0⟩ : FloatOps ℝ))._track_desired
      ≤ (scenario_segment (⟨Real.sqrt, fun _ => 0⟩ : FloatOps ℝ))._track_length := by
    rw [h1, h2]; norm_num
  have am : 0 ≤ (scenario_consts : Consts ℝ).WPNAV_MIN_LEASH_LENGTH := by
    norm_num [scenario_consts]
  have al : (scenario_consts : Consts ℝ).WPNAV_MIN_LEASH_LENGTH
      ≤ (scenario_segment (⟨Real.sqrt, fun _ => 0⟩ : FloatOps ℝ))._wp_leash_xy := by
    rw [h6]; norm_num [scenario_consts]
  have as : 0 < (scenario_segment (⟨Real.sqrt, fun _ => 0⟩ : FloatOps ℝ))._vert_track_scale := by
    rw [h7]; norm_num
  have hcov : track_covered (scenario_env (2 : ℝ) ⟨0, 0, 0⟩)
      (scenario_segment ⟨Real.sqrt, fun _ => 0⟩) = 0 := by
    unfold track_covered
    rw [h3, h4, h7]
    norm_num [scenario_env]
  have herr : track_error ⟨Real.sqrt, fun _ => 0⟩ (scenario_env (2 : ℝ) ⟨0, 0, 0⟩)
      (scenario_segment ⟨Real.sqrt, fun _ => 0⟩) = 0 := by
    unfold track_error
    rw [hcov]
    unfold Vector3.length
    rw [h4, h7]
    norm_num [scenario_env]
  have h := (C17_target_within_leash (fun _ => 0) scenario_consts (scenario_env 2 ⟨0, 0, 0⟩)
    (1 / 10) (scenario_segment ⟨Real.sqrt, fun _ => 0⟩) a0 a1 am al as).2.2
    (by rw [h3]; norm_num) (by rw [herr, h6]; norm_num)
    (by rw [scenario_segment_first_step, h2]; norm_num)
    (by rw [scenario_segment_first_step, hcov]; norm_num)
  have hle : (advance_target_along_track ⟨Real.sqrt, fun _ => 0⟩ scenario_consts
      (scenario_env 2 ⟨0, 0, 0⟩) (1 / 10)
      (scenario_segment ⟨Real.sqrt, fun _ => 0⟩))._wp_leash_xy
      = (scenario_segment (⟨Real.sqrt, fun _ => 0⟩ : FloatOps ℝ))._wp_leash_xy := rfl
  rw [hle, h6] at h
  exact ⟨⟨a0, a1, am, al, as⟩, h⟩

end TargetLeash

/-! ## Reported distance to the loiter target -/

section ReportedDistance

/-- What the position stage stores for `get_distance_to_target` when `kP > 0`: the local
`linear_distance`, whatever the target and the measured position are. -/
theorem position_stage_distance_to_target (F : FloatOps ℝ) (K : Consts ℝ) (e : Env ℝ)
    (dt m : ℝ) (s : State ℝ) (hk : 0 < e.kP) :
    get_distance_to_target (get_loiter_position_to_velocity F K e dt m s)
      = K.WPNAV_ACCELERATION / (2 * e.kP * e.kP) := by
  have h2 : 2 * e.kP * e.kP ≠ 0 := by positivity
  unfold get_distance_to_target get_loiter_position_to_velocity
  dsimp only
  rw [if_neg (not_le.mpr hk), ← fdiv_of_ne F _ h2]
  rfl

/-- After `update_wpnav` with `kP > 0` the reported distance is again `linear_distance`. -/
theorem update_wpnav_distance_to_target (F : FloatOps ℝ) (K : Consts ℝ) (e : Env ℝ)
    (s : State ℝ) (hk : 0 < e.kP) :
    get_distance_to_target (update_wpnav F K e s)
      = K.WPNAV_ACCELERATION / (2 * e.kP * e.kP) := by
  unfold update_wpnav
  dsimp only
  exact position_stage_distance_to_target F K e _ _ _ hk

/-- After a stale-gap `update_wpnav` the intermediate target is where it was. -/
theorem update_wpnav_stale_target (F : FloatOps ℝ) (K : Consts ℝ) (e : Env ℝ) (s : State ℝ)
    (h : (1 : ℝ) ≤ elapsed_seconds (e.millis % 4294967296) s._wpnav_last_update) :
    (update_wpnav F K e s)._target = s._target := by
  obtain ⟨s2, hs2, -, -, -, htg, -⟩ := position_stage_handover F K e 0 s._wp_speed_cms
    (reset_I e { s with _wpnav_last_update := e.millis % 4294967296 })
  rw [update_wpnav_stale F K e s h, hs2,
    (velocity_to_acceleration_track F K e _ _ _ s2).2.2.1, htg]
  rfl

theorem sqrt_250000 : Real.sqrt (250000 : ℝ) = 500 :=
  sqrt_eq_of_mul_self _ _ (by norm_num) (by norm_num)

/-- C18 fails on the code.  Position stage: loiter target `(50, 0, 0)`, vehicle at the
origin, gain `2`, `WPNAV_ACCELERATION = 250`; the horizontal distance to the target is `50`,
and afterwards `get_distance_to_target` returns `31.25 = 250 / (2 * 2²)`, the local
`linear_distance` that the code assigns to `_distance_to_target`.  Through `update_wpnav`
(scenario segment, clock one second after the last update, vehicle at `(300, 400, 0)`): the
target stays at `(0, 0, 0)`, `500` away, and `get_distance_to_target` again returns
`31.25`. -/
theorem C18_reported_distance_failing_input :
    0 < (scenario_env (2 : ℝ) ⟨0, 0, 0⟩).kP ∧
    Real.sqrt
      (((set_loiter_target ⟨50, 0, 0⟩
            (scenario_state (⟨Real.sqrt, fun _ => 0⟩ : FloatOps ℝ) 2))._target.x
          - (scenario_env (2 : ℝ) ⟨0, 0, 0⟩).position.x) ^ 2
        + ((set_loiter_target ⟨50, 0, 0⟩
            (scenario_state (⟨Real.sqrt, fun _ => 0⟩ : FloatOps ℝ) 2))._target.y
          - (scenario_env (2 : ℝ) ⟨0, 0, 0⟩).position.y) ^ 2) = 50 ∧
    get_distance_to_target
      (get_loiter_position_to_velocity ⟨Real.sqrt, fun _ => 0⟩ scenario_consts
        (scenario_env 2 ⟨0, 0, 0⟩) (1 / 10) 500
        (set_loiter_target ⟨50, 0, 0⟩ (scenario_state ⟨Real.sqrt, fun _ => 0⟩ 2))) = 31.25 ∧
    Real.sqrt
      (((update_wpnav ⟨Real.sqrt, fun _ => 0⟩ scenario_consts
            { scenario_env (2 : ℝ) ⟨300, 400, 0⟩ with millis := 1000 }
            (scenario_segment ⟨Real.sqrt, fun _ => 0⟩))._target.x - 300) ^ 2
        + ((update_wpnav ⟨Real.sqrt, fun _ => 0⟩ scenario_consts
            { scenario_env (2 : ℝ) ⟨300, 400, 0⟩ with millis := 1000 }
            (scenario_segment ⟨Real.sqrt, fun _ => 0⟩))._target.y - 400) ^ 2) = 500 ∧
    get_distance_to_target
      (update_wpnav ⟨Real.sqrt, fun _ => 0⟩ scenario_consts
        { scenario_env (2 : ℝ) ⟨300, 400, 0⟩ with millis := 1000 }
        (scenario_segment ⟨Real.sqrt, fun _ => 0⟩)) = 31.25 := by
  have hk : 0 < (scenario_env (2 : ℝ) ⟨0, 0, 0⟩).kP := by norm_num [scenario_env]
  have hk2 : 0 < ({ scenario_env (2 : ℝ) ⟨300, 400, 0⟩ with millis := 1000 } : Env ℝ).kP := by
    norm_num [scenario_env]
  have hst : (1 : ℝ) ≤ elapsed_seconds
      (({ scenario_env (2 : ℝ) ⟨300, 400, 0⟩ with millis := 1000 } : Env ℝ).millis
        % 4294967296)
      (scenario_segment (⟨Real.sqrt, fun _ => 0⟩ : FloatOps ℝ))._wpnav_last_update := by
    rw [scenario_segment_last_update]
    norm_num [elapsed_seconds]
  have htg : (scenario_segment (⟨Real.sqrt, fun _ => 0⟩ : FloatOps ℝ))._target = ⟨0, 0, 0⟩ :=
    rfl
  refine ⟨hk, ?_, ?_, ?_, ?_⟩
  · apply sqrt_eq_of_mul_self _ _ (by norm_num)
    norm_num [set_loiter_target, scenario_env]
  · rw [position_stage_distance_to_target _ _ _ _ _ _ hk]
    norm_num [scenario_env, scenario_consts]
  · rw [update_wpnav_stale_target _ _ _ _ hst, htg]
    apply sqrt_eq_of_mul_self _ _ (by norm_num)
    norm_num
  · rw [update_wpnav_distance_to_target _ _ _ _ hk2]
    norm_num [scenario_env, scenario_consts]

end ReportedDistance

/-! ## Loiter target integration and feed-forward speed limit -/

section LoiterIntegration

/-- C19. Loiter target integration and re-anchoring: for every state with loiter leash `≥ 0`,
every measured position and every `nav_dt ≥ 0`, `translate_loiter_target_movements(nav_dt)`
moves the horizontal target by the final feed-forward velocity times `nav_dt`; if the moved
target is at horizontal distance `d ≤ loiter_leash` from the measured position it stays
there, and if `d > loiter_leash` it is replaced by the point on the ray from the measured
position through the moved target at distance exactly `loiter_leash`; the target altitude is
unchanged. -/
theorem C19_loiter_target_integration (dz : ℝ → ℝ) (K : Consts ℝ) (e : Env ℝ) (s : State ℝ)
    (nav_dt : ℝ) (hl : 0 ≤ s._loiter_leash) (hdt : 0 ≤ nav_dt) :
    ∀ mx my d : ℝ,
      mx = s._target.x
        + (translate_loiter_target_movements ⟨Real.sqrt, dz⟩ K e nav_dt s)._target_vel.x
          * nav_dt →
      my = s._target.y
        + (translate_loiter_target_movements ⟨Real.sqrt, dz⟩ K e nav_dt s)._target_vel.y
          * nav_dt →
      d = Real.sqrt ((mx - e.position.x) ^ 2 + (my - e.position.y) ^ 2) →
      (d ≤ s._loiter_leash →
        (translate_loiter_target_movements ⟨Real.sqrt, dz⟩ K e nav_dt s)._target.x = mx ∧
        (translate_loiter_target_movements ⟨Real.sqrt, dz⟩ K e nav_dt s)._target.y = my) ∧
      (s._loiter_leash < d →
        (translate_loiter_target_movements ⟨Real.sqrt, dz⟩ K e nav_dt s)._target.x
          = e.position.x + s._loiter_leash * ((mx - e.position.x) / d) ∧
        (translate_loiter_target_movements ⟨Real.sqrt, dz⟩ K e nav_dt s)._target.y
          = e.position.y + s._loiter_leash * ((my - e.position.y) / d) ∧
        Real.sqrt
          (((translate_loiter_target_movements ⟨Real.sqrt, dz⟩ K e nav_dt s)._target.x
              - e.position.x) ^ 2
          + ((translate_loiter_target_movements ⟨Real.sqrt, dz⟩ K e nav_dt s)._target.y
              - e.position.y) ^ 2) = s._loiter_leash) ∧
      (translate_loiter_target_movements ⟨Real.sqrt, dz⟩ K e nav_dt s)._target.z
        = s._target.z := by
  unfold translate_loiter_target_movements
  rw [if_neg (not_lt.mpr hdt)]
  lift_lets
  intro loiter_speed_cms adj_x adj_y vx0 vy0 vxd vx vyd vy vel_total scale vx1 vy1 tx ty
    curr_pos dex dey distance pull tx1 ty1 src1 src2
  intro mx my d hmx hmy hd
  have hmx' : mx = tx := hmx
  have hmy' : my = ty := hmy
  have hD : distance = Real.sqrt (dex * dex + dey * dey) := rfl
  have hdd : d = distance := by
    rw [hd, hD, hmx', hmy', sq, sq]
  show (d ≤ s._loiter_leash → tx1 = mx ∧ ty1 = my) ∧
    (s._loiter_leash < d →
      tx1 = e.position.x + s._loiter_leash * ((mx - e.position.x) / d) ∧
      ty1 = e.position.y + s._loiter_leash * ((my - e.position.y) / d) ∧
      Real.sqrt ((tx1 - e.position.x) ^ 2 + (ty1 - e.position.y) ^ 2) = s._loiter_leash) ∧
    s._target.z = s._target.z
  refine ⟨?_, ?_, rfl⟩
  · intro hle
    have hp : ¬ (distance > s._loiter_leash ∧ distance > 0) := by
      rintro ⟨h1, -⟩
      rw [hdd] at hle
      exact absurd h1 (not_lt.mpr hle)
    have hx : tx1 = tx := by
      simp only [tx1, pull, hp, decide_False, Bool.false_eq_true, if_false]
    have hy : ty1 = ty := by
      simp only [ty1, pull, hp, decide_False, Bool.false_eq_true, if_false]
    rw [hx, hy, hmx', hmy']
    exact ⟨rfl, rfl⟩
  · intro hlt
    rw [hdd] at hlt
    have hpos : 0 < distance := lt_of_le_of_lt hl hlt
    have hp : distance > s._loiter_leash ∧ distance > 0 := ⟨hlt, hpos⟩
    have hx : tx1 = e.position.x + s._loiter_leash * dex / distance := by
      simp only [tx1, pull, hp, and_self, decide_True, if_true, curr_pos]
      rw [fdiv_of_pos _ _ hp.2]
    have hy : ty1 = e.position.y + s._loiter_leash * dey / distance := by
      simp only [ty1, pull, hp, and_self, decide_True, if_true, curr_pos]
      rw [fdiv_of_pos _ _ hp.2]
    have hdx : mx - e.position.x = dex := by rw [hmx']
    have hdy : my - e.position.y = dey := by rw [hmy']
    rw [hdx, hdy, hdd]
    refine ⟨by rw [hx]; ring, by rw [hy]; ring, ?_⟩
    rw [hx, hy, add_sub_cancel_left, add_sub_cancel_left, hD]
    rw [hD] at hpos
    exact sqrt_scaled _ _ _ hpos hl

/-- Without pilot input and with zero feed-forward velocity the feed-forward velocity stays
zero. -/
theorem translate_zero_velocity (dz : ℝ → ℝ) (K : Consts ℝ) (e : Env ℝ) (s : State ℝ)
    (nav_dt : ℝ) (hdt : 0 ≤ nav_dt) (hf : s._pilot_vel_forward_cms = 0)
    (hr : s._pilot_vel_right_cms = 0) (hx : s._target_vel.x = 0) (hy : s._target_vel.y = 0) :
    (translate_loiter_target_movements ⟨Real.sqrt, dz⟩ K e nav_dt s)._target_vel.x = 0 ∧
    (translate_loiter_target_movements ⟨Real.sqrt, dz⟩ K e nav_dt s)._target_vel.y = 0 := by
  unfold translate_loiter_target_movements
  rw [if_neg (not_lt.mpr hdt)]
  lift_lets
  intro loiter_speed_cms adj_x adj_y vx0 vy0 vxd vx vyd vy vel_total scale vx1 vy1 tx ty
    curr_pos dex dey distance pull tx1 ty1 src1 src2
  show vx1 = 0 ∧ vy1 = 0
  have h0x : vx0 = 0 := by
    simp only [vx0, adj_x, hf, hr, hx, zero_mul, sub_zero, add_zero]
  have h0y : vy0 = 0 := by
    simp only [vy0, adj_y, hf, hr, hy, zero_mul, add_zero]
  have hvx : vx = 0 := by
    simp only [vx, h0x, gt_iff_lt, lt_self_iff_false, if_false]
  have hvy : vy = 0 := by
    simp only [vy, h0y, gt_iff_lt, lt_self_iff_false, if_false]
  have hvt : vel_total = 0 := by
    show Real.sqrt (vx * vx + vy * vy) = 0
    rw [hvx, hvy]
    norm_num
  have hsc : scale = false := by
    simp only [scale, hvt, gt_iff_lt, lt_self_iff_false, and_false, decide_False]
  constructor
  · simp only [vx1, hsc, Bool.false_eq_true, if_false, hvx]
  · simp only [vy1, hsc, Bool.false_eq_true, if_false, hvy]

/-- The fields of the scenario object that the loiter scenarios read. -/
theorem scenario_state_loiter_fields (p : Vector3 ℝ) :
    (set_loiter_target p
      (scenario_state (⟨Real.sqrt, fun _ => 0⟩ : FloatOps ℝ) 2))._pilot_vel_forward_cms = 0 ∧
    (set_loiter_target p
      (scenario_state (⟨Real.sqrt, fun _ => 0⟩ : FloatOps ℝ) 2))._pilot_vel_right_cms = 0 ∧
    (set_loiter_target p
      (scenario_state (⟨Real.sqrt, fun _ => 0⟩ : FloatOps ℝ) 2))._target_vel.x = 0 ∧
    (set_loiter_target p
      (scenario_state (⟨Real.sqrt, fun _ => 0⟩ : FloatOps ℝ) 2))._target_vel.y = 0 ∧
    (set_loiter_target p
      (scenario_state (⟨Real.sqrt, fun _ => 0⟩ : FloatOps ℝ) 2))._target = p ∧
    (set_loiter_target p
      (scenario_state (⟨Real.sqrt, fun _ => 0⟩ : FloatOps ℝ) 2))._loiter_speed_cms = 500 := by
  unfold set_loiter_target scenario_state AC_WPNav calculate_loiter_leash_length
  norm_num [scenario_env, scenario_consts]

/-- C19 on the scenario object (loiter leash `531.25`) with loiter target `(1000, 0, 7)`, no
pilot input, the vehicle at the origin and `nav_dt = 0.1`: the moved target is `1000` away
and is replaced by `(531.25, 0)`; the altitude `7` stays. -/
theorem C19_loiter_target_integration_witness :
    0 ≤ (set_loiter_target ⟨1000, 0, 7⟩
      (scenario_state (⟨Real.sqrt, fun _ => 0⟩ : FloatOps ℝ) 2))._loiter_leash ∧
    (0 : ℝ) ≤ 1 / 10 ∧
    (translate_loiter_target_movements ⟨Real.sqrt, fun _ => 0⟩ scenario_consts
      (scenario_env 2 ⟨0, 0, 0⟩) (1 / 10)
      (set_loiter_target ⟨1000, 0, 7⟩
        (scenario_state ⟨Real.sqrt, fun _ => 0⟩ 2)))._target.x = 531.25 ∧
    (translate_loiter_target_movements ⟨Real.sqrt, fun _ => 0⟩ scenario_consts
      (scenario_env 2 ⟨0, 0, 0⟩) (1 / 10)
      (set_loiter_target ⟨1000, 0, 7⟩
        (scenario_state ⟨Real.sqrt, fun _ => 0⟩ 2)))._target.z = 7 := by
  have hleash : (set_loiter_target ⟨1000, 0, 7⟩
      (scenario_state (⟨Real.sqrt, fun _ => 0⟩ : FloatOps ℝ) 2))._loiter_leash = 531.25 :=
    scenario_loiter_leash
  have hl : 0 ≤ (set_loiter_target ⟨1000, 0, 7⟩
      (scenario_state (⟨Real.sqrt, fun _ => 0⟩ : FloatOps ℝ) 2))._loiter_leash := by
    rw [hleash]; norm_num
  have hdt : (0 : ℝ) ≤ 1 / 10 := by norm_num
  obtain ⟨f1, f2, f3, f4, f5, -⟩ := scenario_state_loiter_fields ⟨1000, 0, 7⟩
  obtain ⟨v1, v2⟩ := translate_zero_velocity (fun _ => 0) scenario_consts
    (scenario_env 2 ⟨0, 0, 0⟩) _ (1 / 10) hdt f1 f2 f3 f4
  obtain ⟨-, hfar, hz⟩ := C19_loiter_target_integration (fun _ => 0) scenario_consts
    (scenario_env 2 ⟨0, 0, 0⟩)
    (set_loiter_target ⟨1000, 0, 7⟩ (scenario_state ⟨Real.sqrt, fun _ => 0⟩ 2)) (1 / 10)
    hl hdt 1000 0 1000
    (by rw [v1, f5]; norm_num) (by rw [v2, f5]; norm_num)
    (by
      symm
      apply sqrt_eq_of_mul_self _ _ (by norm_num)
      norm_num [scenario_env])
  obtain ⟨hx, -, -⟩ := hfar (by rw [hleash]; norm_num)
  refine ⟨hl, hdt, ?_, ?_⟩
  · rw [hx, hleash]
    norm_num [scenario_env]
  · rw [hz, f5]

/-- C20. Loiter feed-forward velocity is speed-limited: for every state, pilot input, cached
yaw trigonometry and `nav_dt ≥ 0`, after `translate_loiter_target_movements(nav_dt)` the
horizontal magnitude of the feed-forward target velocity is `≤ max(loiter speed, 100)`,
and the configured loiter speed has itself become `max(loiter speed, 100) ≥ 100`. -/
theorem C20_loiter_speed_limit (dz : ℝ → ℝ) (K : Consts ℝ) (e : Env ℝ) (s : State ℝ)
    (nav_dt : ℝ) (hdt : 0 ≤ nav_dt) :
    Real.sqrt
      ((translate_loiter_target_movements ⟨Real.sqrt, dz⟩ K e nav_dt s)._target_vel.x ^ 2
      + (translate_loiter_target_movements ⟨Real.sqrt, dz⟩ K e nav_dt s)._target_vel.y ^ 2)
      ≤ max s._loiter_speed_cms 100 ∧
    100 ≤ (translate_loiter_target_movements ⟨Real.sqrt, dz⟩ K e nav_dt s)._loiter_speed_cms ∧
    (translate_loiter_target_movements ⟨Real.sqrt, dz⟩ K e nav_dt s)._loiter_speed_cms
      = max s._loiter_speed_cms 100 := by
  unfold translate_loiter_target_movements
  rw [if_neg (not_lt.mpr hdt)]
  lift_lets
  intro loiter_speed_cms adj_x adj_y vx0 vy0 vxd vx vyd vy vel_total scale vx1 vy1 tx ty
    curr_pos dex dey distance pull tx1 ty1 src1 src2
  show Real.sqrt (vx1 ^ 2 + vy1 ^ 2) ≤ max s._loiter_speed_cms 100 ∧
    100 ≤ loiter_speed_cms ∧ loiter_speed_cms = max s._loiter_speed_cms 100
  have hls : loiter_speed_cms = max s._loiter_speed_cms 100 := by
    simp only [loiter_speed_cms]
    rw [floor_at_eq_max, max_comm]
  have h100 : 100 ≤ loiter_speed_cms := by
    rw [hls]
    exact le_max_right _ _
  have hV : vel_total = Real.sqrt (vx * vx + vy * vy) := rfl
  refine ⟨?_, h100, hls⟩
  rw [← hls]
  by_cases hc : vel_total > loiter_speed_cms ∧ vel_total > 0
  · have hx : vx1 = loiter_speed_cms * vx / vel_total := by
      simp only [vx1, scale, hc, and_self, decide_True, if_true]
      rw [fdiv_of_pos _ _ hc.2]
    have hy : vy1 = loiter_speed_cms * vy / vel_total := by
      simp only [vy1, scale, hc, and_self, decide_True, if_true]
      rw [fdiv_of_pos _ _ hc.2]
    have hpos := hc.2
    rw [hx, hy, hV]
    rw [hV] at hpos
    rw [sqrt_scaled _ _ _ hpos (by linarith)]
  · have hx : vx1 = vx := by
      simp only [vx1, scale, hc, decide_False, Bool.false_eq_true, if_false]
    have hy : vy1 = vy := by
      simp only [vy1, scale, hc, decide_False, Bool.false_eq_true, if_false]
    rw [hx, hy, sq, sq, ← hV]
    by_contra hgt
    have h1 : vel_total > loiter_speed_cms := not_le.mp hgt
    exact hc ⟨h1, by linarith⟩

/-- C20 on the scenario object (loiter speed `500`) with feed-forward velocity
`(3000, 4000)`, `nav_dt = 0.1`: the feed-forward velocity after the call has magnitude
`≤ 500`. -/
theorem C20_loiter_speed_limit_witness :
    (0 : ℝ) ≤ 1 / 10 ∧
    Real.sqrt
      ((translate_loiter_target_movements ⟨Real.sqrt, fun _ => 0⟩ scenario_consts
          (scenario_env 2 ⟨0, 0, 0⟩) (1 / 10)
          (set_loiter_target_vel scenario_consts (scenario_env 2 ⟨0, 0, 0⟩) ⟨0, 0, 0⟩
            ⟨3000, 4000, 0⟩ (scenario_state ⟨Real.sqrt, fun _ => 0⟩ 2)))._target_vel.x ^ 2
      + (translate_loiter_target_movements ⟨Real.sqrt, fun _ => 0⟩ scenario_consts
          (scenario_env 2 ⟨0, 0, 0⟩) (1 / 10)
          (set_loiter_target_vel scenario_consts (scenario_env 2 ⟨0, 0, 0⟩) ⟨0, 0, 0⟩
            ⟨3000, 4000, 0⟩ (scenario_state ⟨Real.sqrt, fun _ => 0⟩ 2)))._target_vel.y ^ 2)
      ≤ 500 := by
  have hdt : (0 : ℝ) ≤ 1 / 10 := by norm_num
  have hsp : (set_loiter_target_vel scenario_consts (scenario_env (2 : ℝ) ⟨0, 0, 0⟩) ⟨0, 0, 0⟩
      ⟨3000, 4000, 0⟩
      (scenario_state (⟨Real.sqrt, fun _ => 0⟩ : FloatOps ℝ) 2))._loiter_speed_cms = 500 := by
    unfold set_loiter_target_vel scenario_state AC_WPNav calculate_loiter_leash_length
    norm_num [scenario_env, scenario_consts]
  have h := (C20_loiter_speed_limit (fun _ => 0) scenario_consts (scenario_env 2 ⟨0, 0, 0⟩)
    (set_loiter_target_vel scenario_consts (scenario_env 2 ⟨0, 0, 0⟩) ⟨0, 0, 0⟩
      ⟨3000, 4000, 0⟩ (scenario_state ⟨Real.sqrt, fun _ => 0⟩ 2)) (1 / 10) hdt).1
  rw [hsp] at h
  norm_num at h
  exact ⟨hdt, h⟩

end LoiterIntegration

/-! ## Vertical track scale -/

section VerticalScale

/-- The vertical scale that `calculate_wp_leash_length` stores, as the code computes it. -/
theorem wp_vert_scale_eq (F : FloatOps ℝ) (K : Consts ℝ) (e : Env ℝ) (climb : Bool)
    (s : State ℝ) :
    (calculate_wp_leash_length F K e climb s)._vert_track_scale =
      if e.kP ≤ 0 then 1
      else fdiv F (calculate_wp_leash_length F K e climb s)._wp_leash_xy
        (max K.WPNAV_MIN_LEASH_LENGTH
          (if (if climb = true then s._wp_speed_up_cms else s._wp_speed_down_cms)
              ≤ fdiv F K.WPNAV_ALT_HOLD_ACCEL_MAX K.WPNAV_ALT_HOLD_P then
            fdiv F (if climb = true then s._wp_speed_up_cms else s._wp_speed_down_cms)
              K.WPNAV_ALT_HOLD_P
          else
            fdiv F K.WPNAV_ALT_HOLD_ACCEL_MAX (2 * K.WPNAV_ALT_HOLD_P * K.WPNAV_ALT_HOLD_P)
              + fdiv F ((if climb = true then s._wp_speed_up_cms else s._wp_speed_down_cms)
                  * (if climb = true then s._wp_speed_up_cms else s._wp_speed_down_cms))
                (2 * K.WPNAV_ALT_HOLD_ACCEL_MAX))) := by
  by_cases hk : e.kP ≤ 0
  · unfold calculate_wp_leash_length
    simp [hk]
  · rw [if_neg hk, wp_leash_eq, if_neg hk]
    unfold calculate_wp_leash_length
    simp only [hk, if_false, floor_at_eq_max]

/-- The vertical scale is positive when the minimum leash is. -/
theorem wp_vert_scale_pos (F : FloatOps ℝ) (K : Consts ℝ) (e : Env ℝ) (climb : Bool)
    (s : State ℝ) (hmin : 0 < K.WPNAV_MIN_LEASH_LENGTH) :
    0 < (calculate_wp_leash_length F K e climb s)._vert_track_scale := by
  rw [wp_vert_scale_eq]
  by_cases hk : e.kP ≤ 0
  · rw [if_pos hk]
    exact one_pos
  · rw [if_neg hk]
    have hz : 0 < max K.WPNAV_MIN_LEASH_LENGTH
        (if (if climb = true then s._wp_speed_up_cms else s._wp_speed_down_cms)
            ≤ fdiv F K.WPNAV_ALT_HOLD_ACCEL_MAX K.WPNAV_ALT_HOLD_P then
          fdiv F (if climb = true then s._wp_speed_up_cms else s._wp_speed_down_cms)
            K.WPNAV_ALT_HOLD_P
        else
          fdiv F K.WPNAV_ALT_HOLD_ACCEL_MAX (2 * K.WPNAV_ALT_HOLD_P * K.WPNAV_ALT_HOLD_P)
            + fdiv F ((if climb = true then s._wp_speed_up_cms else s._wp_speed_down_cms)
                * (if climb = true then s._wp_speed_up_cms else s._wp_speed_down_cms))
              (2 * K.WPNAV_ALT_HOLD_ACCEL_MAX)) :=
      lt_of_lt_of_le hmin (le_max_left _ _)
    rw [fdiv_of_pos F _ hz]
    exact div_pos (lt_of_lt_of_le hmin (wp_leash_floor F K e climb s)) hz

/-- C21 as stated fails for `kP ≤ 0`: the guard at the top of `calculate_wp_leash_length`
stores the scale `1`.  Scenario object, gain `0`, climbing: the horizontal leash is the
minimum `100`, the vertical leash formula gives `max 100 (250 / 1) = 250`, so the claimed
scale is `100 / 250`, not `1`. -/
theorem C21_vertical_scale_counterexample :
    (scenario_env (0 : ℝ) ⟨0, 0, 0⟩).kP ≤ 0 ∧
    (calculate_wp_leash_length ⟨Real.sqrt, fun _ => 0⟩ scenario_consts
      (scenario_env 0 ⟨0, 0, 0⟩) true
      (scenario_state ⟨Real.sqrt, fun _ => 0⟩ 2))._vert_track_scale
    ≠ (calculate_wp_leash_length ⟨Real.sqrt, fun _ => 0⟩ scenario_consts
        (scenario_env 0 ⟨0, 0, 0⟩) true
        (scenario_state ⟨Real.sqrt, fun _ => 0⟩ 2))._wp_leash_xy
      / max (scenario_consts : Consts ℝ).WPNAV_MIN_LEASH_LENGTH
          (if (scenario_state (⟨Real.sqrt, fun _ => 0⟩ : FloatOps ℝ) 2)._wp_speed_up_cms
              ≤ (scenario_consts : Consts ℝ).WPNAV_ALT_HOLD_ACCEL_MAX
                / (scenario_consts : Consts ℝ).WPNAV_ALT_HOLD_P then
            (scenario_state (⟨Real.sqrt, fun _ => 0⟩ : FloatOps ℝ) 2)._wp_speed_up_cms
              / (scenario_consts : Consts ℝ).WPNAV_ALT_HOLD_P
          else
            (scenario_consts : Consts ℝ).WPNAV_ALT_HOLD_ACCEL_MAX
                / (2 * (scenario_consts : Consts ℝ).WPNAV_ALT_HOLD_P ^ 2)
              + (scenario_state (⟨Real.sqrt, fun _ => 0⟩ : FloatOps ℝ) 2)._wp_speed_up_cms ^ 2
                / (2 * (scenario_consts : Consts ℝ).WPNAV_ALT_HOLD_ACCEL_MAX)) := by
  have hk : (scenario_env (0 : ℝ) ⟨0, 0, 0⟩).kP ≤ 0 := by norm_num [scenario_env]
  have hup : (scenario_state (⟨Real.sqrt, fun _ => 0⟩ : FloatOps ℝ) 2)._wp_speed_up_cms
      = 250 := by
    unfold scenario_state AC_WPNav calculate_loiter_leash_length
    norm_num [scenario_env, scenario_consts]
  refine ⟨hk, ?_⟩
  rw [wp_vert_scale_eq, if_pos hk, wp_leash_eq, if_pos hk, hup]
  norm_num [scenario_consts]

/-- C21, amended. With positive constants `WPNAV_MIN_LEASH_LENGTH`, `WPNAV_ALT_HOLD_P` and
`WPNAV_ALT_HOLD_ACCEL_MAX`, for every climb flag and configured speeds: when `kP > 0`, after
`calculate_wp_leash_length(climb)` `leash_vertical_scale` equals
`leash_horizontal / leash_vertical`, where `leash_vertical` is the leash formula applied to
the climb speed (climb true) or descent speed (climb false) with the constants
`WPNAV_ALT_HOLD_P` and `WPNAV_ALT_HOLD_ACCEL_MAX`, floored at `WPNAV_MIN_LEASH_LENGTH`; when
`kP ≤ 0` the horizontal leash is the minimum and `leash_vertical_scale` is `1`.
`set_origin_and_destination` keeps the scale of its call, made with
`climb = (destination.z - origin.z ≥ 0)`. -/
theorem C21_vertical_scale (F : FloatOps ℝ) (K : Consts ℝ) (e : Env ℝ) (climb : Bool)
    (s : State ℝ) (hmin : 0 < K.WPNAV_MIN_LEASH_LENGTH) (hP : 0 < K.WPNAV_ALT_HOLD_P)
    (hA : 0 < K.WPNAV_ALT_HOLD_ACCEL_MAX) :
    (0 < e.kP →
      (calculate_wp_leash_length F K e climb s)._vert_track_scale =
        (calculate_wp_leash_length F K e climb s)._wp_leash_xy
          / max K.WPNAV_MIN_LEASH_LENGTH
            (if (if climb = true then s._wp_speed_up_cms else s._wp_speed_down_cms)
                ≤ K.WPNAV_ALT_HOLD_ACCEL_MAX / K.WPNAV_ALT_HOLD_P then
              (if climb = true then s._wp_speed_up_cms else s._wp_speed_down_cms)
                / K.WPNAV_ALT_HOLD_P
            else
              K.WPNAV_ALT_HOLD_ACCEL_MAX / (2 * K.WPNAV_ALT_HOLD_P ^ 2)
                + (if climb = true then s._wp_speed_up_cms else s._wp_speed_down_cms) ^ 2
                  / (2 * K.WPNAV_ALT_HOLD_ACCEL_MAX))) ∧
    (e.kP ≤ 0 →
      (calculate_wp_leash_length F K e climb s)._vert_track_scale = 1 ∧
      (calculate_wp_leash_length F K e climb s)._wp_leash_xy = K.WPNAV_MIN_LEASH_LENGTH) ∧
    (∀ origin destination : Vector3 ℝ,
      (set_origin_and_destination F K e origin destination s)._vert_track_scale =
        (calculate_wp_leash_length F K e (decide (destination.z - origin.z ≥ 0))
          { s with _origin := origin, _destination := destination })._vert_track_scale) := by
  refine ⟨?_, ?_, fun _ _ => rfl⟩
  · intro hk
    rw [wp_vert_scale_eq, if_neg (not_le.mpr hk), leash_value F _ _ _ _ hA hP]
    exact fdiv_of_pos F _ (lt_of_lt_of_le hmin (le_max_left _ _))
  · intro hk
    rw [wp_vert_scale_eq, if_pos hk, wp_leash_eq, if_pos hk]
    exact ⟨rfl, rfl⟩

/-- C21 (amended) on the scenario object, gain `2`, climbing: horizontal leash `531.25`,
vertical leash `250`, scale `2.125`. -/
theorem C21_vertical_scale_witness :
    0 < (scenario_consts : Consts ℝ).WPNAV_MIN_LEASH_LENGTH ∧
    0 < (scenario_consts : Consts ℝ).WPNAV_ALT_HOLD_P ∧
    0 < (scenario_consts : Consts ℝ).WPNAV_ALT_HOLD_ACCEL_MAX ∧
    0 < (scenario_env (2 : ℝ) ⟨0, 0, 0⟩).kP ∧
    (calculate_wp_leash_length ⟨Real.sqrt, fun _ => 0⟩ scenario_consts
      (scenario_env 2 ⟨0, 0, 0⟩) true
      (scenario_state ⟨Real.sqrt, fun _ => 0⟩ 2))._vert_track_scale = 2.125 := by
  have hmin : 0 < (scenario_consts : Consts ℝ).WPNAV_MIN_LEASH_LENGTH := by
    norm_num [scenario_consts]
  have hP : 0 < (scenario_consts : Consts ℝ).WPNAV_ALT_HOLD_P := by
    norm_num [scenario_consts]
  have hA : 0 < (scenario_consts : Consts ℝ).WPNAV_ALT_HOLD_ACCEL_MAX := by
    norm_num [scenario_consts]
  have hk : 0 < (scenario_env (2 : ℝ) ⟨0, 0, 0⟩).kP := by norm_num [scenario_env]
  have hup : (scenario_state (⟨Real.sqrt, fun _ => 0⟩ : FloatOps ℝ) 2)._wp_speed_up_cms
      = 250 := by
    unfold scenario_state AC_WPNav calculate_loiter_leash_length
    norm_num [scenario_env, scenario_consts]
  have hw : (scenario_state (⟨Real.sqrt, fun _ => 0⟩ : FloatOps ℝ) 2)._wp_speed_cms
      = 500 := by
    unfold scenario_state AC_WPNav calculate_loiter_leash_length
    norm_num [scenario_env, scenario_consts]
  refine ⟨hmin, hP, hA, hk, ?_⟩
  rw [(C21_vertical_scale ⟨Real.sqrt, fun _ => 0⟩ scenario_consts (scenario_env 2 ⟨0, 0, 0⟩)
    true (scenario_state ⟨Real.sqrt, fun _ => 0⟩ 2) hmin hP hA).1 hk, wp_leash_eq, hup, hw]
  norm_num [scenario_env, scenario_consts, fdiv]

end VerticalScale

/-! ## The intermediate target on the segment -/

section TargetOnSegment

/-- Calls of `advance_target_along_track` keep the segment and keep the target at
`origin + unit * progress`, the altitude divided by the vertical scale. -/
theorem advance_calls_on_track (F : FloatOps ℝ) (K : Consts ℝ) (cs : List (Env ℝ × ℝ))
    (s : State ℝ)
    (h : s._target =
      { x := s._origin.x + s._pos_delta_unit.x * s._track_desired,
        y := s._origin.y + s._pos_delta_unit.y * s._track_desired,
        z := s._origin.z
          + fdiv F (s._pos_delta_unit.z * s._track_desired) s._vert_track_scale }) :
    (advance_calls F K cs s)._origin = s._origin ∧
    (advance_calls F K cs s)._destination = s._destination ∧
    (advance_calls F K cs s)._pos_delta_unit = s._pos_delta_unit ∧
    (advance_calls F K cs s)._vert_track_scale = s._vert_track_scale ∧
    (advance_calls F K cs s)._track_length = s._track_length ∧
    (advance_calls F K cs s)._target =
      { x := s._origin.x + s._pos_delta_unit.x * (advance_calls F K cs s)._track_desired,
        y := s._origin.y + s._pos_delta_unit.y * (advance_calls F K cs s)._track_desired,
        z := s._origin.z
          + fdiv F (s._pos_delta_unit.z * (advance_calls F K cs s)._track_desired)
              s._vert_track_scale } := by
  induction cs generalizing s with
  | nil => exact ⟨rfl, rfl, rfl, rfl, rfl, h⟩
  | cons c cs ih =>
      exact ih (advance_target_along_track F K c.1 c.2 s)
        (advance_target_eq F K c.1 c.2 s)

/-- The segment that `set_origin_and_destination` stores. -/
theorem segment_fields (F : FloatOps ℝ) (K : Consts ℝ) (e : Env ℝ) (o d : Vector3 ℝ)
    (s : State ℝ) :
    (set_origin_and_destination F K e o d s)._origin = o ∧
    (set_origin_and_destination F K e o d s)._destination = d ∧
    (set_origin_and_destination F K e o d s)._target = o ∧
    (set_origin_and_destination F K e o d s)._track_desired = 0 ∧
    (set_origin_and_destination F K e o d s)._track_length =
      F.safe_sqrt ((d.x - o.x) * (d.x - o.x) + (d.y - o.y) * (d.y - o.y)
        + (d.z - o.z) * (set_origin_and_destination F K e o d s)._vert_track_scale
          * ((d.z - o.z) * (set_origin_and_destination F K e o d s)._vert_track_scale)) ∧
    (set_origin_and_destination F K e o d s)._pos_delta_unit =
      (if (set_origin_and_destination F K e o d s)._track_length = 0 then
        { x := 0, y := 0, z := 0 }
      else
        { x := fdiv F (d.x - o.x) (set_origin_and_destination F K e o d s)._track_length,
          y := fdiv F (d.y - o.y) (set_origin_and_destination F K e o d s)._track_length,
          z := fdiv F
            ((d.z - o.z) * (set_origin_and_destination F K e o d s)._vert_track_scale)
            (set_origin_and_destination F K e o d s)._track_length }) :=
  ⟨(wp_leash_frame F K e _ _).1, (wp_leash_frame F K e _ _).2.1, rfl, rfl, rfl, rfl⟩

/-- The vertical scale of a segment is positive when the minimum leash is. -/
theorem segment_scale_pos (F : FloatOps ℝ) (K : Consts ℝ) (e : Env ℝ) (o d : Vector3 ℝ)
    (s : State ℝ) (hmin : 0 < K.WPNAV_MIN_LEASH_LENGTH) :
    0 < (set_origin_and_destination F K e o d s)._vert_track_scale :=
  wp_vert_scale_pos F K e _ _ hmin

theorem Vector3.eq_iff (a b : Vector3 ℝ) : a = b ↔ a.x = b.x ∧ a.y = b.y ∧ a.z = b.z := by
  cases a
  cases b
  simp

/-- The arithmetic of the target on a segment of positive length `tl`: the scale `sc`
cancels, and the target is the destination exactly at full progress. -/
theorem segment_geometry (ox oy oz dx dy dz' sc tl td : ℝ) (hsc : 0 < sc) (htl : 0 < tl)
    (hlen : tl = Real.sqrt ((dx - ox) * (dx - ox) + (dy - oy) * (dy - oy)
      + (dz' - oz) * sc * ((dz' - oz) * sc))) :
    ox + (dx - ox) / tl * td = ox + td / tl * (dx - ox) ∧
    oy + (dy - oy) / tl * td = oy + td / tl * (dy - oy) ∧
    oz + (dz' - oz) * sc / tl * td / sc = oz + td / tl * (dz' - oz) ∧
    ((ox + td / tl * (dx - ox) = dx ∧ oy + td / tl * (dy - oy) = dy
        ∧ oz + td / tl * (dz' - oz) = dz') ↔ td = tl) := by
  refine ⟨by ring, by ring, by field_simp; ring, ?_⟩
  constructor
  · rintro ⟨hx, hy, hz⟩
    by_contra hne
    have h1 : td / tl - 1 ≠ 0 := by
      intro h0
      apply hne
      have : td / tl = 1 := by linarith
      rwa [div_eq_one_iff_eq htl.ne'] at this
    have ex : dx - ox = 0 := by
      have : (td / tl - 1) * (dx - ox) = 0 := by linarith
      exact (mul_eq_zero.mp this).resolve_left h1
    have ey : dy - oy = 0 := by
      have : (td / tl - 1) * (dy - oy) = 0 := by linarith
      exact (mul_eq_zero.mp this).resolve_left h1
    have ez : dz' - oz = 0 := by
      have : (td / tl - 1) * (dz' - oz) = 0 := by linarith
      exact (mul_eq_zero.mp this).resolve_left h1
    rw [ex, ey, ez] at hlen
    simp at hlen
    exact htl.ne' hlen
  · intro h
    rw [h, div_self htl.ne']
    exact ⟨by ring, by ring, by ring⟩

/-- C22. For every origin and destination, with `WPNAV_MIN_LEASH_LENGTH > 0`, after
`set_origin_and_destination` followed by any number of `advance_target_along_track` calls
(each with its own measurements and `dt`): the segment's origin and destination are the
given ones; if `track_length > 0` the intermediate target equals
`origin + (track_progress / track_length) * (destination - origin)` in all three
components, and it equals the destination exactly when `track_progress = track_length`;
if `track_length = 0` the target is the origin. -/
theorem C22_target_on_segment (K : Consts ℝ) (e : Env ℝ) (dz : ℝ → ℝ) (o d : Vector3 ℝ)
    (s : State ℝ) (cs : List (Env ℝ × ℝ)) (hmin : 0 < K.WPNAV_MIN_LEASH_LENGTH) :
    (advance_calls ⟨Real.sqrt, dz⟩ K cs
      (set_origin_and_destination ⟨Real.sqrt, dz⟩ K e o d s))._origin = o ∧
    (advance_calls ⟨Real.sqrt, dz⟩ K cs
      (set_origin_and_destination ⟨Real.sqrt, dz⟩ K e o d s))._destination = d ∧
    (0 < (advance_calls ⟨Real.sqrt, dz⟩ K cs
        (set_origin_and_destination ⟨Real.sqrt, dz⟩ K e o d s))._track_length →
      (advance_calls ⟨Real.sqrt, dz⟩ K cs
        (set_origin_and_destination ⟨Real.sqrt, dz⟩ K e o d s))._target =
        { x := o.x
            + (advance_calls ⟨Real.sqrt, dz⟩ K cs
                (set_origin_and_destination ⟨Real.sqrt, dz⟩ K e o d s))._track_desired
              / (advance_calls ⟨Real.sqrt, dz⟩ K cs
                (set_origin_and_destination ⟨Real.sqrt, dz⟩ K e o d s))._track_length
              * (d.x - o.x),
          y := o.y
            + (advance_calls ⟨Real.sqrt, dz⟩ K cs
                (set_origin_and_destination ⟨Real.sqrt, dz⟩ K e o d s))._track_desired
              / (advance_calls ⟨Real.sqrt, dz⟩ K cs
                (set_origin_and_destination ⟨Real.sqrt, dz⟩ K e o d s))._track_length
              * (d.y - o.y),
          z := o.z
            + (advance_calls ⟨Real.sqrt, dz⟩ K cs
                (set_origin_and_destination ⟨Real.sqrt, dz⟩ K e o d s))._track_desired
              / (advance_calls ⟨Real.sqrt, dz⟩ K cs
                (set_origin_and_destination ⟨Real.sqrt, dz⟩ K e o d s))._track_length
              * (d.z - o.z) } ∧
      ((advance_calls ⟨Real.sqrt, dz⟩ K cs
          (set_origin_and_destination ⟨Real.sqrt, dz⟩ K e o d s))._target = d ↔
        (advance_calls ⟨Real.sqrt, dz⟩ K cs
          (set_origin_and_destination ⟨Real.sqrt, dz⟩ K e o d s))._track_desired
        = (advance_calls ⟨Real.sqrt, dz⟩ K cs
          (set_origin_and_destination ⟨Real.sqrt, dz⟩ K e o d s))._track_length)) ∧
    ((advance_calls ⟨Real.sqrt, dz⟩ K cs
        (set_origin_and_destination ⟨Real.sqrt, dz⟩ K e o d s))._track_length = 0 →
      (advance_calls ⟨Real.sqrt, dz⟩ K cs
        (set_origin_and_destination ⟨Real.sqrt, dz⟩ K e o d s))._target = o) := by
  obtain ⟨g1, g2, g3, g4, g5, g6⟩ := segment_fields ⟨Real.sqrt, dz⟩ K e o d s
  have hsc := segment_scale_pos ⟨Real.sqrt, dz⟩ K e o d s hmin
  have h0 : (set_origin_and_destination ⟨Real.sqrt, dz⟩ K e o d s)._target =
      { x := (set_origin_and_destination ⟨Real.sqrt, dz⟩ K e o d s)._origin.x
          + (set_origin_and_destination ⟨Real.sqrt, dz⟩ K e o d s)._pos_delta_unit.x
            * (set_origin_and_destination ⟨Real.sqrt, dz⟩ K e o d s)._track_desired,
        y := (set_origin_and_destination ⟨Real.sqrt, dz⟩ K e o d s)._origin.y
          + (set_origin_and_destination ⟨Real.sqrt, dz⟩ K e o d s)._pos_delta_unit.y
            * (set_origin_and_destination ⟨Real.sqrt, dz⟩ K e o d s)._track_desired,
        z := (set_origin_and_destination ⟨Real.sqrt, dz⟩ K e o d s)._origin.z
          + fdiv ⟨Real.sqrt, dz⟩
              ((set_origin_and_destination ⟨Real.sqrt, dz⟩ K e o d s)._pos_delta_unit.z
                * (set_origin_and_destination ⟨Real.sqrt, dz⟩ K e o d s)._track_desired)
              (set_origin_and_destination ⟨Real.sqrt, dz⟩ K e o d s)._vert_track_scale } := by
    rw [g3, g4, g1, fdiv_of_pos _ _ hsc]
    rw [Vector3.eq_iff]
    simp
  obtain ⟨a1, a2, a3, a4, a5, a6⟩ :=
    advance_calls_on_track ⟨Real.sqrt, dz⟩ K cs
      (set_origin_and_destination ⟨Real.sqrt, dz⟩ K e o d s) h0
  rw [g1] at a1 a6
  rw [g2] at a2
  rw [fdiv_of_pos _ _ hsc] at a6
  refine ⟨a1, a2, ?_, ?_⟩
  · intro htl
    rw [a5] at htl ⊢
    have hlen := g5
    obtain ⟨e1, e2, e3, e4⟩ := segment_geometry o.x o.y o.z d.x d.y d.z _ _
      (advance_calls ⟨Real.sqrt, dz⟩ K cs
        (set_origin_and_destination ⟨Real.sqrt, dz⟩ K e o d s))._track_desired hsc htl hlen
    rw [if_neg htl.ne', fdiv_of_pos _ _ htl, fdiv_of_pos _ _ htl, fdiv_of_pos _ _ htl] at g6
    rw [g6] at a6
    have hT : (advance_calls ⟨Real.sqrt, dz⟩ K cs
        (set_origin_and_destination ⟨Real.sqrt, dz⟩ K e o d s))._target =
        { x := o.x
            + (advance_calls ⟨Real.sqrt, dz⟩ K cs
                (set_origin_and_destination ⟨Real.sqrt, dz⟩ K e o d s))._track_desired
              / (set_origin_and_destination ⟨Real.sqrt, dz⟩ K e o d s)._track_length
              * (d.x - o.x),
          y := o.y
            + (advance_calls ⟨Real.sqrt, dz⟩ K cs
                (set_origin_and_destination ⟨Real.sqrt, dz⟩ K e o d s))._track_desired
              / (set_origin_and_destination ⟨Real.sqrt, dz⟩ K e o d s)._track_length
              * (d.y - o.y),
          z := o.z
            + (advance_calls ⟨Real.sqrt, dz⟩ K cs
                (set_origin_and_destination ⟨Real.sqrt, dz⟩ K e o d s))._track_desired
              / (set_origin_and_destination ⟨Real.sqrt, dz⟩ K e o d s)._track_length
              * (d.z - o.z) } := by
      rw [a6, Vector3.eq_iff]
      exact ⟨e1, e2, e3⟩
    refine ⟨hT, ?_⟩
    rw [hT, Vector3.eq_iff]
    exact e4
  · intro htl
    rw [a5] at htl
    rw [if_pos htl] at g6
    rw [g6] at a6
    rw [a6, Vector3.eq_iff]
    simp

/-- C22 on the scenario segment from `(0, 0, 0)` to `(1000, 0, 0)`: after one call with
`dt = 0.1` (progress `5` of `1000`) the target is `(5, 0, 0)`. -/
theorem C22_target_on_segment_witness :
    0 < (scenario_consts : Consts ℝ).WPNAV_MIN_LEASH_LENGTH ∧
    (advance_calls ⟨Real.sqrt, fun _ => 0⟩ scenario_consts
      [(scenario_env 2 ⟨0, 0, 0⟩, 1 / 10)]
      (set_origin_and_destination ⟨Real.sqrt, fun _ => 0⟩ scenario_consts
        (scenario_env 2 ⟨0, 0, 0⟩) ⟨0, 0, 0⟩ ⟨1000, 0, 0⟩
        (scenario_state ⟨Real.sqrt, fun _ => 0⟩ 2)))._target = ⟨5, 0, 0⟩ := by
  have hmin : 0 < (scenario_consts : Consts ℝ).WPNAV_MIN_LEASH_LENGTH := by
    norm_num [scenario_consts]
  have htd : (advance_calls ⟨Real.sqrt, fun _ => 0⟩ scenario_consts
      [(scenario_env 2 ⟨0, 0, 0⟩, 1 / 10)]
      (set_origin_and_destination ⟨Real.sqrt, fun _ => 0⟩ scenario_consts
        (scenario_env 2 ⟨0, 0, 0⟩) ⟨0, 0, 0⟩ ⟨1000, 0, 0⟩
        (scenario_state ⟨Real.sqrt, fun _ => 0⟩ 2)))._track_desired = 5 :=
    scenario_segment_first_step
  have htl : (advance_calls ⟨Real.sqrt, fun _ => 0⟩ scenario_consts
      [(scenario_env 2 ⟨0, 0, 0⟩, 1 / 10)]
      (set_origin_and_destination ⟨Real.sqrt, fun _ => 0⟩ scenario_consts
        (scenario_env 2 ⟨0, 0, 0⟩) ⟨0, 0, 0⟩ ⟨1000, 0, 0⟩
        (scenario_state ⟨Real.sqrt, fun _ => 0⟩ 2)))._track_length = 1000 :=
    (scenario_segment_eq (fun _ => 0)).1
  refine ⟨hmin, ?_⟩
  rw [((C22_target_on_segment scenario_consts (scenario_env 2 ⟨0, 0, 0⟩) (fun _ => 0)
    ⟨0, 0, 0⟩ ⟨1000, 0, 0⟩ (scenario_state ⟨Real.sqrt, fun _ => 0⟩ 2)
    [(scenario_env 2 ⟨0, 0, 0⟩, 1 / 10)] hmin).2.2.1 (by rw [htl]; norm_num)).1, htd, htl]
  norm_num

end TargetOnSegment

/-! ## The position-to-velocity law -/

section PositionLaw

/-- The commanded velocity of `get_loiter_position_to_velocity` for `kP > 0`: the law,
limited to `max_speed_cms`, plus the feed-forward. -/
theorem position_stage_law (F : FloatOps ℝ) (K : Consts ℝ) (e : Env ℝ) (s : State ℝ)
    (dt max_speed_cms : ℝ) (hk : 0 < e.kP) :
    (get_loiter_position_to_velocity F K e dt max_speed_cms s).desired_vel =
      { x := (if position_law_speed F K e s > max_speed_cms then
            fdiv F (max_speed_cms * (position_law F K e s).x) (position_law_speed F K e s)
          else (position_law F K e s).x) + s._target_vel.x,
        y := (if position_law_speed F K e s > max_speed_cms then
            fdiv F (max_speed_cms * (position_law F K e s).y) (position_law_speed F K e s)
          else (position_law F K e s).y) + s._target_vel.y } := by
  unfold get_loiter_position_to_velocity
  lift_lets
  intro curr kP dist_error_x dist_error_y linear_distance dist_error_total vel_sqrt vx vy
    vel_total vx1 vy1 vx2 vy2
  have hkP : ¬ kP ≤ 0 := not_le.mpr hk
  rw [if_neg hkP]
  rfl

/-- The speed of the proportional law: `kP` times the error magnitude. -/
theorem linear_law_speed (kP x y : ℝ) (hk : 0 < kP) :
    Real.sqrt (kP * x * (kP * x) + kP * y * (kP * y)) = kP * Real.sqrt (x * x + y * y) := by
  have h : kP * x * (kP * x) + kP * y * (kP * y) = kP * kP * (x * x + y * y) := by ring
  rw [h, Real.sqrt_mul (mul_self_nonneg kP), Real.sqrt_mul_self hk.le]

/-- Both laws give `a / kP` at the error `2 * (a / (2 * kP ^ 2))`. -/
theorem crossover_speed (a kP : ℝ) (hk : 0 < kP) (ha : 0 < a) :
    Real.sqrt (2 * a * (2 * (a / (2 * kP ^ 2)) - a / (2 * kP ^ 2))) = a / kP ∧
    kP * (2 * (a / (2 * kP ^ 2))) = a / kP := by
  constructor
  · have h : 2 * a * (2 * (a / (2 * kP ^ 2)) - a / (2 * kP ^ 2)) = (a / kP) * (a / kP) := by
      field_simp
      ring
    rw [h, Real.sqrt_mul_self (div_pos ha hk).le]
  · field_simp
    ring

/-- The law as a function of the error magnitude `D`. -/
theorem position_law_speed_eq (dz : ℝ → ℝ) (K : Consts ℝ) (e : Env ℝ) (s : State ℝ)
    (hk : 0 < e.kP) (ha : 0 < K.WPNAV_ACCELERATION)
    (hlat : ∀ x, e.get_p_lat x = e.kP * x) (hlon : ∀ x, e.get_p_lon x = e.kP * x) :
    position_law_speed ⟨Real.sqrt, dz⟩ K e s =
      if dist_error_length ⟨Real.sqrt, dz⟩ e s
          > 2 * (K.WPNAV_ACCELERATION / (2 * e.kP ^ 2)) then
        Real.sqrt (2 * K.WPNAV_ACCELERATION
          * (dist_error_length ⟨Real.sqrt, dz⟩ e s - K.WPNAV_ACCELERATION / (2 * e.kP ^ 2)))
      else e.kP * dist_error_length ⟨Real.sqrt, dz⟩ e s := by
  have hden : 0 < 2 * e.kP * e.kP := by positivity
  have hld : fdiv ⟨Real.sqrt, dz⟩ K.WPNAV_ACCELERATION (2 * e.kP * e.kP)
      = K.WPNAV_ACCELERATION / (2 * e.kP ^ 2) := by
    rw [fdiv_of_pos _ _ hden, sq, mul_assoc]
  have hldpos : 0 < K.WPNAV_ACCELERATION / (2 * e.kP ^ 2) := by positivity
  unfold position_law_speed position_law dist_error_length
  simp only [hld, hlat, hlon]
  by_cases hc : Real.sqrt ((s._target.x - e.position.x) * (s._target.x - e.position.x)
      + (s._target.y - e.position.y) * (s._target.y - e.position.y))
      > 2 * (K.WPNAV_ACCELERATION / (2 * e.kP ^ 2))
  · have hD : 0 < Real.sqrt ((s._target.x - e.position.x) * (s._target.x - e.position.x)
        + (s._target.y - e.position.y) * (s._target.y - e.position.y)) := by
      have : 0 < 2 * (K.WPNAV_ACCELERATION / (2 * e.kP ^ 2)) := by positivity
      exact this.trans hc
    simp only [hc, if_true]
    rw [fdiv_of_pos _ _ hD, fdiv_of_pos _ _ hD]
    exact sqrt_scaled_mul _ _ _ hD (Real.sqrt_nonneg _)
  · simp only [hc, if_false]
    exact linear_law_speed _ _ _ hk

/-- The law is non-decreasing in the error magnitude. -/
theorem law_monotone (a kP D D' : ℝ) (hk : 0 < kP) (ha : 0 < a) (h : D ≤ D') :
    (if D > 2 * (a / (2 * kP ^ 2)) then Real.sqrt (2 * a * (D - a / (2 * kP ^ 2)))
      else kP * D)
    ≤ (if D' > 2 * (a / (2 * kP ^ 2)) then Real.sqrt (2 * a * (D' - a / (2 * kP ^ 2)))
      else kP * D') := by
  obtain ⟨c1, c2⟩ := crossover_speed a kP hk ha
  by_cases h1 : D > 2 * (a / (2 * kP ^ 2))
  · have h2 : D' > 2 * (a / (2 * kP ^ 2)) := lt_of_lt_of_le h1 h
    rw [if_pos h1, if_pos h2]
    apply Real.sqrt_le_sqrt
    have : 0 ≤ 2 * a := by positivity
    nlinarith
  · rw [if_neg h1]
    by_cases h2 : D' > 2 * (a / (2 * kP ^ 2))
    · rw [if_pos h2]
      have s1 : kP * D ≤ kP * (2 * (a / (2 * kP ^ 2))) :=
        mul_le_mul_of_nonneg_left (not_lt.mp h1) hk.le
      have s2 : Real.sqrt (2 * a * (2 * (a / (2 * kP ^ 2)) - a / (2 * kP ^ 2)))
          ≤ Real.sqrt (2 * a * (D' - a / (2 * kP ^ 2))) := by
        apply Real.sqrt_le_sqrt
        have : 0 ≤ 2 * a := by positivity
        nlinarith
      linarith
    · rw [if_neg h2]
      exact mul_le_mul_of_nonneg_left h hk.le

/-- The error that `get_loiter_position_to_velocity` stores for `kP > 0`. -/
theorem position_stage_dist_error (F : FloatOps ℝ) (K : Consts ℝ) (e : Env ℝ) (s : State ℝ)
    (dt max_speed_cms : ℝ) (hk : 0 < e.kP) :
    (get_loiter_position_to_velocity F K e dt max_speed_cms s).dist_error =
      { x := s._target.x - e.position.x, y := s._target.y - e.position.y } := by
  unfold get_loiter_position_to_velocity
  lift_lets
  intro curr kP dist_error_x dist_error_y linear_distance dist_error_total vel_sqrt vx vy
    vel_total vx1 vy1 vx2 vy2
  have hkP : ¬ kP ≤ 0 := not_le.mpr hk
  rw [if_neg hkP]
  rfl

/-- Below the speed limit the commanded velocity, feed-forward removed, has the magnitude
of the law. -/
theorem position_stage_speed_unclamped (dz : ℝ → ℝ) (K : Consts ℝ) (e : Env ℝ)
    (s : State ℝ) (dt max_speed_cms : ℝ) (hk : 0 < e.kP)
    (h : position_law_speed ⟨Real.sqrt, dz⟩ K e s ≤ max_speed_cms) :
    Real.sqrt
      (((get_loiter_position_to_velocity ⟨Real.sqrt, dz⟩ K e dt max_speed_cms s).desired_vel.x
          - s._target_vel.x) ^ 2
      + ((get_loiter_position_to_velocity ⟨Real.sqrt, dz⟩ K e dt max_speed_cms s).desired_vel.y
          - s._target_vel.y) ^ 2) = position_law_speed ⟨Real.sqrt, dz⟩ K e s := by
  rw [position_stage_law _ K e s dt max_speed_cms hk]
  simp only [if_neg (not_lt.mpr h), add_sub_cancel_right]
  rw [sq, sq]
  rfl

/-- Above the speed limit the commanded velocity, feed-forward removed, has the magnitude
of the limit. -/
theorem position_stage_speed_clamped (dz : ℝ → ℝ) (K : Consts ℝ) (e : Env ℝ)
    (s : State ℝ) (dt max_speed_cms : ℝ) (hk : 0 < e.kP) (hm : 0 ≤ max_speed_cms)
    (h : position_law_speed ⟨Real.sqrt, dz⟩ K e s > max_speed_cms) :
    Real.sqrt
      (((get_loiter_position_to_velocity ⟨Real.sqrt, dz⟩ K e dt max_speed_cms s).desired_vel.x
          - s._target_vel.x) ^ 2
      + ((get_loiter_position_to_velocity ⟨Real.sqrt, dz⟩ K e dt max_speed_cms s).desired_vel.y
          - s._target_vel.y) ^ 2) = max_speed_cms := by
  have hpos : 0 < position_law_speed ⟨Real.sqrt, dz⟩ K e s := lt_of_le_of_lt hm h
  rw [position_stage_law _ K e s dt max_speed_cms hk]
  simp only [if_pos h, add_sub_cancel_right]
  rw [fdiv_of_pos _ _ hpos, fdiv_of_pos _ _ hpos]
  exact sqrt_scaled max_speed_cms _ _ hpos hm

/-- C23. For every gain `kP > 0` and `a = WPNAV_ACCELERATION > 0`, with
`linear_distance = a / (2 * kP ^ 2)` and the proportional controllers answering
`get_p(e) = kP * e`, for every `dt` and speed limit `max_speed_cms`: the error that
`get_loiter_position_to_velocity` stores has the magnitude `D` of the horizontal distance
between target and measured position; the velocity it commands, feed-forward removed, has
magnitude `min(law(D), max_speed_cms)` for a limit `≥ 0`, and `law(D)` whenever the limit
is not below it (the unclamped commanded speed), where `law(D)` is
`sqrt(2 * a * (D - linear_distance))` for `D > 2 * linear_distance` and `kP * D` otherwise;
at `D = 2 * linear_distance` the square-root law and the proportional law both give
`a / kP`, which is the commanded speed there; and the unclamped commanded speed is a
non-decreasing function of the error magnitude (for every second measurement and target
with the same gain). -/
theorem C23_position_law_continuous (dz : ℝ → ℝ) (K : Consts ℝ) (e : Env ℝ) (s : State ℝ)
    (dt max_speed_cms : ℝ) (hk : 0 < e.kP) (ha : 0 < K.WPNAV_ACCELERATION)
    (hlat : ∀ x, e.get_p_lat x = e.kP * x) (hlon : ∀ x, e.get_p_lon x = e.kP * x) :
    (Real.sqrt
      ((get_loiter_position_to_velocity ⟨Real.sqrt, dz⟩ K e dt max_speed_cms s).dist_error.x
          * (get_loiter_position_to_velocity ⟨Real.sqrt, dz⟩ K e dt max_speed_cms s).dist_error.x
        + (get_loiter_position_to_velocity ⟨Real.sqrt, dz⟩ K e dt max_speed_cms s).dist_error.y
          * (get_loiter_position_to_velocity ⟨Real.sqrt, dz⟩ K e dt max_speed_cms s).dist_error.y)
      = dist_error_length ⟨Real.sqrt, dz⟩ e s) ∧
    (0 ≤ max_speed_cms →
      Real.sqrt
        (((get_loiter_position_to_velocity ⟨Real.sqrt, dz⟩ K e dt max_speed_cms s).desired_vel.x
            - s._target_vel.x) ^ 2
        + ((get_loiter_position_to_velocity ⟨Real.sqrt, dz⟩ K e dt max_speed_cms s).desired_vel.y
            - s._target_vel.y) ^ 2)
      = min
          (if dist_error_length ⟨Real.sqrt, dz⟩ e s
              > 2 * (K.WPNAV_ACCELERATION / (2 * e.kP ^ 2)) then
            Real.sqrt (2 * K.WPNAV_ACCELERATION
              * (dist_error_length ⟨Real.sqrt, dz⟩ e s
                - K.WPNAV_ACCELERATION / (2 * e.kP ^ 2)))
          else e.kP * dist_error_length ⟨Real.sqrt, dz⟩ e s)
          max_speed_cms) ∧
    ((if dist_error_length ⟨Real.sqrt, dz⟩ e s
          > 2 * (K.WPNAV_ACCELERATION / (2 * e.kP ^ 2)) then
        Real.sqrt (2 * K.WPNAV_ACCELERATION
          * (dist_error_length ⟨Real.sqrt, dz⟩ e s - K.WPNAV_ACCELERATION / (2 * e.kP ^ 2)))
      else e.kP * dist_error_length ⟨Real.sqrt, dz⟩ e s) ≤ max_speed_cms →
      Real.sqrt
        (((get_loiter_position_to_velocity ⟨Real.sqrt, dz⟩ K e dt max_speed_cms s).desired_vel.x
            - s._target_vel.x) ^ 2
        + ((get_loiter_position_to_velocity ⟨Real.sqrt, dz⟩ K e dt max_speed_cms s).desired_vel.y
            - s._target_vel.y) ^ 2)
      = if dist_error_length ⟨Real.sqrt, dz⟩ e s
            > 2 * (K.WPNAV_ACCELERATION / (2 * e.kP ^ 2)) then
          Real.sqrt (2 * K.WPNAV_ACCELERATION
            * (dist_error_length ⟨Real.sqrt, dz⟩ e s - K.WPNAV_ACCELERATION / (2 * e.kP ^ 2)))
        else e.kP * dist_error_length ⟨Real.sqrt, dz⟩ e s) ∧
    (dist_error_length ⟨Real.sqrt, dz⟩ e s = 2 * (K.WPNAV_ACCELERATION / (2 * e.kP ^ 2)) →
      Real.sqrt (2 * K.WPNAV_ACCELERATION
        * (dist_error_length ⟨Real.sqrt, dz⟩ e s - K.WPNAV_ACCELERATION / (2 * e.kP ^ 2)))
        = K.WPNAV_ACCELERATION / e.kP ∧
      e.kP * dist_error_length ⟨Real.sqrt, dz⟩ e s = K.WPNAV_ACCELERATION / e.kP ∧
      (K.WPNAV_ACCELERATION / e.kP ≤ max_speed_cms →
        Real.sqrt
          (((get_loiter_position_to_velocity ⟨Real.sqrt, dz⟩ K e dt
                max_speed_cms s).desired_vel.x - s._target_vel.x) ^ 2
          + ((get_loiter_position_to_velocity ⟨Real.sqrt, dz⟩ K e dt
                max_speed_cms s).desired_vel.y - s._target_vel.y) ^ 2)
        = K.WPNAV_ACCELERATION / e.kP)) ∧
    (∀ (e' : Env ℝ) (s' : State ℝ), e'.kP = e.kP →
      (∀ x, e'.get_p_lat x = e'.kP * x) → (∀ x, e'.get_p_lon x = e'.kP * x) →
      dist_error_length ⟨Real.sqrt, dz⟩ e s ≤ dist_error_length ⟨Real.sqrt, dz⟩ e' s' →
      (if dist_error_length ⟨Real.sqrt, dz⟩ e' s'
            > 2 * (K.WPNAV_ACCELERATION / (2 * e.kP ^ 2)) then
          Real.sqrt (2 * K.WPNAV_ACCELERATION
            * (dist_error_length ⟨Real.sqrt, dz⟩ e' s'
              - K.WPNAV_ACCELERATION / (2 * e.kP ^ 2)))
        else e.kP * dist_error_length ⟨Real.sqrt, dz⟩ e' s') ≤ max_speed_cms →
      Real.sqrt
        (((get_loiter_position_to_velocity ⟨Real.sqrt, dz⟩ K e dt max_speed_cms s).desired_vel.x
            - s._target_vel.x) ^ 2
        + ((get_loiter_position_to_velocity ⟨Real.sqrt, dz⟩ K e dt max_speed_cms s).desired_vel.y
            - s._target_vel.y) ^ 2)
      ≤ Real.sqrt
        (((get_loiter_position_to_velocity ⟨Real.sqrt, dz⟩ K e' dt
              max_speed_cms s').desired_vel.x - s'._target_vel.x) ^ 2
        + ((get_loiter_position_to_velocity ⟨Real.sqrt, dz⟩ K e' dt
              max_speed_cms s').desired_vel.y - s'._target_vel.y) ^ 2)) := by
  have hsp := position_law_speed_eq dz K e s hk ha hlat hlon
  obtain ⟨c1, c2⟩ := crossover_speed K.WPNAV_ACCELERATION e.kP hk ha
  have hun : (if dist_error_length ⟨Real.sqrt, dz⟩ e s
          > 2 * (K.WPNAV_ACCELERATION / (2 * e.kP ^ 2)) then
        Real.sqrt (2 * K.WPNAV_ACCELERATION
          * (dist_error_length ⟨Real.sqrt, dz⟩ e s - K.WPNAV_ACCELERATION / (2 * e.kP ^ 2)))
      else e.kP * dist_error_length ⟨Real.sqrt, dz⟩ e s) ≤ max_speed_cms →
      Real.sqrt
        (((get_loiter_position_to_velocity ⟨Real.sqrt, dz⟩ K e dt max_speed_cms s).desired_vel.x
            - s._target_vel.x) ^ 2
        + ((get_loiter_position_to_velocity ⟨Real.sqrt, dz⟩ K e dt max_speed_cms s).desired_vel.y
            - s._target_vel.y) ^ 2)
      = if dist_error_length ⟨Real.sqrt, dz⟩ e s
            > 2 * (K.WPNAV_ACCELERATION / (2 * e.kP ^ 2)) then
          Real.sqrt (2 * K.WPNAV_ACCELERATION
            * (dist_error_length ⟨Real.sqrt, dz⟩ e s - K.WPNAV_ACCELERATION / (2 * e.kP ^ 2)))
        else e.kP * dist_error_length ⟨Real.sqrt, dz⟩ e s := by
    intro hle
    rw [← hsp] at hle ⊢
    exact position_stage_speed_unclamped dz K e s dt max_speed_cms hk hle
  refine ⟨?_, ?_, hun, ?_, ?_⟩
  · rw [position_stage_dist_error _ K e s dt max_speed_cms hk]
    rfl
  · intro hm
    rw [← hsp]
    by_cases hc : position_law_speed ⟨Real.sqrt, dz⟩ K e s > max_speed_cms
    · rw [position_stage_speed_clamped dz K e s dt max_speed_cms hk hm hc,
        min_eq_right hc.le]
    · rw [position_stage_speed_unclamped dz K e s dt max_speed_cms hk (not_lt.mp hc),
        min_eq_left (not_lt.mp hc)]
  · intro hD
    refine ⟨?_, ?_, ?_⟩
    · rw [hD]
      exact c1
    · rw [hD]
      exact c2
    · intro hle
      have hv : position_law_speed ⟨Real.sqrt, dz⟩ K e s = K.WPNAV_ACCELERATION / e.kP := by
        rw [hsp, if_neg (by rw [hD]; exact lt_irrefl _), hD]
        exact c2
      rw [← hv] at hle ⊢
      exact position_stage_speed_unclamped dz K e s dt max_speed_cms hk hle
  · intro e' s' hkk hlat' hlon' hle hm'
    have hk' : 0 < e'.kP := by rw [hkk]; exact hk
    have hsp' := position_law_speed_eq dz K e' s' hk' ha hlat' hlon'
    rw [hkk] at hsp'
    have hmono := law_monotone K.WPNAV_ACCELERATION e.kP _ _ hk ha hle
    rw [hun (hmono.trans hm')]
    rw [← hsp'] at hm' hmono
    rw [position_stage_speed_unclamped dz K e' s' dt max_speed_cms hk' hm']
    exact hmono

theorem scenario_state_target_vel :
    (scenario_state (⟨Real.sqrt, fun _ => 0⟩ : FloatOps ℝ) 2)._target_vel = ⟨0, 0, 0⟩ := by
  unfold scenario_state AC_WPNav calculate_loiter_leash_length
  norm_num [scenario_env, scenario_consts]

/-- The law in the crossover scenario: gain `2`, acceleration `250`, vehicle at the origin,
target at `(62.5, 0)`; the error `62.5` is not above `2 * linear_distance`, so the
proportional branch gives `(125, 0)`. -/
theorem scenario_crossover_law :
    position_law ⟨Real.sqrt, fun _ => 0⟩ scenario_consts (scenario_env (2 : ℝ) ⟨0, 0, 0⟩)
      { scenario_state ⟨Real.sqrt, fun _ => 0⟩ 2 with _target := ⟨125 / 2, 0, 0⟩ }
      = ⟨125, 0⟩ := by
  have hD : Real.sqrt ((125 / 2 - 0) * (125 / 2 - 0) + (0 - 0) * (0 - 0) : ℝ) = 125 / 2 :=
    sqrt_eq_of_mul_self _ _ (by norm_num) (by norm_num)
  unfold position_law
  simp only [scenario_env, scenario_consts, hD]
  norm_num [fdiv]

/-- The crossover scenario evaluated through the function, limit `500`: it commands
`(125, 0)`. -/
theorem scenario_crossover_stage :
    (get_loiter_position_to_velocity ⟨Real.sqrt, fun _ => 0⟩ scenario_consts
      (scenario_env 2 ⟨0, 0, 0⟩) (1 / 10) 500
      { scenario_state ⟨Real.sqrt, fun _ => 0⟩ 2 with
        _target := ⟨125 / 2, 0, 0⟩ }).desired_vel = ⟨125, 0⟩ := by
  have hV : Real.sqrt ((125 : ℝ) * 125 + 0 * 0) = 125 :=
    sqrt_eq_of_mul_self _ _ (by norm_num) (by norm_num)
  have htv : ({ scenario_state (⟨Real.sqrt, fun _ => 0⟩ : FloatOps ℝ) 2 with
      _target := ⟨125 / 2, 0, 0⟩ } : State ℝ)._target_vel = ⟨0, 0, 0⟩ :=
    scenario_state_target_vel
  rw [position_stage_law _ _ _ _ _ _ (by norm_num [scenario_env])]
  unfold position_law_speed
  rw [scenario_crossover_law, htv]
  simp only [hV]
  norm_num

/-- C23 on the scenario object, gain `2`, acceleration `250`, limit `500`, vehicle at the
origin and target at `(62.5, 0)`: the error is `2 * linear_distance = 62.5` and the
commanded speed is `a / kP = 125`. -/
theorem C23_position_law_continuous_witness :
    0 < (scenario_env (2 : ℝ) ⟨0, 0, 0⟩).kP ∧
    0 < (scenario_consts : Consts ℝ).WPNAV_ACCELERATION ∧
    (∀ x, (scenario_env (2 : ℝ) ⟨0, 0, 0⟩).get_p_lat x
      = (scenario_env (2 : ℝ) ⟨0, 0, 0⟩).kP * x) ∧
    (∀ x, (scenario_env (2 : ℝ) ⟨0, 0, 0⟩).get_p_lon x
      = (scenario_env (2 : ℝ) ⟨0, 0, 0⟩).kP * x) ∧
    dist_error_length ⟨Real.sqrt, fun _ => 0⟩ (scenario_env (2 : ℝ) ⟨0, 0, 0⟩)
      { scenario_state ⟨Real.sqrt, fun _ => 0⟩ 2 with _target := ⟨125 / 2, 0, 0⟩ } = 125 / 2 ∧
    Real.sqrt
      (((get_loiter_position_to_velocity ⟨Real.sqrt, fun _ => 0⟩ scenario_consts
            (scenario_env 2 ⟨0, 0, 0⟩) (1 / 10) 500
            { scenario_state ⟨Real.sqrt, fun _ => 0⟩ 2 with
              _target := ⟨125 / 2, 0, 0⟩ }).desired_vel.x
          - ({ scenario_state (⟨Real.sqrt, fun _ => 0⟩ : FloatOps ℝ) 2 with
              _target := ⟨125 / 2, 0, 0⟩ } : State ℝ)._target_vel.x) ^ 2
      + ((get_loiter_position_to_velocity ⟨Real.sqrt, fun _ => 0⟩ scenario_consts
            (scenario_env 2 ⟨0, 0, 0⟩) (1 / 10) 500
            { scenario_state ⟨Real.sqrt, fun _ => 0⟩ 2 with
              _target := ⟨125 / 2, 0, 0⟩ }).desired_vel.y
          - ({ scenario_state (⟨Real.sqrt, fun _ => 0⟩ : FloatOps ℝ) 2 with
              _target := ⟨125 / 2, 0, 0⟩ } : State ℝ)._target_vel.y) ^ 2)
      = 125 := by
  have hk : 0 < (scenario_env (2 : ℝ) ⟨0, 0, 0⟩).kP := by norm_num [scenario_env]
  have ha : 0 < (scenario_consts : Consts ℝ).WPNAV_ACCELERATION := by
    norm_num [scenario_consts]
  have hlat : ∀ x, (scenario_env (2 : ℝ) ⟨0, 0, 0⟩).get_p_lat x
      = (scenario_env (2 : ℝ) ⟨0, 0, 0⟩).kP * x := fun _ => rfl
  have hlon : ∀ x, (scenario_env (2 : ℝ) ⟨0, 0, 0⟩).get_p_lon x
      = (scenario_env (2 : ℝ) ⟨0, 0, 0⟩).kP * x := fun _ => rfl
  have hD : dist_error_length ⟨Real.sqrt, fun _ => 0⟩ (scenario_env (2 : ℝ) ⟨0, 0, 0⟩)
      { scenario_state ⟨Real.sqrt, fun _ => 0⟩ 2 with _target := ⟨125 / 2, 0, 0⟩ }
      = 125 / 2 := by
    unfold dist_error_length
    exact sqrt_eq_of_mul_self _ _ (by norm_num) (by norm_num [scenario_env])
  have h := ((C23_position_law_continuous (fun _ => 0) scenario_consts
    (scenario_env 2 ⟨0, 0, 0⟩)
    { scenario_state ⟨Real.sqrt, fun _ => 0⟩ 2 with _target := ⟨125 / 2, 0, 0⟩ }
    (1 / 10) 500 hk ha hlat hlon).2.2.2.1
    (by rw [hD]; norm_num [scenario_env, scenario_consts])).2.2
    (by norm_num [scenario_env, scenario_consts])
  exact ⟨hk, ha, hlat, hlon, hD, h.trans (by norm_num [scenario_env, scenario_consts])⟩

end PositionLaw

/-! ## The speed limit of the intermediate target -/

section LimitedSpeed

/-- The new `_limited_speed_xy_cms`, as `advance_target_along_track` nests its tests. -/
theorem advance_limited_speed_eq (F : FloatOps ℝ) (K : Consts ℝ) (e : Env ℝ) (dt : ℝ)
    (s : State ℝ) :
    (advance_target_along_track F K e dt s)._limited_speed_xy_cms =
      if e.velocity.x * s._pos_delta_unit.x + e.velocity.y * s._pos_delta_unit.y
          + e.velocity.z * s._pos_delta_unit.z
          < -(if e.kP ≥ 0 then fdiv F K.WPNAV_ACCELERATION e.kP else s._wp_speed_cms) then
        0
      else if |e.velocity.x * s._pos_delta_unit.x + e.velocity.y * s._pos_delta_unit.y
          + e.velocity.z * s._pos_delta_unit.z|
          < (if e.kP ≥ 0 then fdiv F K.WPNAV_ACCELERATION e.kP else s._wp_speed_cms) then
        constrain_float
          (if (if dt > 0 ∧ s._limited_speed_xy_cms < s._wp_speed_cms then
                s._limited_speed_xy_cms + 2 * K.WPNAV_ACCELERATION * dt
              else s._limited_speed_xy_cms) > s._wp_speed_cms then s._wp_speed_cms
            else (if dt > 0 ∧ s._limited_speed_xy_cms < s._wp_speed_cms then
                s._limited_speed_xy_cms + 2 * K.WPNAV_ACCELERATION * dt
              else s._limited_speed_xy_cms))
          (e.velocity.x * s._pos_delta_unit.x + e.velocity.y * s._pos_delta_unit.y
            + e.velocity.z * s._pos_delta_unit.z
            - (if e.kP ≥ 0 then fdiv F K.WPNAV_ACCELERATION e.kP else s._wp_speed_cms))
          (e.velocity.x * s._pos_delta_unit.x + e.velocity.y * s._pos_delta_unit.y
            + e.velocity.z * s._pos_delta_unit.z
            + (if e.kP ≥ 0 then fdiv F K.WPNAV_ACCELERATION e.kP else s._wp_speed_cms))
      else
        (if (if dt > 0 ∧ s._limited_speed_xy_cms < s._wp_speed_cms then
              s._limited_speed_xy_cms + 2 * K.WPNAV_ACCELERATION * dt
            else s._limited_speed_xy_cms) > s._wp_speed_cms then s._wp_speed_cms
          else (if dt > 0 ∧ s._limited_speed_xy_cms < s._wp_speed_cms then
              s._limited_speed_xy_cms + 2 * K.WPNAV_ACCELERATION * dt
            else s._limited_speed_xy_cms)) := rfl

/-- The ramp and cap keep the limit in `[0, wp]`. -/
theorem ramp_cap_bounds (a dt lim wp : ℝ) (ha : 0 ≤ a) (h0 : 0 ≤ lim) (h1 : lim ≤ wp) :
    0 ≤ (if (if dt > 0 ∧ lim < wp then lim + 2 * a * dt else lim) > wp then wp
          else (if dt > 0 ∧ lim < wp then lim + 2 * a * dt else lim)) ∧
    (if (if dt > 0 ∧ lim < wp then lim + 2 * a * dt else lim) > wp then wp
          else (if dt > 0 ∧ lim < wp then lim + 2 * a * dt else lim)) ≤ wp := by
  have hr : 0 ≤ (if dt > 0 ∧ lim < wp then lim + 2 * a * dt else lim) := by
    by_cases hc : dt > 0 ∧ lim < wp
    · rw [if_pos hc]
      have : 0 ≤ 2 * a * dt := mul_nonneg (mul_nonneg (by norm_num) ha) hc.1.le
      linarith
    · rw [if_neg hc]
      exact h0
  by_cases hg : (if dt > 0 ∧ lim < wp then lim + 2 * a * dt else lim) > wp
  · rw [if_pos hg]
    exact ⟨h0.trans h1, le_rfl⟩
  · rw [if_neg hg]
    exact ⟨hr, not_lt.mp hg⟩

/-- The clamp to `[sp - lv, sp + lv]` with `|sp| < lv` keeps a value of `[0, wp]` there. -/
theorem band_clamp_bounds (c sp lv wp : ℝ) (hc0 : 0 ≤ c) (hc1 : c ≤ wp) (hb : |sp| < lv) :
    0 ≤ constrain_float c (sp - lv) (sp + lv) ∧ constrain_float c (sp - lv) (sp + lv) ≤ wp := by
  obtain ⟨b1, b2⟩ := abs_lt.mp hb
  unfold constrain_float
  have hlo : ¬ c < sp - lv := by
    intro h
    linarith
  rw [if_neg hlo]
  by_cases hhi : c > sp + lv
  · rw [if_pos hhi]
    constructor
    · linarith
    · linarith
  · rw [if_neg hhi]
    exact ⟨hc0, hc1⟩

/-- The new limit is in `[0, wp]`. -/
theorem advance_limited_speed_bounds (F : FloatOps ℝ) (K : Consts ℝ) (e : Env ℝ) (dt : ℝ)
    (s : State ℝ) (ha : 0 ≤ K.WPNAV_ACCELERATION) (h0 : 0 ≤ s._limited_speed_xy_cms)
    (h1 : s._limited_speed_xy_cms ≤ s._wp_speed_cms) :
    0 ≤ (advance_target_along_track F K e dt s)._limited_speed_xy_cms ∧
    (advance_target_along_track F K e dt s)._limited_speed_xy_cms ≤ s._wp_speed_cms := by
  obtain ⟨r0, r1⟩ := ramp_cap_bounds K.WPNAV_ACCELERATION dt s._limited_speed_xy_cms
    s._wp_speed_cms ha h0 h1
  rw [advance_limited_speed_eq]
  by_cases hneg : e.velocity.x * s._pos_delta_unit.x + e.velocity.y * s._pos_delta_unit.y
      + e.velocity.z * s._pos_delta_unit.z
      < -(if e.kP ≥ 0 then fdiv F K.WPNAV_ACCELERATION e.kP else s._wp_speed_cms)
  · rw [if_pos hneg]
    exact ⟨le_rfl, h0.trans h1⟩
  · rw [if_neg hneg]
    by_cases hb : |e.velocity.x * s._pos_delta_unit.x + e.velocity.y * s._pos_delta_unit.y
        + e.velocity.z * s._pos_delta_unit.z|
        < (if e.kP ≥ 0 then fdiv F K.WPNAV_ACCELERATION e.kP else s._wp_speed_cms)
    · rw [if_pos hb]
      exact band_clamp_bounds _ _ _ _ r0 r1 hb
    · rw [if_neg hb]
      exact ⟨r0, r1⟩

/-- C24. With `WPNAV_ACCELERATION ≥ 0`: for every state with
`0 ≤ limited_speed ≤ waypoint speed`, every measured position and velocity, every gain
`kP` and every `dt`, after `advance_target_along_track(dt)` the new limited speed again
satisfies `0 ≤ limited_speed ≤ waypoint speed` (the waypoint speed is not written); it is
exactly `0` whenever the along-track velocity component is below `-linear_velocity`, where
`linear_velocity` is `WPNAV_ACCELERATION / kP` for `kP ≥ 0` (so for `kP > 0` the real
quotient) and the waypoint speed for `kP < 0`; and `set_origin_and_destination` leaves
`0 ≤ limited_speed ≤ waypoint speed` when the waypoint speed is `≥ 0`. -/
theorem C24_limited_speed_bounds (F : FloatOps ℝ) (K : Consts ℝ) (e : Env ℝ) (dt : ℝ)
    (s : State ℝ) (ha : 0 ≤ K.WPNAV_ACCELERATION) (h0 : 0 ≤ s._limited_speed_xy_cms)
    (h1 : s._limited_speed_xy_cms ≤ s._wp_speed_cms) :
    0 ≤ (advance_target_along_track F K e dt s)._limited_speed_xy_cms ∧
    (advance_target_along_track F K e dt s)._limited_speed_xy_cms
      ≤ (advance_target_along_track F K e dt s)._wp_speed_cms ∧
    (advance_target_along_track F K e dt s)._wp_speed_cms = s._wp_speed_cms ∧
    (e.velocity.x * s._pos_delta_unit.x + e.velocity.y * s._pos_delta_unit.y
        + e.velocity.z * s._pos_delta_unit.z
        < -(if e.kP ≥ 0 then fdiv F K.WPNAV_ACCELERATION e.kP else s._wp_speed_cms) →
      (advance_target_along_track F K e dt s)._limited_speed_xy_cms = 0) ∧
    (0 < e.kP →
      e.velocity.x * s._pos_delta_unit.x + e.velocity.y * s._pos_delta_unit.y
        + e.velocity.z * s._pos_delta_unit.z < -(K.WPNAV_ACCELERATION / e.kP) →
      (advance_target_along_track F K e dt s)._limited_speed_xy_cms = 0) ∧
    (∀ (e0 : Env ℝ) (o d : Vector3 ℝ) (s0 : State ℝ), 0 ≤ s0._wp_speed_cms →
      0 ≤ (set_origin_and_destination F K e0 o d s0)._limited_speed_xy_cms ∧
      (set_origin_and_destination F K e0 o d s0)._limited_speed_xy_cms
        ≤ (set_origin_and_destination F K e0 o d s0)._wp_speed_cms) := by
  obtain ⟨b0, b1⟩ := advance_limited_speed_bounds F K e dt s ha h0 h1
  refine ⟨b0, b1, rfl, ?_, ?_, ?_⟩
  · intro hneg
    rw [advance_limited_speed_eq, if_pos hneg]
  · intro hk hneg
    rw [advance_limited_speed_eq, if_pos]
    rw [if_pos hk.le, fdiv_of_pos F _ hk]
    exact hneg
  · intro e0 o d s0 hw
    have hwp : (set_origin_and_destination F K e0 o d s0)._wp_speed_cms = s0._wp_speed_cms :=
      (wp_leash_frame F K e0 _ _).2.2.1
    have hl : (set_origin_and_destination F K e0 o d s0)._limited_speed_xy_cms =
        constrain_float
          (e0.velocity.x * (set_origin_and_destination F K e0 o d s0)._pos_delta_unit.x
            + e0.velocity.y * (set_origin_and_destination F K e0 o d s0)._pos_delta_unit.y
            + e0.velocity.z * (set_origin_and_destination F K e0 o d s0)._pos_delta_unit.z)
          0 (set_origin_and_destination F K e0 o d s0)._wp_speed_cms := rfl
    rw [hl, hwp]
    exact ⟨le_constrain_float _ hw, constrain_float_le _ hw⟩

theorem scenario_segment_first_limit :
    (advance_target_along_track ⟨Real.sqrt, fun _ => 0⟩ scenario_consts
      (scenario_env 2 ⟨0, 0, 0⟩) (1 / 10)
      (scenario_segment ⟨Real.sqrt, fun _ => 0⟩))._limited_speed_xy_cms = 50 := by
  obtain ⟨h1, h2, h3, h4, h5, h6, h7, h8, h9, h10, h11⟩ := scenario_segment_eq (fun _ => 0)
  rw [advance_limited_speed_eq]
  simp only [h3, h8, h9]
  norm_num [scenario_env, scenario_consts, fdiv, constrain_float]

/-- C24 on the scenario segment (limit `0`, waypoint speed `500`, acceleration `250`,
vehicle at rest): the first call with `dt = 0.1` gives the limit `50`, within
`[0, 500]`. -/
theorem C24_limited_speed_bounds_witness :
    0 ≤ (scenario_consts : Consts ℝ).WPNAV_ACCELERATION ∧
    0 ≤ (scenario_segment (⟨Real.sqrt, fun _ => 0⟩ : FloatOps ℝ))._limited_speed_xy_cms ∧
    (scenario_segment (⟨Real.sqrt, fun _ => 0⟩ : FloatOps ℝ))._limited_speed_xy_cms
      ≤ (scenario_segment (⟨Real.sqrt, fun _ => 0⟩ : FloatOps ℝ))._wp_speed_cms ∧
    (advance_target_along_track ⟨Real.sqrt, fun _ => 0⟩ scenario_consts
      (scenario_env 2 ⟨0, 0, 0⟩) (1 / 10)
      (scenario_segment ⟨Real.sqrt, fun _ => 0⟩))._limited_speed_xy_cms = 50 ∧
    0 ≤ (advance_target_along_track ⟨Real.sqrt, fun _ => 0⟩ scenario_consts
      (scenario_env 2 ⟨0, 0, 0⟩) (1 / 10)
      (scenario_segment ⟨Real.sqrt, fun _ => 0⟩))._limited_speed_xy_cms ∧
    (advance_target_along_track ⟨Real.sqrt, fun _ => 0⟩ scenario_consts
      (scenario_env 2 ⟨0, 0, 0⟩) (1 / 10)
      (scenario_segment ⟨Real.sqrt, fun _ => 0⟩))._limited_speed_xy_cms
      ≤ (advance_target_along_track ⟨Real.sqrt, fun _ => 0⟩ scenario_consts
        (scenario_env 2 ⟨0, 0, 0⟩) (1 / 10)
        (scenario_segment ⟨Real.sqrt, fun _ => 0⟩))._wp_speed_cms := by
  obtain ⟨h1, h2, h3, h4, h5, h6, h7, h8, h9, h10, h11⟩ := scenario_segment_eq (fun _ => 0)
  have ha : 0 ≤ (scenario_consts : Consts ℝ).WPNAV_ACCELERATION := by
    norm_num [scenario_consts]
  have g0 : 0 ≤ (scenario_segment (⟨Real.sqrt, fun _ => 0⟩ : FloatOps ℝ))._limited_speed_xy_cms :=
    by rw [h8]
  have g1 : (scenario_segment (⟨Real.sqrt, fun _ => 0⟩ : FloatOps ℝ))._limited_speed_xy_cms
      ≤ (scenario_segment (⟨Real.sqrt, fun _ => 0⟩ : FloatOps ℝ))._wp_speed_cms := by
    rw [h8, h9]
    norm_num
  have h := C24_limited_speed_bounds ⟨Real.sqrt, fun _ => 0⟩ scenario_consts
    (scenario_env 2 ⟨0, 0, 0⟩) (1 / 10) (scenario_segment ⟨Real.sqrt, fun _ => 0⟩) ha g0 g1
  exact ⟨ha, g0, g1, scenario_segment_first_limit, h.1, h.2.1⟩

end LimitedSpeed

end AC_WPNav
